import Mathlib

/-! 3DModelViewer: the window callback and the message loop of `3DModelViewer_Main.cpp`

A shallow embedding of `MainWindowCallback` (pointer drag, wheel zoom, GUI
priority), of the start-up code and the loop `while (running)` of `WinMain`
(rendering, backend switch, model loading) and of the light list of
`SceneWindow::UpdateAndRender`, together with the parts of the MATH /
GRAPHICS libraries and of the GUI they call.

Conventions of the embedding.

* `float` is idealised as a field `α` (for instance `ℚ` or `ℝ`), of
  characteristic zero where the division by `120` of the zoom matters:
  rounding, infinities and NaN are not modelled.
* `int` is `Int`.  Pointer coordinates come out of `GET_X_LPARAM` /
  `GET_Y_LPARAM`, which are 16-bit signed values, so no `int` computation of
  the callback overflows.
* The MATH and GRAPHICS libraries are not part of the sources.  Vectors,
  4x4 matrices and their products are the standard ones; the rotation
  builders, `Normalize`, `FromUpAndForward`, `LookAtFrom` and
  `DegreesToRadians` are taken as parameters (`MathLibrary`).
* The globals of the translation unit that the callback reads or writes are
  the fields of `Globals`; results of the Win32 / ImGui calls made by the
  callback are the fields of `External`.
* One iteration of the message loop is `Frame`.  What it receives from
  outside (queued messages, the effect of `Gui::UpdateAndRender`, the results
  of device creation, GUI initialisation and model loading) is a `FrameInput`;
  the calls it makes on the rendering devices are recorded in order as
  `DeviceCall`s.  A call through a null device pointer or an empty GUI
  optional is a `Fault`.
-/

namespace ModelViewer

/-! ## MATH: vectors and matrices -/

/-- Modelled from the spec: `MATH::Vector3f`, a 3D point or direction with
components `X`, `Y`, `Z` (the class itself is not in the sources). -/
structure Vector3 (α : Type) where
  X : α
  Y : α
  Z : α
deriving DecidableEq

/-- Modelled from the spec: `MATH::Vector4f`, a homogeneous 4-component
vector (the class itself is not in the sources). -/
structure Vector4 (α : Type) where
  X : α
  Y : α
  Z : α
  W : α
deriving DecidableEq

/-- Modelled from the spec: `MATH::Matrix4x4f`, a 4x4 matrix of scalars with
the usual matrix product (the class itself is not in the sources). -/
abbrev Matrix4x4 (α : Type) := Matrix (Fin 4) (Fin 4) α

namespace Vector3

variable {α : Type}

/-- Subtraction `operator-` of `MATH::Vector3f`: componentwise difference. -/
def Sub [Sub α] (a b : Vector3 α) : Vector3 α :=
  ⟨a.X - b.X, a.Y - b.Y, a.Z - b.Z⟩

/-- Addition `operator+=` of `MATH::Vector3f`: componentwise sum. -/
def Add [Add α] (a b : Vector3 α) : Vector3 α :=
  ⟨a.X + b.X, a.Y + b.Y, a.Z + b.Z⟩

/-- Scaling `MATH::Vector3f::Scale(scalar, vector)`: componentwise product. -/
def Scale [Mul α] (s : α) (v : Vector3 α) : Vector3 α :=
  ⟨s * v.X, s * v.Y, s * v.Z⟩

end Vector3

namespace Vector4

variable {α : Type}

/-- Function `MATH::Vector4f::HomogeneousPositionVector`: the point with `W = 1`. -/
def HomogeneousPositionVector [One α] (v : Vector3 α) : Vector4 α :=
  ⟨v.X, v.Y, v.Z, 1⟩

/-- The `X`, `Y`, `Z` components, as in
`MATH::Vector3f(h.X, h.Y, h.Z)`. -/
def XYZ (h : Vector4 α) : Vector3 α :=
  ⟨h.X, h.Y, h.Z⟩

end Vector4

namespace Matrix4x4

variable {α : Type}

/-- Function `MATH::Matrix4x4f::Identity()`. -/
def Identity [Zero α] [One α] : Matrix4x4 α := 1

/-- Product `operator*` of a matrix and a `Vector4f`: the matrix applied to
the column vector. -/
def MulVector [Add α] [Mul α] (m : Matrix4x4 α) (v : Vector4 α) : Vector4 α :=
  ⟨m 0 0 * v.X + m 0 1 * v.Y + m 0 2 * v.Z + m 0 3 * v.W,
   m 1 0 * v.X + m 1 1 * v.Y + m 1 2 * v.Z + m 1 3 * v.W,
   m 2 0 * v.X + m 2 1 * v.Y + m 2 2 * v.Z + m 2 3 * v.W,
   m 3 0 * v.X + m 3 1 * v.Y + m 3 2 * v.Z + m 3 3 * v.W⟩

end Matrix4x4

/-! ## GRAPHICS: the camera -/

/-- Enumeration `GRAPHICS::VIEWING::ProjectionType`. -/
inductive ProjectionType where
  | ORTHOGRAPHIC
  | PERSPECTIVE
deriving DecidableEq

/-- Modelled from the spec: `MATH::CoordinateFrame`, the three axes
`Up`, `Right`, `Forward` of the camera (the class itself is not in the
sources). -/
structure CoordinateFrame (α : Type) where
  Up : Vector3 α
  Right : Vector3 α
  Forward : Vector3 α
deriving DecidableEq

/-- Modelled from the spec: the viewing plane of the camera, with the three
scalars edited by `CameraWindow::UpdateAndRender`. -/
structure ViewingPlane (α : Type) where
  FocalLength : α
  Width : α
  Height : α
deriving DecidableEq

/-- Modelled from the spec: `GRAPHICS::VIEWING::Camera`, with the fields the
application reads and writes (the class itself is not in the sources). -/
structure Camera (α : Type) where
  WorldPosition : Vector3 α
  CoordinateFrame : CoordinateFrame α
  Projection : ProjectionType
  NearClipPlaneViewDistance : α
  FarClipPlaneViewDistance : α
  FieldOfView : α
  ViewingPlane : ViewingPlane α
deriving DecidableEq

/-- The functions of the MATH / GRAPHICS libraries called by the application
whose bodies are not in the sources. -/
structure MathLibrary (α : Type) where
  /-- Function `MATH::Angle<float>::DegreesToRadians`. -/
  DegreesToRadians : α → α
  /-- Function `MATH::Matrix4x4f::RotateX`. -/
  RotateX : α → Matrix4x4 α
  /-- Function `MATH::Matrix4x4f::RotateY`. -/
  RotateY : α → Matrix4x4 α
  /-- Function `MATH::Matrix4x4f::RotateZ`. -/
  RotateZ : α → Matrix4x4 α
  /-- Function `MATH::Vector3f::Normalize`. -/
  Normalize : Vector3 α → Vector3 α
  /-- Function `MATH::CoordinateFrame::FromUpAndForward`. -/
  FromUpAndForward : Vector3 α → Vector3 α → CoordinateFrame α
  /-- Function `GRAPHICS::VIEWING::Camera::LookAtFrom(look_at, from)`. -/
  LookAtFrom : Vector3 α → Vector3 α → Camera α

/-! ## Win32 message parameters -/

/-- Macro `LOWORD`: the low 16 bits of a message parameter. -/
def LOWORD (param : Nat) : Nat := param % 65536

/-- Macro `HIWORD`: bits 16 to 31 of a message parameter. -/
def HIWORD (param : Nat) : Nat := (param / 65536) % 65536

/-- The cast `(short)`: a 16-bit word read as a signed integer. -/
def toShort (word : Nat) : Int :=
  if word % 65536 < 32768 then ((word % 65536 : Nat) : Int)
  else ((word % 65536 : Nat) : Int) - 65536

/-- Macro `GET_X_LPARAM(l_param)`: `(int)(short)LOWORD(l_param)`. -/
def GET_X_LPARAM (l_param : Nat) : Int := toShort (LOWORD l_param)

/-- Macro `GET_Y_LPARAM(l_param)`: `(int)(short)HIWORD(l_param)`. -/
def GET_Y_LPARAM (l_param : Nat) : Int := toShort (HIWORD l_param)

/-- Macro `GET_WHEEL_DELTA_WPARAM(w_param)`: `(short)HIWORD(w_param)`. -/
def GET_WHEEL_DELTA_WPARAM (w_param : Nat) : Int := toShort (HIWORD w_param)

/-- The window messages distinguished by the `switch` of
`MainWindowCallback`; every other message is `OTHER`. -/
inductive WindowMessage where
  | WM_CREATE
  | WM_SIZE
  | WM_DESTROY
  | WM_CLOSE
  | WM_ACTIVATEAPP
  | WM_SYSKEYDOWN
  | WM_SYSKEYUP
  | WM_KEYUP
  | WM_KEYDOWN
  | WM_LBUTTONDOWN
  | WM_LBUTTONUP
  | WM_MOUSEMOVE
  | WM_MOUSEWHEEL
  | WM_PAINT
  | OTHER (code : Nat)
deriving DecidableEq

/-- What the Win32 and ImGui calls made by one run of the callback return. -/
structure External where
  /-- Result of `ImGui_ImplWin32_WndProcHandler`. -/
  event_handled_by_gui : Bool
  /-- Whether `ImGui::GetCurrentContext()` is non-null. -/
  im_gui_context : Bool
  /-- The flag `io.WantCaptureMouse`. -/
  WantCaptureMouse : Bool
  /-- The flag `io.WantCaptureKeyboard`. -/
  WantCaptureKeyboard : Bool
  /-- Result of `DefWindowProcA`. -/
  DefWindowProcA : Int
deriving DecidableEq

/-- The globals of `3DModelViewer_Main.cpp` used by the callback. -/
structure Globals (α : Type) where
  g_camera : Camera α
  g_mouse_down : Bool
  g_previous_mouse_x : Int
  g_previous_mouse_y : Int
  g_scene_changed : Bool
deriving DecidableEq

/-! ## The drag computation of the `WM_MOUSEMOVE` case -/

section Drag

variable {α : Type} [Field α]

/-- Local `max_2d_drag_distance`. -/
def max_2d_drag_distance (dx dy : Int) : Int := max dx dy

/-- Local `z_drag_amount`. -/
def z_drag_amount (dx dy : Int) : Int := max_2d_drag_distance dx dy - (dy - dx)

/-- Local `x_rotation_amount_in_degrees`:
`X_ROTATION_AMOUNT_IN_DEGREES_PER_PIXEL * -mouse_x_drag_distance_in_pixels`. -/
def x_rotation_amount_in_degrees (dx : Int) : α := 5 * (((-dx : Int)) : α)

/-- Local `y_rotation_amount_in_degrees`:
`Y_ROTATION_AMOUNT_IN_DEGREES_PER_PIXEL * -mouse_y_drag_distance_in_pixels`. -/
def y_rotation_amount_in_degrees (dy : Int) : α := 2 * (((-dy : Int)) : α)

/-- Local `z_rotation_amount_in_degrees`:
`Z_ROTATION_AMOUNT_IN_DEGREES_PER_PIXEL * z_drag_amount`. -/
def z_rotation_amount_in_degrees (dx dy : Int) : α :=
  2 * ((z_drag_amount dx dy : Int) : α)

/-- The constant `Z_THRESHOLD`. -/
def Z_THRESHOLD : Int := 30

/-- Local `camera_y_rotation_matrix` after the two threshold tests. -/
def camera_y_rotation_matrix (M : MathLibrary α) (dx dy : Int) : Matrix4x4 α :=
  if |z_drag_amount dx dy| ≤ Z_THRESHOLD then
    M.RotateY (M.DegreesToRadians (x_rotation_amount_in_degrees dx))
  else Matrix4x4.Identity

/-- Local `camera_x_rotation_matrix` after the two threshold tests. -/
def camera_x_rotation_matrix (M : MathLibrary α) (dx dy : Int) : Matrix4x4 α :=
  if |z_drag_amount dx dy| ≤ Z_THRESHOLD then
    M.RotateX (M.DegreesToRadians (y_rotation_amount_in_degrees dy))
  else Matrix4x4.Identity

/-- Local `camera_z_rotation_matrix` after the two threshold tests. -/
def camera_z_rotation_matrix (M : MathLibrary α) (dx dy : Int) : Matrix4x4 α :=
  if |z_drag_amount dx dy| > Z_THRESHOLD * 10 then
    M.RotateZ (M.DegreesToRadians (z_rotation_amount_in_degrees dx dy))
  else Matrix4x4.Identity

/-- Local `camera_rotation_matrix`. -/
def camera_rotation_matrix (M : MathLibrary α) (dx dy : Int) : Matrix4x4 α :=
  camera_y_rotation_matrix M dx dy * camera_x_rotation_matrix M dx dy
    * camera_z_rotation_matrix M dx dy

/-- The block "ROTATE THE CAMERA" of the `WM_MOUSEMOVE` case: the camera
after the rotation `rotation` has been applied to it. -/
def RotateCamera (M : MathLibrary α) (rotation : Matrix4x4 α) (camera : Camera α) :
    Camera α :=
  let original_camera_position := Vector4.HomogeneousPositionVector camera.WorldPosition
  let new_camera_position_homogeneous := Matrix4x4.MulVector rotation original_camera_position
  let new_camera_position := Vector4.XYZ new_camera_position_homogeneous
  let camera_view_direction := Vector3.Sub ⟨0, 0, 0⟩ new_camera_position
  let normalized_camera_view_direction := M.Normalize camera_view_direction
  let negative_camera_view_direction := Vector3.Scale (-1) normalized_camera_view_direction
  let homogeneous_up := Vector4.HomogeneousPositionVector camera.CoordinateFrame.Up
  let homogeneous_transformed_up := Matrix4x4.MulVector rotation homogeneous_up
  let transformed_up := Vector4.XYZ homogeneous_transformed_up
  { camera with
    WorldPosition := new_camera_position
    CoordinateFrame := M.FromUpAndForward transformed_up negative_camera_view_direction
    Projection := ProjectionType.PERSPECTIVE
    NearClipPlaneViewDistance := 1
    FarClipPlaneViewDistance := 1000 }

/-- Local `mouse_x_drag_distance_in_pixels`. -/
def mouse_x_drag_distance_in_pixels (g : Globals α) (l_param : Nat) : Int :=
  GET_X_LPARAM l_param - g.g_previous_mouse_x

/-- Local `mouse_y_drag_distance_in_pixels`. -/
def mouse_y_drag_distance_in_pixels (g : Globals α) (l_param : Nat) : Int :=
  GET_Y_LPARAM l_param - g.g_previous_mouse_y

/-- The body of `if (g_mouse_down)` in the `WM_MOUSEMOVE` case. -/
def MouseDrag (M : MathLibrary α) (g : Globals α) (l_param : Nat) : Globals α :=
  let dx := mouse_x_drag_distance_in_pixels g l_param
  let dy := mouse_y_drag_distance_in_pixels g l_param
  { g with
    g_scene_changed := true
    g_camera := RotateCamera M (camera_rotation_matrix M dx dy) g.g_camera
    g_previous_mouse_x := GET_X_LPARAM l_param
    g_previous_mouse_y := GET_Y_LPARAM l_param }

/-- The `WM_MOUSEWHEEL` case up to the fall-through into `WM_PAINT`. -/
def MouseWheel (g : Globals α) (w_param : Nat) : Globals α :=
  let wheel_rotations_delta : Int := GET_WHEEL_DELTA_WPARAM w_param
  let zoom_units : α := (wheel_rotations_delta : α) / 120
  let signed_zoom_distance : α := (-1) * 1 * zoom_units
  let zoom_movement_vector :=
    Vector3.Scale signed_zoom_distance g.g_camera.CoordinateFrame.Forward
  { g with
    g_scene_changed := true
    g_camera :=
      { g.g_camera with
        WorldPosition := Vector3.Add g.g_camera.WorldPosition zoom_movement_vector } }

/-- Function `MainWindowCallback`: the result of the callback and the globals after
it.  `PostQuitMessage`, `BeginPaint`, `EndPaint` and `OutputDebugString` do
not touch the globals and are left out. -/
def MainWindowCallback (M : MathLibrary α) (ext : External) (g : Globals α)
    (message : WindowMessage) (w_param l_param : Nat) : Int × Globals α :=
  if ext.event_handled_by_gui then (1, g)
  else if ext.im_gui_context && (ext.WantCaptureMouse || ext.WantCaptureKeyboard) then
    (1, { g with g_scene_changed := true })
  else
    match message with
    | .WM_CREATE => (0, g)
    | .WM_SIZE => (0, g)
    | .WM_DESTROY => (0, g)
    | .WM_CLOSE => (0, g)
    | .WM_ACTIVATEAPP => (0, g)
    | .WM_SYSKEYDOWN => (0, g)
    | .WM_SYSKEYUP => (0, g)
    | .WM_KEYUP => (0, g)
    | .WM_KEYDOWN => (0, g)
    | .WM_LBUTTONDOWN =>
        (0, { g with
              g_mouse_down := true
              g_previous_mouse_x := GET_X_LPARAM l_param
              g_previous_mouse_y := GET_Y_LPARAM l_param })
    | .WM_LBUTTONUP => (0, { g with g_mouse_down := false })
    | .WM_MOUSEMOVE => if g.g_mouse_down then (0, MouseDrag M g l_param) else (0, g)
    | .WM_MOUSEWHEEL => (0, MouseWheel g w_param)
    | .WM_PAINT => (0, g)
    | .OTHER _ => (ext.DefWindowProcA, g)

/-- The GUI does not claim the event: neither early return of the callback
is taken. -/
def External.unclaimed (ext : External) : Prop :=
  ext.event_handled_by_gui = false ∧
    (ext.im_gui_context && (ext.WantCaptureMouse || ext.WantCaptureKeyboard)) = false

end Drag

/-! ## A sample instance of the library interface

The model can be run on `ℚ`.  Exact rotations with rational entries come
from the rational parametrisation of the unit circle: the parameter `t`
stands for the tangent of half the rotation angle. -/

/-- Cosine of the angle whose half-angle tangent is `t`. -/
def sampleCos (t : ℚ) : ℚ := (1 - t * t) / (1 + t * t)

/-- Sine of the angle whose half-angle tangent is `t`. -/
def sampleSin (t : ℚ) : ℚ := 2 * t / (1 + t * t)

/-- Cross product of two vectors. -/
def sampleCross (a b : Vector3 ℚ) : Vector3 ℚ :=
  ⟨a.Y * b.Z - a.Z * b.Y, a.Z * b.X - a.X * b.Z, a.X * b.Y - a.Y * b.X⟩

/-- A sample library over `ℚ`: rotation matrices about the three axes, no
rescaling in `Normalize`, and frames whose `Right` is the cross product of
`Up` and `Forward`. -/
def sampleMath : MathLibrary ℚ where
  DegreesToRadians d := d / 180
  RotateX t := !![1, 0, 0, 0;
                  0, sampleCos t, -sampleSin t, 0;
                  0, sampleSin t, sampleCos t, 0;
                  0, 0, 0, 1]
  RotateY t := !![sampleCos t, 0, sampleSin t, 0;
                  0, 1, 0, 0;
                  -sampleSin t, 0, sampleCos t, 0;
                  0, 0, 0, 1]
  RotateZ t := !![sampleCos t, -sampleSin t, 0, 0;
                  sampleSin t, sampleCos t, 0, 0;
                  0, 0, 1, 0;
                  0, 0, 0, 1]
  Normalize v := v
  FromUpAndForward up forward := ⟨up, sampleCross up forward, forward⟩
  LookAtFrom look_at from_position :=
    { WorldPosition := from_position
      CoordinateFrame :=
        ⟨⟨0, 1, 0⟩, sampleCross ⟨0, 1, 0⟩ (Vector3.Sub from_position look_at),
          Vector3.Sub from_position look_at⟩
      Projection := ProjectionType.ORTHOGRAPHIC
      NearClipPlaneViewDistance := 1
      FarClipPlaneViewDistance := 500
      FieldOfView := 70
      ViewingPlane := ⟨1, 4, 3⟩ }

/-- A camera at `(0, 5, 20)` with `Up = (0, 1, 0)`, orthographic and with
clip distances other than the defaults of the drag handler. -/
def sampleCamera : Camera ℚ :=
  { WorldPosition := ⟨0, 5, 20⟩
    CoordinateFrame := ⟨⟨0, 1, 0⟩, ⟨1, 0, 0⟩, ⟨0, 0, 1⟩⟩
    Projection := ProjectionType.ORTHOGRAPHIC
    NearClipPlaneViewDistance := 2
    FarClipPlaneViewDistance := 500
    FieldOfView := 70
    ViewingPlane := ⟨1, 4, 3⟩ }

/-- Globals in the middle of a drag: button down at pixel `(100, 100)`. -/
def sampleGlobals : Globals ℚ :=
  { g_camera := sampleCamera
    g_mouse_down := true
    g_previous_mouse_x := 100
    g_previous_mouse_y := 100
    g_scene_changed := false }

/-- An event that the GUI does not claim. -/
def sampleExternal : External :=
  { event_handled_by_gui := false
    im_gui_context := true
    WantCaptureMouse := false
    WantCaptureKeyboard := false
    DefWindowProcA := 0 }

/-- The `l_param` of a pointer message at pixel `(x, y)`, both coordinates
being at least `0` and below `32768`: `MAKELPARAM(x, y)`. -/
def MAKELPARAM (x y : Nat) : Nat := x % 65536 + 65536 * (y % 65536)

/-! ## Sequences of window messages -/

/-- One message dispatched to the window procedure, with what the Win32 and
ImGui calls of that run of the callback return. -/
structure Message where
  ext : External
  message : WindowMessage
  w_param : Nat
  l_param : Nat
deriving DecidableEq

/-- The globals after the callback has handled one message. -/
def Dispatch {α : Type} [Field α] (M : MathLibrary α) (g : Globals α) (m : Message) :
    Globals α :=
  (MainWindowCallback M m.ext g m.message m.w_param m.l_param).2

/-- The globals after the callback has handled the messages of a list, in
order. -/
def DispatchAll {α : Type} [Field α] (M : MathLibrary α) :
    Globals α → List Message → Globals α
  | g, [] => g
  | g, m :: rest => DispatchAll M (Dispatch M g m) rest

/-- The GUI claims the event: one of the two early returns of the callback
is taken. -/
def External.claimed (ext : External) : Prop :=
  ext.event_handled_by_gui = true ∨
    (ext.im_gui_context && (ext.WantCaptureMouse || ext.WantCaptureKeyboard)) = true

/-- The list contains a `WM_LBUTTONDOWN` with no `WM_LBUTTONUP` after it. -/
def ButtonDownWithNoLaterButtonUp (msgs : List Message) : Prop :=
  ∃ pre m post, msgs = pre ++ m :: post ∧ m.message = WindowMessage.WM_LBUTTONDOWN ∧
    ∀ m' ∈ post, m'.message ≠ WindowMessage.WM_LBUTTONUP

/-- An unclaimed message of the given kind with the given parameters. -/
def sampleMessage (message : WindowMessage) (w_param l_param : Nat) : Message :=
  { ext := sampleExternal, message := message, w_param := w_param, l_param := l_param }

/-- Globals before any button has been pressed, with the sample camera. -/
def sampleIdleGlobals : Globals ℚ :=
  { g_camera := sampleCamera
    g_mouse_down := false
    g_previous_mouse_x := 0
    g_previous_mouse_y := 0
    g_scene_changed := false }

/-- An event that the ImGui window-procedure handler reports as handled. -/
def sampleHandledExternal : External :=
  { event_handled_by_gui := true
    im_gui_context := true
    WantCaptureMouse := false
    WantCaptureKeyboard := false
    DefWindowProcA := 0 }

/-- An event during which the GUI wants to capture the mouse. -/
def sampleCapturingExternal : External :=
  { event_handled_by_gui := false
    im_gui_context := true
    WantCaptureMouse := true
    WantCaptureKeyboard := false
    DefWindowProcA := 0 }

/-- A press at `(10, 20)`, a move, a release, a second press at `(30, 40)`
and a move, none of them claimed by the GUI. -/
def sampleDragMessages : List Message :=
  [sampleMessage WindowMessage.WM_LBUTTONDOWN 0 (MAKELPARAM 10 20),
   sampleMessage WindowMessage.WM_MOUSEMOVE 0 (MAKELPARAM 11 20),
   sampleMessage WindowMessage.WM_LBUTTONUP 0 (MAKELPARAM 11 20),
   sampleMessage WindowMessage.WM_LBUTTONDOWN 0 (MAKELPARAM 30 40),
   sampleMessage WindowMessage.WM_MOUSEMOVE 0 (MAKELPARAM 31 41)]

/-! ## GRAPHICS: devices, scene and settings

The classes of this section are declared in headers that are not part of the
sources; they are modelled with the members that the sources read and write.
The type `Mdl` stands for `GRAPHICS::MODELING::Model` and `Sph` for
`GRAPHICS::GEOMETRY::Sphere`. -/

/-- Enumeration `GRAPHICS::HARDWARE::GraphicsDeviceType`, with the four values
used by `Gui::Create` and `RendererSettingsWindow::UpdateAndRender`. -/
inductive GraphicsDeviceType where
  | CPU_RASTERIZER
  | CPU_RAY_TRACER
  | OPEN_GL
  | DIRECT_3D
deriving DecidableEq

/-- Modelled from the spec: `GRAPHICS::Color`, with the four components read
by `ColorEditor::DisplayAndAllowEditing`. -/
structure Color (α : Type) where
  Red : α
  Green : α
  Blue : α
  Alpha : α
deriving DecidableEq

/-- Enumeration `GRAPHICS::SHADING::LIGHTING::LightType`. -/
inductive LightType where
  | AMBIENT
  | POINT
  | DIRECTIONAL
deriving DecidableEq

/-- Modelled from the spec: `GRAPHICS::SHADING::LIGHTING::Light`, with the
members edited by `LightPanel::UpdateAndRender` (`Type_` is the member
`Type`). -/
structure Light (α : Type) where
  Type_ : LightType
  Color : Color α
  DirectionalLightDirection : Vector3 α
  PointLightWorldPosition : Vector3 α
deriving DecidableEq

/-- Modelled from the spec: `GRAPHICS::Object3D`, with the members edited by
`ObjectPanel::UpdateAndRender`. -/
structure Object3D (α Mdl Sph : Type) where
  WorldPosition : Vector3 α
  RotationInRadians : Vector3 α
  Scale : Vector3 α
  Model : Mdl
  Spheres : List Sph
deriving DecidableEq

/-- Modelled from the spec: `GRAPHICS::Scene`, with the members used by
`WinMain` and `SceneWindow::UpdateAndRender`. -/
structure Scene (α Mdl Sph : Type) where
  BackgroundColor : Color α
  Lights : List (Light α)
  Objects : List (Object3D α Mdl Sph)
deriving DecidableEq

/-- Lighting part of the rendering settings, with the members edited by
`RendererSettingsWindow::UpdateAndRender`. -/
structure LightingSettings where
  Enabled : Bool
  RenderPointLights : Bool
  AmbientLightingEnabled : Bool
  ShadowsEnabled : Bool
  DiffuseLightingEnabled : Bool
  SpecularLightingEnabled : Bool
deriving DecidableEq

/-- Enumeration `GRAPHICS::SHADING::ShadingType`. -/
inductive ShadingType where
  | WIREFRAME
  | FLAT
  | MATERIAL
deriving DecidableEq

/-- Shading part of the rendering settings. -/
structure ShadingSettings where
  Lighting : LightingSettings
  ShadingType : ShadingType
  TextureMappingEnabled : Bool
deriving DecidableEq

/-- Modelled from the spec: `GRAPHICS::RenderingSettings`, with the members
edited by `RendererSettingsWindow::UpdateAndRender`. -/
structure RenderingSettings where
  GraphicsDeviceType : GraphicsDeviceType
  UseCpuSimd : Bool
  CullBackfaces : Bool
  DepthBuffering : Bool
  Shading : ShadingSettings
  Reflections : Bool
  MaxReflectionCount : Nat
deriving DecidableEq

/-- A rendering device behind `GRAPHICS::HARDWARE::IGraphicsDevice`: `Handle`
tells devices apart and `Type_` is what its method `Type()` returns. -/
structure GraphicsDevice where
  Handle : Nat
  Type_ : GraphicsDeviceType
deriving DecidableEq

/-- The calls that `WinMain` makes on the rendering devices, in the order in
which they are made.  `Create` is `IGraphicsDevice::Create` with the device
it returned (`none` for a null pointer). -/
inductive DeviceCall (α Mdl Sph : Type) where
  | Render (device : GraphicsDevice) (scene : Scene α Mdl Sph) (camera : Camera α)
      (settings : RenderingSettings)
  | DisplayRenderedImage (device : GraphicsDevice)
  | Shutdown (device : GraphicsDevice)
  | Create (type : GraphicsDeviceType) (result : Option GraphicsDevice)
  | Load (device : GraphicsDevice) (object : Object3D α Mdl Sph)

/-- Whether a call is a `Render`. -/
def DeviceCall.isRender {α Mdl Sph : Type} : DeviceCall α Mdl Sph → Bool
  | .Render _ _ _ _ => true
  | _ => false

/-- The number of `Render` calls in a sequence of calls. -/
def RenderCount {α Mdl Sph : Type} (calls : List (DeviceCall α Mdl Sph)) : Nat :=
  (calls.filter DeviceCall.isRender).length

/-- The `Load` calls of a sequence of calls, in order, each with its device
and its object. -/
def LoadCalls {α Mdl Sph : Type} (calls : List (DeviceCall α Mdl Sph)) :
    List (GraphicsDevice × Object3D α Mdl Sph) :=
  calls.filterMap fun call =>
    match call with
    | .Load device object => some (device, object)
    | _ => none

/-! ## GUI -/

/-- Class `GUI::WINDOWS::RendererSettingsWindow`. -/
structure RendererSettingsWindow where
  IsOpen : Bool := false
deriving DecidableEq

/-- Class `GUI::WINDOWS::CameraWindow`. -/
structure CameraWindow where
  IsOpen : Bool := false
deriving DecidableEq

/-- Class `GUI::WINDOWS::SceneWindow`. -/
structure SceneWindow where
  IsOpen : Bool := false
deriving DecidableEq

/-- Class `GUI::Gui`, with the default member initialisers of `Gui.h`. -/
structure Gui where
  SelectedFilepath : String := ""
  RendererSettingsWindow : RendererSettingsWindow := {}
  CameraWindow : CameraWindow := {}
  SceneWindow : SceneWindow := {}
  ImGuiMetricsWindowOpen : Bool := false
  ImGuiDemoWindowOpen : Bool := false
deriving DecidableEq

/-- What the ImGui initialisation calls made by `Gui::Create` return. -/
structure GuiCreateExternal where
  /-- Result of `ImGui_ImplWin32_Init`. -/
  imgui_initialized : Bool
  /-- Result of `ImGui_ImplOpenGL3_Init`. -/
  imgui_open_gl_initializated : Bool
  /-- Result of `ImGui_ImplDX11_Init`. -/
  imgui_direct_x_initialized : Bool
deriving DecidableEq

/-- Function `Gui::Create`, with the assertions of `ASSERT_THEN_IF` and
`ASSERT_THEN_IF_NOT` compiled out: `none` is `std::nullopt`. -/
def Gui.Create (ext : GuiCreateExternal) (graphics_device : GraphicsDevice) : Option Gui :=
  if ext.imgui_initialized then
    match graphics_device.Type_ with
    | .CPU_RASTERIZER => some {}
    | .CPU_RAY_TRACER => some {}
    | .OPEN_GL => if !ext.imgui_open_gl_initializated then none else some {}
    | .DIRECT_3D => if !ext.imgui_direct_x_initialized then none else some {}
  else none

/-- What `Gui::UpdateAndRender` leaves in the GUI object and in its three
in-out arguments; it depends on the user's interaction with the widgets. -/
structure GuiUpdate (α Mdl Sph : Type) where
  gui : Gui
  scene : Scene α Mdl Sph
  camera : Camera α
  rendering_settings : RenderingSettings

/-! ## The message loop of `WinMain` -/

/-- A message returned by `PeekMessageA`: `WM_QUIT`, or a message that
`DispatchMessage` hands to the window procedure. -/
inductive QueuedMessage where
  | WM_QUIT
  | window (m : Message)
deriving DecidableEq

/-- What one iteration of the message loop receives from outside: the
messages returned by `PeekMessageA` until the queue is empty, the effect of
`Gui::UpdateAndRender`, and the results of `IGraphicsDevice::Create`, of the
ImGui initialisation in `Gui::Create` and of `WavefrontObjectModel::Load`,
which are used only if the iteration makes those calls. -/
structure FrameInput (α Mdl Sph : Type) where
  messages : List QueuedMessage
  gui_update : GuiUpdate α Mdl Sph
  created_device : Option GraphicsDevice
  gui_create : GuiCreateExternal
  loaded_model : Option Mdl

/-- The globals and the locals of `WinMain` that live across iterations of
the message loop. -/
structure AppState (α Mdl Sph : Type) where
  globals : Globals α
  g_rendering_settings : RenderingSettings
  graphics_device : Option GraphicsDevice
  gui : Option Gui
  current_object : Option (Object3D α Mdl Sph)
  test_scene : Scene α Mdl Sph
  running : Bool

/-- Undefined behaviour that ends an iteration: a call through the null
`graphics_device` pointer, or an access through the empty `gui` optional. -/
inductive Fault where
  | null_graphics_device
  | empty_gui
deriving DecidableEq

/-- Outcome of one or more iterations: the calls made on the devices, the
state reached, and the fault, if one occurred (the state is then the one in
which it occurred). -/
structure FrameResult (α Mdl Sph : Type) where
  calls : List (DeviceCall α Mdl Sph)
  state : AppState α Mdl Sph
  fault : Option Fault

section Frame

variable {α : Type} [Field α] {Mdl Sph : Type}

/-- The block "INITIALIZE THE CAMERA" of `WinMain`. -/
def InitializeCamera (M : MathLibrary α) : Camera α :=
  { M.LookAtFrom ⟨0, 0, 0⟩ ⟨0, 5, 20⟩ with
    Projection := ProjectionType.PERSPECTIVE
    NearClipPlaneViewDistance := 1
    FarClipPlaneViewDistance := 1000 }

/-- The inner loop "PROCESS ANY MESSAGES FOR THE APPLICATION WINDOW": the
value of `running` and the globals when the loop is left. -/
def ProcessMessages (M : MathLibrary α) : Globals α → List QueuedMessage → Bool × Globals α
  | g, [] => (true, g)
  | g, .WM_QUIT :: _ => (false, g)
  | g, .window m :: rest => ProcessMessages M (Dispatch M g m) rest

/-- The block "RENDER THE TEST SCENE" with the reset of `g_scene_changed`
that follows it: the calls made and the globals afterwards. -/
def RenderTestScene (graphics_device : GraphicsDevice) (test_scene : Scene α Mdl Sph)
    (g : Globals α) (settings : RenderingSettings) :
    List (DeviceCall α Mdl Sph) × Globals α :=
  let calls :=
    if graphics_device.Type_ = GraphicsDeviceType.CPU_RAY_TRACER then
      if g.g_scene_changed then
        [DeviceCall.Render graphics_device test_scene g.g_camera settings]
      else []
    else [DeviceCall.Render graphics_device test_scene g.g_camera settings]
  (calls, { g with g_scene_changed := false })

/-- The block "LOAD A NEW MODEL IF APPLICABLE", entered after the calls
`calls` in the state `s`; `Object3D_default` is the value of
`GRAPHICS::Object3D()`. -/
def LoadNewModel (Object3D_default : Object3D α Mdl Sph) (inp : FrameInput α Mdl Sph)
    (calls : List (DeviceCall α Mdl Sph)) (s : AppState α Mdl Sph) : FrameResult α Mdl Sph :=
  match s.gui with
  | none => ⟨calls, s, some Fault.empty_gui⟩
  | some gui =>
    if gui.SelectedFilepath ≠ "" then
      match inp.loaded_model with
      | none => ⟨calls, s, none⟩
      | some current_model =>
        match s.graphics_device with
        | none => ⟨calls, s, some Fault.null_graphics_device⟩
        | some graphics_device =>
          let current_object := { Object3D_default with Model := current_model }
          ⟨calls ++ [DeviceCall.Load graphics_device current_object],
            { s with
              current_object := some current_object
              test_scene := { s.test_scene with Objects := [current_object] } },
            none⟩
    else ⟨calls, s, none⟩

/-- The block "SWITCH TYPES OF GRAPHICS DEVICES IF APPLICABLE" when the type
has changed, entered after the calls `calls` in the state `s` whose device is
`graphics_device`.  With a null new device the first use of it, in `Load` or
in the argument of `Gui::Create`, is a fault. -/
def SwitchGraphicsDevice (M : MathLibrary α) (inp : FrameInput α Mdl Sph)
    (graphics_device : GraphicsDevice) (calls : List (DeviceCall α Mdl Sph))
    (s : AppState α Mdl Sph) : FrameResult α Mdl Sph :=
  let new_graphics_device_type := s.g_rendering_settings.GraphicsDeviceType
  let calls_after_create :=
    calls ++ [DeviceCall.Shutdown graphics_device,
      DeviceCall.Create new_graphics_device_type inp.created_device]
  match inp.created_device with
  | none =>
    ⟨calls_after_create, { s with graphics_device := none }, some Fault.null_graphics_device⟩
  | some new_graphics_device =>
    ⟨calls_after_create ++ s.test_scene.Objects.map (DeviceCall.Load new_graphics_device),
      { s with
        graphics_device := some new_graphics_device
        gui := Gui.Create inp.gui_create new_graphics_device
        globals :=
          { s.globals with
            g_camera :=
              { M.LookAtFrom ⟨0, 0, 0⟩ ⟨0, 5, 20⟩ with
                Projection := ProjectionType.PERSPECTIVE
                NearClipPlaneViewDistance := 1
                FarClipPlaneViewDistance := 1000 } } },
      none⟩

/-- One iteration of the loop `while (running)` of `WinMain`. -/
def Frame (M : MathLibrary α) (Object3D_default : Object3D α Mdl Sph)
    (inp : FrameInput α Mdl Sph) (s : AppState α Mdl Sph) : FrameResult α Mdl Sph :=
  let processed := ProcessMessages M s.globals inp.messages
  let s1 := { s with running := processed.1, globals := processed.2 }
  match s.graphics_device with
  | none => ⟨[], s1, some Fault.null_graphics_device⟩
  | some graphics_device =>
    let rendered :=
      RenderTestScene graphics_device s.test_scene s1.globals s.g_rendering_settings
    let s2 := { s1 with globals := rendered.2 }
    match s.gui with
    | none => ⟨rendered.1, s2, some Fault.empty_gui⟩
    | some _ =>
      let old_graphics_device_type := s.g_rendering_settings.GraphicsDeviceType
      let s3 :=
        { s2 with
          gui := some inp.gui_update.gui
          test_scene := inp.gui_update.scene
          globals := { s2.globals with g_camera := inp.gui_update.camera }
          g_rendering_settings := inp.gui_update.rendering_settings }
      let new_graphics_device_type := s3.g_rendering_settings.GraphicsDeviceType
      let calls := rendered.1 ++ [DeviceCall.DisplayRenderedImage graphics_device]
      if old_graphics_device_type ≠ new_graphics_device_type then
        let switched := SwitchGraphicsDevice M inp graphics_device calls s3
        match switched.fault with
        | some _ => switched
        | none => LoadNewModel Object3D_default inp switched.calls switched.state
      else LoadNewModel Object3D_default inp calls s3

/-- The loop `while (running)` over the inputs of successive iterations: it
stops when `running` is false, at a fault, or when the inputs are used up. -/
def RunFrames (M : MathLibrary α) (Object3D_default : Object3D α Mdl Sph) :
    AppState α Mdl Sph → List (FrameInput α Mdl Sph) → FrameResult α Mdl Sph
  | s, [] => ⟨[], s, none⟩
  | s, inp :: rest =>
    if s.running then
      let first := Frame M Object3D_default inp s
      match first.fault with
      | some _ => first
      | none =>
        let others := RunFrames M Object3D_default first.state rest
        ⟨first.calls ++ others.calls, others.state, others.fault⟩
    else ⟨[], s, none⟩

end Frame

/-! ## Kinds of iterations and sample data for the message loop -/

/-- Whether a call is a `DisplayRenderedImage`. -/
def DeviceCall.isDisplayRenderedImage {α Mdl Sph : Type} : DeviceCall α Mdl Sph → Bool
  | .DisplayRenderedImage _ => true
  | _ => false

/-- The number of `DisplayRenderedImage` calls in a sequence of calls; every
iteration that reaches the GUI update makes exactly one. -/
def DisplayCount {α Mdl Sph : Type} (calls : List (DeviceCall α Mdl Sph)) : Nat :=
  (calls.filter DeviceCall.isDisplayRenderedImage).length

/-- The iteration drains no message and its GUI update leaves the settings
with the backend type `type`. -/
def FrameInput.eventFree {α Mdl Sph : Type} (type : GraphicsDeviceType)
    (inp : FrameInput α Mdl Sph) : Prop :=
  inp.messages = [] ∧ inp.gui_update.rendering_settings.GraphicsDeviceType = type

/-- The iteration drains exactly one message, a `WM_MOUSEMOVE` that the GUI
does not claim, and its GUI update leaves the settings with the backend type
`type`. -/
def FrameInput.oneDragMove {α Mdl Sph : Type} (type : GraphicsDeviceType)
    (inp : FrameInput α Mdl Sph) : Prop :=
  (∃ m : Message, inp.messages = [QueuedMessage.window m] ∧ m.ext.unclaimed ∧
      m.message = WindowMessage.WM_MOUSEMOVE) ∧
    inp.gui_update.rendering_settings.GraphicsDeviceType = type

/-- The application is running on the ray-tracing device `device`, the GUI
exists, the settings hold the backend type `type`, the dirty flag is clear and
the drag state is `down`. -/
def AppState.rayTracingAtRest {α Mdl Sph : Type} (device : GraphicsDevice)
    (type : GraphicsDeviceType) (down : Bool) (s : AppState α Mdl Sph) : Prop :=
  s.graphics_device = some device ∧ device.Type_ = GraphicsDeviceType.CPU_RAY_TRACER ∧
    (∃ gui, s.gui = some gui) ∧ s.g_rendering_settings.GraphicsDeviceType = type ∧
    s.running = true ∧ s.globals.g_scene_changed = false ∧ s.globals.g_mouse_down = down

/-- A default-constructed object with the model called `name`. -/
def sampleObject (name : String) : Object3D ℚ String Unit :=
  { WorldPosition := ⟨0, 0, 0⟩
    RotationInRadians := ⟨0, 0, 0⟩
    Scale := ⟨1, 1, 1⟩
    Model := name
    Spheres := [] }

/-- A scene with one white point light and two objects. -/
def sampleScene : Scene ℚ String Unit :=
  { BackgroundColor := ⟨0, 0, 0, 1⟩
    Lights := [⟨LightType.POINT, ⟨1, 1, 1, 1⟩, ⟨0, 0, 0⟩, ⟨0, 0, 5⟩⟩]
    Objects := [sampleObject "test_mesh", sampleObject "teapot"] }

/-- Rendering settings with the given backend type. -/
def sampleSettings (type : GraphicsDeviceType) : RenderingSettings :=
  { GraphicsDeviceType := type
    UseCpuSimd := false
    CullBackfaces := true
    DepthBuffering := true
    Shading := ⟨⟨true, false, true, false, true, true⟩, ShadingType.MATERIAL, true⟩
    Reflections := false
    MaxReflectionCount := 5 }

/-- A ray-tracing device. -/
def sampleRayTracer : GraphicsDevice := ⟨1, GraphicsDeviceType.CPU_RAY_TRACER⟩

/-- A rasterizing device. -/
def sampleRasterizer : GraphicsDevice := ⟨2, GraphicsDeviceType.CPU_RASTERIZER⟩

/-- A running application with the ray tracer, in the middle of a drag and
with the dirty flag clear. -/
def sampleAppState : AppState ℚ String Unit :=
  { globals := sampleGlobals
    g_rendering_settings := sampleSettings GraphicsDeviceType.CPU_RAY_TRACER
    graphics_device := some sampleRayTracer
    gui := some {}
    current_object := some (sampleObject "test_mesh")
    test_scene := sampleScene
    running := true }

/-- A GUI update that selects the file `selected` and leaves the settings
with the backend type `type`. -/
def sampleGuiUpdate (type : GraphicsDeviceType) (selected : String) :
    GuiUpdate ℚ String Unit :=
  { gui := { SelectedFilepath := selected }
    scene := sampleScene
    camera := sampleCamera
    rendering_settings := sampleSettings type }

/-- The input of an iteration with the given messages, in which the GUI
update leaves the backend type `type`; device and GUI creation succeed and
the model loader returns no model. -/
def sampleInput (messages : List QueuedMessage) (type : GraphicsDeviceType) :
    FrameInput ℚ String Unit :=
  { messages := messages
    gui_update := sampleGuiUpdate type ""
    created_device := some sampleRasterizer
    gui_create := ⟨true, true, true⟩
    loaded_model := none }

/-- An iteration without messages that stays on the ray tracer. -/
def sampleIdleInput : FrameInput ℚ String Unit :=
  sampleInput [] GraphicsDeviceType.CPU_RAY_TRACER

/-- An iteration that drains one unclaimed Move to `(101, 100)` and stays on
the ray tracer. -/
def sampleMoveInput : FrameInput ℚ String Unit :=
  sampleInput
    [QueuedMessage.window (sampleMessage WindowMessage.WM_MOUSEMOVE 0 (MAKELPARAM 101 100))]
    GraphicsDeviceType.CPU_RAY_TRACER

/-- An iteration without messages in which the GUI selects the rasterizer. -/
def sampleSwitchInput : FrameInput ℚ String Unit :=
  sampleInput [] GraphicsDeviceType.CPU_RASTERIZER

/-! ## Order of device operations, more sample iterations -/

/-- Whether a call is a `Shutdown`. -/
def DeviceCall.isShutdown {α Mdl Sph : Type} : DeviceCall α Mdl Sph → Bool
  | .Shutdown _ => true
  | _ => false

/-- Whether a call is a `Create`. -/
def DeviceCall.isCreate {α Mdl Sph : Type} : DeviceCall α Mdl Sph → Bool
  | .Create _ _ => true
  | _ => false

/-- Some `Shutdown` comes, in the sequence of calls, before a `Create` that
returned a device. -/
def ShutdownPrecedesSuccessfulCreate {α Mdl Sph : Type}
    (calls : List (DeviceCall α Mdl Sph)) : Prop :=
  ∃ pre mid post old_device type new_device,
    calls = pre ++ DeviceCall.Shutdown old_device :: mid
      ++ DeviceCall.Create type (some new_device) :: post

/-- An iteration without messages in which the GUI selects the rasterizer and
`IGraphicsDevice::Create` returns a null pointer. -/
def sampleFailedSwitchInput : FrameInput ℚ String Unit :=
  { sampleSwitchInput with created_device := none }

/-- An iteration without messages that stays on the ray tracer, in which the
user selects the file `teapot.obj` and the loader returns the model
`teapot`. -/
def sampleLoadInput : FrameInput ℚ String Unit :=
  { sampleIdleInput with
    gui_update := sampleGuiUpdate GraphicsDeviceType.CPU_RAY_TRACER "teapot.obj"
    loaded_model := some "teapot" }

/-- An iteration without messages that stays on the ray tracer, in which the
user selects the file `broken.obj` and the loader returns no model. -/
def sampleFailedLoadInput : FrameInput ℚ String Unit :=
  { sampleIdleInput with
    gui_update := sampleGuiUpdate GraphicsDeviceType.CPU_RAY_TRACER "broken.obj"
    loaded_model := none }

/-- An iteration without messages in which the GUI both selects the
rasterizer and selects the file `teapot.obj`, which the loader could load. -/
def sampleSwitchAndSelectInput : FrameInput ℚ String Unit :=
  { sampleSwitchInput with
    gui_update := sampleGuiUpdate GraphicsDeviceType.CPU_RASTERIZER "teapot.obj"
    loaded_model := some "teapot" }

/-! ## Drag deltas along a sequence of Moves -/

/-- The drag distances `(mouse_x_drag_distance_in_pixels,
mouse_y_drag_distance_in_pixels)` that the handler computes for the messages
of a list, each in the globals left by the messages before it. -/
def MoveDeltas {α : Type} [Field α] (M : MathLibrary α) :
    Globals α → List Message → List (Int × Int)
  | _, [] => []
  | g, m :: rest =>
    (mouse_x_drag_distance_in_pixels g m.l_param, mouse_y_drag_distance_in_pixels g m.l_param)
      :: MoveDeltas M (Dispatch M g m) rest

/-- The pointer position carried by the last message of a list, or `start`
for the empty list. -/
def lastPointerPosition : Int × Int → List Message → Int × Int
  | start, [] => start
  | _, m :: rest => lastPointerPosition (GET_X_LPARAM m.l_param, GET_Y_LPARAM m.l_param) rest

/-- Three unclaimed Moves, to `(12, 25)`, `(7, 31)` and `(40, 18)`. -/
def sampleMoves : List Message :=
  [sampleMessage WindowMessage.WM_MOUSEMOVE 0 (MAKELPARAM 12 25),
   sampleMessage WindowMessage.WM_MOUSEMOVE 0 (MAKELPARAM 7 31),
   sampleMessage WindowMessage.WM_MOUSEMOVE 0 (MAKELPARAM 40 18)]

/-! ## Start-up of `WinMain` and the ImGui backends of the GUI -/

/-- The three ImGui rendering backends used by `Gui.cpp`: `imgui_sw`,
`imgui_impl_opengl3` and `imgui_impl_dx11`. -/
inductive ImGuiBackend where
  | imgui_sw
  | imgui_impl_opengl3
  | imgui_impl_dx11
deriving DecidableEq

/-- The backend that `Gui::Create` initialises, chosen by its `switch` on
`graphics_device.Type()`. -/
def Gui.CreateBackend : GraphicsDeviceType → ImGuiBackend
  | .CPU_RASTERIZER => ImGuiBackend.imgui_sw
  | .CPU_RAY_TRACER => ImGuiBackend.imgui_sw
  | .OPEN_GL => ImGuiBackend.imgui_impl_opengl3
  | .DIRECT_3D => ImGuiBackend.imgui_impl_dx11

/-- The backend that `Gui::UpdateAndRender` paints with, chosen by its
`switch` on `old_renderer_type`, the type held by the settings. -/
def Gui.PaintBackend : GraphicsDeviceType → ImGuiBackend
  | .CPU_RASTERIZER => ImGuiBackend.imgui_sw
  | .CPU_RAY_TRACER => ImGuiBackend.imgui_sw
  | .OPEN_GL => ImGuiBackend.imgui_impl_opengl3
  | .DIRECT_3D => ImGuiBackend.imgui_impl_dx11

/-- The backend that `Gui::UpdateAndRender` (on a change of type) and
`Gui::Shutdown` shut down, chosen by their `switch` on the type held by the
settings. -/
def Gui.ShutdownBackend : GraphicsDeviceType → ImGuiBackend
  | .CPU_RASTERIZER => ImGuiBackend.imgui_sw
  | .CPU_RAY_TRACER => ImGuiBackend.imgui_sw
  | .OPEN_GL => ImGuiBackend.imgui_impl_opengl3
  | .DIRECT_3D => ImGuiBackend.imgui_impl_dx11

/-- What the start-up code of `WinMain` receives from outside: the initial
value `{}` of `g_rendering_settings`, the device returned by
`CpuGraphicsDevice::ConnectTo`, the results of the ImGui initialisation, the
test object with its mesh, the colour `Color::BLACK` and the value `Light{}`. -/
structure StartupExternal (α Mdl Sph : Type) where
  g_rendering_settings : RenderingSettings
  connected_device : Option GraphicsDevice
  gui_create : GuiCreateExternal
  current_object : Object3D α Mdl Sph
  BLACK : Color α
  Light_default : Light α

/-- The code of `WinMain` from "CREATE THE GRAPHICS DEVICE" to the message
loop, with the assertions compiled out: the state in which the loop is
entered.  With a null device the argument `*graphics_device` of `Gui::Create`
is a fault. -/
def Startup {α : Type} [Field α] {Mdl Sph : Type} (M : MathLibrary α)
    (ext : StartupExternal α Mdl Sph) : FrameResult α Mdl Sph :=
  let globals : Globals α :=
    { g_camera := InitializeCamera M
      g_mouse_down := false
      g_previous_mouse_x := 0
      g_previous_mouse_y := 0
      g_scene_changed := false }
  let test_scene : Scene α Mdl Sph :=
    { BackgroundColor := ext.BLACK
      Lights :=
        [{ ext.Light_default with
           Type_ := LightType.POINT
           Color := ⟨1, 1, 1, 1⟩
           PointLightWorldPosition := ⟨0, 0, 5⟩ }]
      Objects := [ext.current_object] }
  match ext.connected_device with
  | none =>
    ⟨[],
      { globals := globals
        g_rendering_settings := ext.g_rendering_settings
        graphics_device := none
        gui := none
        current_object := some ext.current_object
        test_scene := test_scene
        running := true },
      some Fault.null_graphics_device⟩
  | some graphics_device =>
    ⟨[DeviceCall.Load graphics_device ext.current_object],
      { globals := globals
        g_rendering_settings := ext.g_rendering_settings
        graphics_device := some graphics_device
        gui := Gui.Create ext.gui_create graphics_device
        current_object := some ext.current_object
        test_scene := test_scene
        running := true },
      none⟩

/-- If the iteration calls `IGraphicsDevice::Create`, it gets a device whose
`Type()` is the requested type, the one held by the settings after the GUI
update. -/
def FrameInput.createsRequestedType {α Mdl Sph : Type} (inp : FrameInput α Mdl Sph) : Prop :=
  ∃ new_device, inp.created_device = some new_device ∧
    new_device.Type_ = inp.gui_update.rendering_settings.GraphicsDeviceType

/-- The active device's `Type()` equals the type held by the settings. -/
def AppState.deviceMatchesSettings {α Mdl Sph : Type} (s : AppState α Mdl Sph) : Prop :=
  ∃ device, s.graphics_device = some device ∧
    device.Type_ = s.g_rendering_settings.GraphicsDeviceType

/-- Start-up data for the sample application: the ray tracer is connected. -/
def sampleStartupExternal : StartupExternal ℚ String Unit :=
  { g_rendering_settings := sampleSettings GraphicsDeviceType.CPU_RAY_TRACER
    connected_device := some sampleRayTracer
    gui_create := ⟨true, true, true⟩
    current_object := sampleObject "test_mesh"
    BLACK := ⟨0, 0, 0, 1⟩
    Light_default := ⟨LightType.AMBIENT, ⟨0, 0, 0, 1⟩, ⟨0, 0, 0⟩, ⟨0, 0, 0⟩⟩ }

/-- Three iterations of the sample application: idle on the ray tracer, a
switch to the rasterizer, and an iteration that stays on the rasterizer; in
each of them `IGraphicsDevice::Create` would return a device of the type held
by the settings. -/
def sampleSwitchingInputs : List (FrameInput ℚ String Unit) :=
  [{ sampleIdleInput with created_device := some sampleRayTracer },
   sampleSwitchInput,
   sampleInput [] GraphicsDeviceType.CPU_RASTERIZER]

/-! ## The light list of `SceneWindow::UpdateAndRender` -/

/-- What ImGui returns while one light is displayed: whether the tree node of
the light is open, whether its "Remove" button was pressed, and what
`LightPanel::UpdateAndRender` leaves in the light. -/
structure LightInteraction (α : Type) where
  /-- Result of `ImGui::TreeNode(light_tree_label.c_str())`. -/
  tree_node_open : Bool
  /-- Result of `ImGui::Button("Remove")`. -/
  remove_pressed : Bool
  /-- Effect of `LightPanel::UpdateAndRender` on the light. -/
  panel : Light α → Light α

/-- Local `light_tree_label`. -/
def light_tree_label (light_index : Nat) : String :=
  "Light " ++ toString light_index

/-- The loop "LIST ALL LIGHTS" of `SceneWindow::UpdateAndRender`, run for at
most `fuel` iterations: `lights` is `scene.Lights`, `light` the position of
the iterator, `light_index` the counter of the loop and `labels` the labels
shown so far; `ui light_index` is what ImGui returns in the iteration with
that counter.  The result is `none` when the iterations are used up before
the iterator reaches the end. -/
def LightLoop {α : Type} (ui : Nat → LightInteraction α) :
    Nat → List (Light α) → Nat → Nat → List String → Option (List (Light α) × List String)
  | 0, lights, light, _, labels =>
    match lights[light]? with
    | none => some (lights, labels)
    | some _ => none
  | fuel + 1, lights, light, light_index, labels =>
    match lights[light]? with
    | none => some (lights, labels)
    | some current =>
      let shown := labels ++ [light_tree_label light_index]
      if (ui light_index).tree_node_open then
        let light_removed := (ui light_index).remove_pressed
        let edited := lights.set light ((ui light_index).panel current)
        if light_removed then
          LightLoop ui fuel (edited.eraseIdx light) light (light_index + 1) shown
        else LightLoop ui fuel edited (light + 1) (light_index + 1) shown
      else LightLoop ui fuel lights (light + 1) (light_index + 1) shown

/-- Following the words of the claim: the lights of a list whose Remove was
not pressed, in their original order, each as its panel left it; `index` is
the index that the first light of the list has in the original list. -/
def LightsNotRemoved {α : Type} (ui : Nat → LightInteraction α) :
    Nat → List (Light α) → List (Light α)
  | _, [] => []
  | index, light :: rest =>
    if (ui index).tree_node_open && (ui index).remove_pressed then
      LightsNotRemoved ui (index + 1) rest
    else
      (if (ui index).tree_node_open then (ui index).panel light else light)
        :: LightsNotRemoved ui (index + 1) rest

/-- A white point light at height `z`. -/
def sampleLight (z : ℚ) : Light ℚ :=
  ⟨LightType.POINT, ⟨1, 1, 1, 1⟩, ⟨0, 0, 0⟩, ⟨0, 0, z⟩⟩

/-- The user opens the node of the light with index `1` and presses its
"Remove" button; the panels change nothing. -/
def sampleLightInteraction (light_index : Nat) : LightInteraction ℚ :=
  { tree_node_open := light_index == 1
    remove_pressed := light_index == 1
    panel := id }

/-- Three sample lights, at heights `1`, `2` and `3`. -/
def sampleLights : List (Light ℚ) := [sampleLight 1, sampleLight 2, sampleLight 3]

/-! ## The library with the standard rotations

The end-to-end scenario of the drag speaks of the point rotated by an angle
given in degrees, so it needs the library's rotations to be the rotation
matrices of that angle.  The matrices are written out here, given the cosine
and the sine of the angle, and a library is built from a cosine, a sine, a
square root and the constant pi of the scalars. -/

section StandardLibrary

variable {α : Type} [Field α]

/-- Modelled from the spec: the matrix returned by `MATH::Matrix4x4f::RotateX`,
the rotation about the X axis of column vectors by the angle with cosine `c`
and sine `s` (the function's body is not in the sources). -/
def RotationAboutX (c s : α) : Matrix4x4 α :=
  !![1, 0, 0, 0;
     0, c, -s, 0;
     0, s, c, 0;
     0, 0, 0, 1]

/-- Modelled from the spec: the matrix returned by `MATH::Matrix4x4f::RotateY`,
the rotation about the Y axis of column vectors by the angle with cosine `c`
and sine `s`: it takes `(x, y, z)` to `(c x + s z, y, -s x + c z)` (the
function's body is not in the sources). -/
def RotationAboutY (c s : α) : Matrix4x4 α :=
  !![c, 0, s, 0;
     0, 1, 0, 0;
     -s, 0, c, 0;
     0, 0, 0, 1]

/-- Modelled from the spec: the matrix returned by `MATH::Matrix4x4f::RotateZ`,
the rotation about the Z axis of column vectors by the angle with cosine `c`
and sine `s` (the function's body is not in the sources). -/
def RotationAboutZ (c s : α) : Matrix4x4 α :=
  !![c, -s, 0, 0;
     s, c, 0, 0;
     0, 0, 1, 0;
     0, 0, 0, 1]

/-- Cross product of two vectors. -/
def Vector3.Cross (a b : Vector3 α) : Vector3 α :=
  ⟨a.Y * b.Z - a.Z * b.Y, a.Z * b.X - a.X * b.Z, a.X * b.Y - a.Y * b.X⟩

/-- An instance of the library interface over scalars `α` that have a cosine
`cos`, a sine `sin`, a square root `sqrt` and the constant `pi`: degrees are
converted by the factor `pi / 180`, the rotations are the rotation matrices
of the angle, `Normalize` divides by the length, a frame has
`Right = Up × Forward`, and `LookAtFrom` places the camera at `from_position`
with the world's `Up` and `Forward` pointing from the target to the camera. -/
def standardMath (cos sin sqrt : α → α) (pi : α) : MathLibrary α where
  DegreesToRadians degrees := degrees * pi / 180
  RotateX angle := RotationAboutX (cos angle) (sin angle)
  RotateY angle := RotationAboutY (cos angle) (sin angle)
  RotateZ angle := RotationAboutZ (cos angle) (sin angle)
  Normalize v := Vector3.Scale (1 / sqrt (v.X * v.X + v.Y * v.Y + v.Z * v.Z)) v
  FromUpAndForward up forward := ⟨up, Vector3.Cross up forward, forward⟩
  LookAtFrom look_at from_position :=
    { WorldPosition := from_position
      CoordinateFrame :=
        ⟨⟨0, 1, 0⟩, Vector3.Cross ⟨0, 1, 0⟩ (Vector3.Sub from_position look_at),
          Vector3.Sub from_position look_at⟩
      Projection := ProjectionType.PERSPECTIVE
      NearClipPlaneViewDistance := 1
      FarClipPlaneViewDistance := 1000
      FieldOfView := 70
      ViewingPlane := ⟨1, 4, 3⟩ }

/-- The globals in the middle of a drag of the camera `camera`: button down
at pixel `(100, 100)`, dirty flag clear. -/
def draggingGlobals (camera : Camera α) : Globals α :=
  { g_camera := camera
    g_mouse_down := true
    g_previous_mouse_x := 100
    g_previous_mouse_y := 100
    g_scene_changed := false }

end StandardLibrary

/-! ## Basic facts -/

section Lemmas

variable {α : Type} [Field α]

theorem MulVector_Identity (v : Vector4 α) :
    Matrix4x4.MulVector (Matrix4x4.Identity : Matrix4x4 α) v = v := by
  cases v
  simp [Matrix4x4.MulVector, Matrix4x4.Identity]

theorem XYZ_HomogeneousPositionVector (v : Vector3 α) :
    Vector4.XYZ (Vector4.HomogeneousPositionVector v) = v := by
  cases v
  rfl

theorem MainWindowCallback_WM_MOUSEMOVE (M : MathLibrary α) (ext : External)
    (g : Globals α) (w_param l_param : Nat) (hgui : ext.unclaimed)
    (hdown : g.g_mouse_down = true) :
    (MainWindowCallback M ext g .WM_MOUSEMOVE w_param l_param).2 = MouseDrag M g l_param := by
  obtain ⟨h1, h2⟩ := hgui
  simp [MainWindowCallback, h1, h2, hdown]

theorem MainWindowCallback_WM_MOUSEWHEEL (M : MathLibrary α) (ext : External)
    (g : Globals α) (w_param l_param : Nat) (hgui : ext.unclaimed) :
    (MainWindowCallback M ext g .WM_MOUSEWHEEL w_param l_param).2 = MouseWheel g w_param := by
  obtain ⟨h1, h2⟩ := hgui
  simp [MainWindowCallback, h1, h2]

theorem sampleExternal_unclaimed : sampleExternal.unclaimed := by
  constructor <;> rfl

theorem small_twist_matrices (M : MathLibrary α) (dx dy : Int)
    (hz : |z_drag_amount dx dy| ≤ 30) :
    camera_y_rotation_matrix M dx dy
        = M.RotateY (M.DegreesToRadians (x_rotation_amount_in_degrees dx)) ∧
      camera_x_rotation_matrix M dx dy
        = M.RotateX (M.DegreesToRadians (y_rotation_amount_in_degrees dy)) ∧
      camera_z_rotation_matrix M dx dy = Matrix4x4.Identity := by
  have h300 : ¬ (|z_drag_amount dx dy| > 30 * 10) := by
    have : |z_drag_amount dx dy| ≤ 30 * 10 := le_trans hz (by norm_num)
    exact not_lt.mpr this
  simp only [camera_y_rotation_matrix, camera_x_rotation_matrix, camera_z_rotation_matrix,
    Z_THRESHOLD, if_pos hz, if_neg h300, and_self]

theorem large_twist_matrices (M : MathLibrary α) (dx dy : Int)
    (hz : |z_drag_amount dx dy| > 300) :
    camera_y_rotation_matrix M dx dy = Matrix4x4.Identity ∧
      camera_x_rotation_matrix M dx dy = Matrix4x4.Identity ∧
      camera_z_rotation_matrix M dx dy
        = M.RotateZ (M.DegreesToRadians (z_rotation_amount_in_degrees dx dy)) := by
  have h30 : ¬ (|z_drag_amount dx dy| ≤ 30) := by
    have : (30 : Int) < |z_drag_amount dx dy| := lt_trans (by norm_num) hz
    exact not_le.mpr this
  have h300 : |z_drag_amount dx dy| > 30 * 10 := by simpa using hz
  simp only [camera_y_rotation_matrix, camera_x_rotation_matrix, camera_z_rotation_matrix,
    Z_THRESHOLD, if_neg h30, if_pos h300, and_self]

theorem dead_zone_matrices (M : MathLibrary α) (dx dy : Int)
    (hlo : 30 < |z_drag_amount dx dy|) (hhi : |z_drag_amount dx dy| ≤ 300) :
    camera_y_rotation_matrix M dx dy = Matrix4x4.Identity ∧
      camera_x_rotation_matrix M dx dy = Matrix4x4.Identity ∧
      camera_z_rotation_matrix M dx dy = Matrix4x4.Identity := by
  have h30 : ¬ (|z_drag_amount dx dy| ≤ 30) := not_le.mpr hlo
  have h300 : ¬ (|z_drag_amount dx dy| > 30 * 10) := by
    have : |z_drag_amount dx dy| ≤ 30 * 10 := by simpa using hhi
    exact not_lt.mpr this
  simp only [camera_y_rotation_matrix, camera_x_rotation_matrix, camera_z_rotation_matrix,
    Z_THRESHOLD, if_neg h30, if_neg h300, and_self]

theorem camera_rotation_matrix_eq (M : MathLibrary α) (dx dy : Int) :
    camera_rotation_matrix M dx dy
      = camera_y_rotation_matrix M dx dy * camera_x_rotation_matrix M dx dy
          * camera_z_rotation_matrix M dx dy := rfl

theorem x_rotation_amount_in_degrees_eq (dx : Int) :
    (x_rotation_amount_in_degrees dx : α) = -5 * (dx : α) := by
  simp [x_rotation_amount_in_degrees]

theorem y_rotation_amount_in_degrees_eq (dy : Int) :
    (y_rotation_amount_in_degrees dy : α) = -2 * (dy : α) := by
  simp [y_rotation_amount_in_degrees]

theorem MouseDrag_WorldPosition (M : MathLibrary α) (g : Globals α) (l_param : Nat) :
    (MouseDrag M g l_param).g_camera.WorldPosition
      = Vector4.XYZ (Matrix4x4.MulVector
          (camera_rotation_matrix M (mouse_x_drag_distance_in_pixels g l_param)
            (mouse_y_drag_distance_in_pixels g l_param))
          (Vector4.HomogeneousPositionVector g.g_camera.WorldPosition)) := rfl

theorem sampleCos_zero : sampleCos ((0 : ℚ) / 180) = 1 := by
  norm_num [sampleCos]

theorem sampleSin_zero : sampleSin ((0 : ℚ) / 180) = 0 := by
  norm_num [sampleSin]

theorem sampleMath_RotateX_zero :
    sampleMath.RotateX (sampleMath.DegreesToRadians 0) = Matrix4x4.Identity := by
  simp only [sampleMath, sampleCos_zero, sampleSin_zero, neg_zero, Matrix4x4.Identity]
  ext i j
  fin_cases i <;> fin_cases j <;> rfl

theorem sampleMath_RotateY_zero :
    sampleMath.RotateY (sampleMath.DegreesToRadians 0) = Matrix4x4.Identity := by
  simp only [sampleMath, sampleCos_zero, sampleSin_zero, neg_zero, Matrix4x4.Identity]
  ext i j
  fin_cases i <;> fin_cases j <;> rfl

theorem MouseDrag_g_camera (M : MathLibrary α) (g : Globals α) (l_param : Nat) :
    (MouseDrag M g l_param).g_camera
      = RotateCamera M
          (camera_rotation_matrix M (mouse_x_drag_distance_in_pixels g l_param)
            (mouse_y_drag_distance_in_pixels g l_param)) g.g_camera := rfl

theorem camera_rotation_matrix_zero (M : MathLibrary α)
    (hY0 : M.RotateY (M.DegreesToRadians 0) = Matrix4x4.Identity)
    (hX0 : M.RotateX (M.DegreesToRadians 0) = Matrix4x4.Identity) :
    camera_rotation_matrix M 0 0 = Matrix4x4.Identity := by
  obtain ⟨hy, hx, hroll⟩ := small_twist_matrices M 0 0 (by decide)
  have hxdeg : (x_rotation_amount_in_degrees 0 : α) = 0 := by
    simp [x_rotation_amount_in_degrees]
  have hydeg : (y_rotation_amount_in_degrees 0 : α) = 0 := by
    simp [y_rotation_amount_in_degrees]
  rw [camera_rotation_matrix_eq, hy, hx, hroll, hxdeg, hydeg, hY0, hX0]
  simp only [Matrix4x4.Identity, one_mul]

theorem RotateCamera_Identity (M : MathLibrary α) (camera : Camera α) :
    RotateCamera M Matrix4x4.Identity camera
      = { camera with
          CoordinateFrame :=
            M.FromUpAndForward camera.CoordinateFrame.Up
              (Vector3.Scale (-1) (M.Normalize (Vector3.Sub ⟨0, 0, 0⟩ camera.WorldPosition)))
          Projection := ProjectionType.PERSPECTIVE
          NearClipPlaneViewDistance := 1
          FarClipPlaneViewDistance := 1000 } := by
  simp only [RotateCamera, MulVector_Identity, XYZ_HomogeneousPositionVector]

end Lemmas

/-! ## The threshold tie-break of the drag handler -/

section Claims

variable {α : Type} [Field α]

/-- C1: for every Move handled while the drag is active whose twist
`z = max(dx, dy) - (dy - dx)` satisfies `|z| ≤ 30`, the roll matrix is the
identity, the composed rotation is
`RotateY(radians(-5 * dx)) * RotateX(radians(-2 * dy))`, and this product is
what the handler applies to the camera position. -/
theorem C1_small_twist_applies_yaw_and_pitch_only (M : MathLibrary α) (ext : External)
    (g : Globals α) (w_param l_param : Nat) (dx dy : Int)
    (hgui : ext.unclaimed) (hdown : g.g_mouse_down = true)
    (hdx : mouse_x_drag_distance_in_pixels g l_param = dx)
    (hdy : mouse_y_drag_distance_in_pixels g l_param = dy)
    (hz : |max dx dy - (dy - dx)| ≤ 30) :
    camera_z_rotation_matrix M dx dy = Matrix4x4.Identity ∧
      camera_rotation_matrix M dx dy
        = M.RotateY (M.DegreesToRadians (-5 * (dx : α)))
            * M.RotateX (M.DegreesToRadians (-2 * (dy : α))) ∧
      (MainWindowCallback M ext g .WM_MOUSEMOVE w_param l_param).2.g_camera.WorldPosition
        = Vector4.XYZ (Matrix4x4.MulVector
            (M.RotateY (M.DegreesToRadians (-5 * (dx : α)))
              * M.RotateX (M.DegreesToRadians (-2 * (dy : α))))
            (Vector4.HomogeneousPositionVector g.g_camera.WorldPosition)) := by
  obtain ⟨hy, hx, hroll⟩ := small_twist_matrices M dx dy hz
  have hcomposed : camera_rotation_matrix M dx dy
      = M.RotateY (M.DegreesToRadians (-5 * (dx : α)))
          * M.RotateX (M.DegreesToRadians (-2 * (dy : α))) := by
    rw [camera_rotation_matrix_eq, hy, hx, hroll, x_rotation_amount_in_degrees_eq,
      y_rotation_amount_in_degrees_eq]
    exact mul_one _
  refine ⟨hroll, hcomposed, ?_⟩
  rw [MainWindowCallback_WM_MOUSEMOVE M ext g w_param l_param hgui hdown,
    MouseDrag_WorldPosition, hdx, hdy, hcomposed]

/-- Witness of C1: the drag from pixel `(100, 100)` to `(101, 103)`, with
`dx = 1`, `dy = 3` and twist `1`. -/
theorem C1_small_twist_applies_yaw_and_pitch_only_witness :
    camera_z_rotation_matrix sampleMath 1 3 = Matrix4x4.Identity ∧
      camera_rotation_matrix sampleMath 1 3
        = sampleMath.RotateY (sampleMath.DegreesToRadians (-5 * ((1 : Int) : ℚ)))
            * sampleMath.RotateX (sampleMath.DegreesToRadians (-2 * ((3 : Int) : ℚ))) ∧
      (MainWindowCallback sampleMath sampleExternal sampleGlobals .WM_MOUSEMOVE 0
          (MAKELPARAM 101 103)).2.g_camera.WorldPosition
        = Vector4.XYZ (Matrix4x4.MulVector
            (sampleMath.RotateY (sampleMath.DegreesToRadians (-5 * ((1 : Int) : ℚ)))
              * sampleMath.RotateX (sampleMath.DegreesToRadians (-2 * ((3 : Int) : ℚ))))
            (Vector4.HomogeneousPositionVector sampleGlobals.g_camera.WorldPosition)) :=
  C1_small_twist_applies_yaw_and_pitch_only sampleMath sampleExternal sampleGlobals 0
    (MAKELPARAM 101 103) 1 3 sampleExternal_unclaimed rfl (by decide) (by decide)
    (by decide)

/-- C2: for every Move handled while the drag is active whose twist
`z = max(dx, dy) - (dy - dx)` satisfies `|z| > 300`, the yaw and pitch
matrices are the identity, the composed rotation is `RotateZ(radians(2 * z))`,
and this is what the handler applies to the camera position. -/
theorem C2_large_twist_applies_roll_only (M : MathLibrary α) (ext : External)
    (g : Globals α) (w_param l_param : Nat) (dx dy : Int)
    (hgui : ext.unclaimed) (hdown : g.g_mouse_down = true)
    (hdx : mouse_x_drag_distance_in_pixels g l_param = dx)
    (hdy : mouse_y_drag_distance_in_pixels g l_param = dy)
    (hz : |max dx dy - (dy - dx)| > 10 * 30) :
    camera_y_rotation_matrix M dx dy = Matrix4x4.Identity ∧
      camera_x_rotation_matrix M dx dy = Matrix4x4.Identity ∧
      camera_rotation_matrix M dx dy
        = M.RotateZ (M.DegreesToRadians (2 * ((max dx dy - (dy - dx) : Int) : α))) ∧
      (MainWindowCallback M ext g .WM_MOUSEMOVE w_param l_param).2.g_camera.WorldPosition
        = Vector4.XYZ (Matrix4x4.MulVector
            (M.RotateZ (M.DegreesToRadians (2 * ((max dx dy - (dy - dx) : Int) : α))))
            (Vector4.HomogeneousPositionVector g.g_camera.WorldPosition)) := by
  have hz300 : |z_drag_amount dx dy| > 300 := by
    have h := hz
    norm_num at h
    exact h
  obtain ⟨hy, hx, hroll⟩ := large_twist_matrices M dx dy hz300
  have hcomposed : camera_rotation_matrix M dx dy
      = M.RotateZ (M.DegreesToRadians (2 * ((max dx dy - (dy - dx) : Int) : α))) := by
    rw [camera_rotation_matrix_eq, hy, hx, hroll]
    simp only [Matrix4x4.Identity, one_mul]
    rfl
  refine ⟨hy, hx, hcomposed, ?_⟩
  rw [MainWindowCallback_WM_MOUSEMOVE M ext g w_param l_param hgui hdown,
    MouseDrag_WorldPosition, hdx, hdy, hcomposed]

/-- Witness of C2: the drag from pixel `(100, 100)` to `(300, 100)`, with
`dx = 200`, `dy = 0` and twist `400`. -/
theorem C2_large_twist_applies_roll_only_witness :
    camera_y_rotation_matrix sampleMath 200 0 = Matrix4x4.Identity ∧
      camera_x_rotation_matrix sampleMath 200 0 = Matrix4x4.Identity ∧
      camera_rotation_matrix sampleMath 200 0
        = sampleMath.RotateZ
            (sampleMath.DegreesToRadians (2 * ((max 200 0 - (0 - 200) : Int) : ℚ))) ∧
      (MainWindowCallback sampleMath sampleExternal sampleGlobals .WM_MOUSEMOVE 0
          (MAKELPARAM 300 100)).2.g_camera.WorldPosition
        = Vector4.XYZ (Matrix4x4.MulVector
            (sampleMath.RotateZ
              (sampleMath.DegreesToRadians (2 * ((max 200 0 - (0 - 200) : Int) : ℚ))))
            (Vector4.HomogeneousPositionVector sampleGlobals.g_camera.WorldPosition)) :=
  C2_large_twist_applies_roll_only sampleMath sampleExternal sampleGlobals 0
    (MAKELPARAM 300 100) 200 0 sampleExternal_unclaimed rfl (by decide) (by decide)
    (by decide)

/-- C3: for every Move handled while the drag is active whose twist
`z = max(dx, dy) - (dy - dx)` satisfies `30 < |z| ≤ 300`, the yaw, pitch and
roll matrices and the composed rotation are all the identity, and the camera
`WorldPosition` after the Move equals the one before it. -/
theorem C3_dead_zone_applies_no_rotation (M : MathLibrary α) (ext : External)
    (g : Globals α) (w_param l_param : Nat) (dx dy : Int)
    (hgui : ext.unclaimed) (hdown : g.g_mouse_down = true)
    (hdx : mouse_x_drag_distance_in_pixels g l_param = dx)
    (hdy : mouse_y_drag_distance_in_pixels g l_param = dy)
    (hlo : 30 < |max dx dy - (dy - dx)|) (hhi : |max dx dy - (dy - dx)| ≤ 10 * 30) :
    camera_y_rotation_matrix M dx dy = Matrix4x4.Identity ∧
      camera_x_rotation_matrix M dx dy = Matrix4x4.Identity ∧
      camera_z_rotation_matrix M dx dy = Matrix4x4.Identity ∧
      camera_rotation_matrix M dx dy = Matrix4x4.Identity ∧
      (MainWindowCallback M ext g .WM_MOUSEMOVE w_param l_param).2.g_camera.WorldPosition
        = g.g_camera.WorldPosition := by
  have hhi300 : |z_drag_amount dx dy| ≤ 300 := by
    have h := hhi
    norm_num at h
    exact h
  obtain ⟨hy, hx, hroll⟩ := dead_zone_matrices M dx dy hlo hhi300
  have hcomposed : camera_rotation_matrix M dx dy = Matrix4x4.Identity := by
    rw [camera_rotation_matrix_eq, hy, hx, hroll]
    simp only [Matrix4x4.Identity, one_mul]
  refine ⟨hy, hx, hroll, hcomposed, ?_⟩
  rw [MainWindowCallback_WM_MOUSEMOVE M ext g w_param l_param hgui hdown,
    MouseDrag_WorldPosition, hdx, hdy, hcomposed, MulVector_Identity,
    XYZ_HomogeneousPositionVector]

/-- Witness of C3: the drag from pixel `(100, 100)` to `(150, 100)`, with
`dx = 50`, `dy = 0` and twist `100`. -/
theorem C3_dead_zone_applies_no_rotation_witness :
    camera_y_rotation_matrix sampleMath 50 0 = Matrix4x4.Identity ∧
      camera_x_rotation_matrix sampleMath 50 0 = Matrix4x4.Identity ∧
      camera_z_rotation_matrix sampleMath 50 0 = Matrix4x4.Identity ∧
      camera_rotation_matrix sampleMath 50 0 = Matrix4x4.Identity ∧
      (MainWindowCallback sampleMath sampleExternal sampleGlobals .WM_MOUSEMOVE 0
          (MAKELPARAM 150 100)).2.g_camera.WorldPosition
        = sampleGlobals.g_camera.WorldPosition :=
  C3_dead_zone_applies_no_rotation sampleMath sampleExternal sampleGlobals 0
    (MAKELPARAM 150 100) 50 0 sampleExternal_unclaimed rfl (by decide) (by decide)
    (by decide) (by decide)

/-- C4, as stated, fails: for `dx = 50`, `dy = -50` the twist is `150`, which
is not above `10 * Z_THRESHOLD = 300`, and the roll matrix of the handler is
the identity, not a `RotateZ`. -/
theorem C4_twist_150_is_not_above_300 :
    z_drag_amount 50 (-50) = 150 ∧ ¬ (|z_drag_amount 50 (-50)| > 10 * Z_THRESHOLD) ∧
      camera_z_rotation_matrix sampleMath 50 (-50) = Matrix4x4.Identity :=
  ⟨by decide, by decide, (dead_zone_matrices sampleMath 50 (-50) (by decide) (by decide)).2.2⟩

/-- C4, amended: for `dx = 50`, `dy = -50` the twist is `z = 150`, which lies
in the dead zone `30 < |z| ≤ 300`; the yaw, pitch and roll matrices and the
composed rotation of the drag handler are all the identity. -/
theorem C4_twist_150_is_in_the_dead_zone (M : MathLibrary α) :
    z_drag_amount 50 (-50) = 150 ∧
      Z_THRESHOLD < |z_drag_amount 50 (-50)| ∧
      |z_drag_amount 50 (-50)| ≤ 10 * Z_THRESHOLD ∧
      camera_y_rotation_matrix M 50 (-50) = Matrix4x4.Identity ∧
      camera_x_rotation_matrix M 50 (-50) = Matrix4x4.Identity ∧
      camera_z_rotation_matrix M 50 (-50) = Matrix4x4.Identity ∧
      camera_rotation_matrix M 50 (-50) = Matrix4x4.Identity := by
  obtain ⟨hy, hx, hroll⟩ := dead_zone_matrices M 50 (-50) (by decide) (by decide)
  refine ⟨by decide, by decide, by decide, hy, hx, hroll, ?_⟩
  rw [camera_rotation_matrix_eq, hy, hx, hroll]
  simp only [Matrix4x4.Identity, one_mul]

/-- C5, as stated, fails: for `dx = 10`, `dy = 10` the twist computed by the
handler is not `0`. -/
theorem C5_twist_of_10_10_is_not_zero : z_drag_amount 10 10 ≠ 0 := by
  decide

/-- C5, amended: for `dx = 10`, `dy = 10` the twist computed by the handler,
`z = max(dx, dy) - (dy - dx)`, is `10`, which is within the threshold
`|z| ≤ 30`. -/
theorem C5_twist_of_10_10_is_ten :
    z_drag_amount 10 10 = 10 ∧ |z_drag_amount 10 10| ≤ Z_THRESHOLD := by
  decide

/-- C6: for every pair of drag distances `(dx, dy)` the handler computes the
twist `z = max(dx, dy) - (dy - dx)` and the angles in degrees
`yaw = -5 * dx`, `pitch = -2 * dy` and `roll = 2 * z`. -/
theorem C6_twist_and_angles_in_degrees (dx dy : Int) :
    z_drag_amount dx dy = max dx dy - (dy - dx) ∧
      (x_rotation_amount_in_degrees dx : α) = -5 * (dx : α) ∧
      (y_rotation_amount_in_degrees dy : α) = -2 * (dy : α) ∧
      (z_rotation_amount_in_degrees dx dy : α) = 2 * ((max dx dy - (dy - dx) : Int) : α) :=
  ⟨rfl, x_rotation_amount_in_degrees_eq dx, y_rotation_amount_in_degrees_eq dy, rfl⟩

/-! ## Zero drag, zoom and the reset of the projection -/

/-- C7, as stated, fails: a Move at the stored previous position (so
`dx = 0` and `dy = 0`) on an orthographic camera does not leave the camera
unchanged. -/
theorem C7_zero_drag_changes_an_orthographic_camera :
    mouse_x_drag_distance_in_pixels sampleGlobals (MAKELPARAM 100 100) = 0 ∧
      mouse_y_drag_distance_in_pixels sampleGlobals (MAKELPARAM 100 100) = 0 ∧
      (MainWindowCallback sampleMath sampleExternal sampleGlobals .WM_MOUSEMOVE 0
          (MAKELPARAM 100 100)).2.g_camera ≠ sampleGlobals.g_camera := by
  refine ⟨by decide, by decide, ?_⟩
  intro h
  rw [MainWindowCallback_WM_MOUSEMOVE sampleMath sampleExternal sampleGlobals 0
    (MAKELPARAM 100 100) sampleExternal_unclaimed rfl, MouseDrag_g_camera] at h
  have hp := congrArg Camera.Projection h
  simp [RotateCamera, sampleGlobals, sampleCamera] at hp

/-- C7, amended: provided the library's rotations by the angle `0` are the
identity, a Move with `dx = 0` and `dy = 0` handled while the drag is active
leaves `WorldPosition`, `FieldOfView` and `ViewingPlane` unchanged, sets
`Projection = PERSPECTIVE` and the clip distances to `1` and `1000`, and
re-derives the frame from the unchanged `Up` and position; the camera is
entirely unchanged exactly when it already had those values. -/
theorem C7_zero_drag_keeps_position_and_resets_projection (M : MathLibrary α)
    (ext : External) (g : Globals α) (w_param l_param : Nat)
    (hgui : ext.unclaimed) (hdown : g.g_mouse_down = true)
    (hdx : mouse_x_drag_distance_in_pixels g l_param = 0)
    (hdy : mouse_y_drag_distance_in_pixels g l_param = 0)
    (hY0 : M.RotateY (M.DegreesToRadians 0) = Matrix4x4.Identity)
    (hX0 : M.RotateX (M.DegreesToRadians 0) = Matrix4x4.Identity) :
    (MainWindowCallback M ext g .WM_MOUSEMOVE w_param l_param).2.g_camera
        = { g.g_camera with
            CoordinateFrame :=
              M.FromUpAndForward g.g_camera.CoordinateFrame.Up
                (Vector3.Scale (-1)
                  (M.Normalize (Vector3.Sub ⟨0, 0, 0⟩ g.g_camera.WorldPosition)))
            Projection := ProjectionType.PERSPECTIVE
            NearClipPlaneViewDistance := 1
            FarClipPlaneViewDistance := 1000 } ∧
      ((MainWindowCallback M ext g .WM_MOUSEMOVE w_param l_param).2.g_camera = g.g_camera ↔
        (g.g_camera.CoordinateFrame
            = M.FromUpAndForward g.g_camera.CoordinateFrame.Up
                (Vector3.Scale (-1)
                  (M.Normalize (Vector3.Sub ⟨0, 0, 0⟩ g.g_camera.WorldPosition))) ∧
          g.g_camera.Projection = ProjectionType.PERSPECTIVE ∧
          g.g_camera.NearClipPlaneViewDistance = 1 ∧
          g.g_camera.FarClipPlaneViewDistance = 1000)) := by
  have hcam : (MainWindowCallback M ext g .WM_MOUSEMOVE w_param l_param).2.g_camera
      = { g.g_camera with
          CoordinateFrame :=
            M.FromUpAndForward g.g_camera.CoordinateFrame.Up
              (Vector3.Scale (-1)
                (M.Normalize (Vector3.Sub ⟨0, 0, 0⟩ g.g_camera.WorldPosition)))
          Projection := ProjectionType.PERSPECTIVE
          NearClipPlaneViewDistance := 1
          FarClipPlaneViewDistance := 1000 } := by
    rw [MainWindowCallback_WM_MOUSEMOVE M ext g w_param l_param hgui hdown,
      MouseDrag_g_camera, hdx, hdy, camera_rotation_matrix_zero M hY0 hX0,
      RotateCamera_Identity]
  refine ⟨hcam, ?_⟩
  rw [hcam]
  constructor
  · intro h
    refine ⟨?_, ?_, ?_, ?_⟩
    · exact (congrArg Camera.CoordinateFrame h).symm
    · exact (congrArg Camera.Projection h).symm
    · exact (congrArg Camera.NearClipPlaneViewDistance h).symm
    · exact (congrArg Camera.FarClipPlaneViewDistance h).symm
  · rintro ⟨hf, hp, hn, hfar⟩
    rw [← hf, ← hp, ← hn, ← hfar]

/-- Witness of C7 (amended): a Move at the stored previous position
`(100, 100)` on the sample camera. -/
theorem C7_zero_drag_keeps_position_and_resets_projection_witness :
    (MainWindowCallback sampleMath sampleExternal sampleGlobals .WM_MOUSEMOVE 0
          (MAKELPARAM 100 100)).2.g_camera
        = { sampleGlobals.g_camera with
            CoordinateFrame :=
              sampleMath.FromUpAndForward sampleGlobals.g_camera.CoordinateFrame.Up
                (Vector3.Scale (-1)
                  (sampleMath.Normalize
                    (Vector3.Sub ⟨0, 0, 0⟩ sampleGlobals.g_camera.WorldPosition)))
            Projection := ProjectionType.PERSPECTIVE
            NearClipPlaneViewDistance := 1
            FarClipPlaneViewDistance := 1000 } ∧
      ((MainWindowCallback sampleMath sampleExternal sampleGlobals .WM_MOUSEMOVE 0
            (MAKELPARAM 100 100)).2.g_camera = sampleGlobals.g_camera ↔
        (sampleGlobals.g_camera.CoordinateFrame
            = sampleMath.FromUpAndForward sampleGlobals.g_camera.CoordinateFrame.Up
                (Vector3.Scale (-1)
                  (sampleMath.Normalize
                    (Vector3.Sub ⟨0, 0, 0⟩ sampleGlobals.g_camera.WorldPosition))) ∧
          sampleGlobals.g_camera.Projection = ProjectionType.PERSPECTIVE ∧
          sampleGlobals.g_camera.NearClipPlaneViewDistance = 1 ∧
          sampleGlobals.g_camera.FarClipPlaneViewDistance = 1000)) :=
  C7_zero_drag_keeps_position_and_resets_projection sampleMath sampleExternal sampleGlobals
    0 (MAKELPARAM 100 100) sampleExternal_unclaimed rfl (by decide) (by decide)
    sampleMath_RotateY_zero sampleMath_RotateX_zero

/-- C8, as stated, fails: a wheel event with raw delta `+120` does not move
the camera by `+1.0 * Forward`; on the sample camera, whose `Forward` is
`(0, 0, 1)`, it moves from `(0, 5, 20)` to `(0, 5, 19)`. -/
theorem C8_wheel_plus_120_does_not_move_along_Forward :
    GET_WHEEL_DELTA_WPARAM (65536 * 120) = 120 ∧
      (MainWindowCallback sampleMath sampleExternal sampleGlobals .WM_MOUSEWHEEL
          (65536 * 120) 0).2.g_camera.WorldPosition = ⟨0, 5, 19⟩ ∧
      (MainWindowCallback sampleMath sampleExternal sampleGlobals .WM_MOUSEWHEEL
          (65536 * 120) 0).2.g_camera.WorldPosition
        ≠ Vector3.Add sampleGlobals.g_camera.WorldPosition
            (Vector3.Scale 1 sampleGlobals.g_camera.CoordinateFrame.Forward) := by
  have hdelta : GET_WHEEL_DELTA_WPARAM (65536 * 120) = 120 := by decide
  have hpos : (MainWindowCallback sampleMath sampleExternal sampleGlobals .WM_MOUSEWHEEL
      (65536 * 120) 0).2.g_camera.WorldPosition = ⟨0, 5, 19⟩ := by
    rw [MainWindowCallback_WM_MOUSEWHEEL sampleMath sampleExternal sampleGlobals
      (65536 * 120) 0 sampleExternal_unclaimed]
    simp only [MouseWheel, hdelta]
    norm_num [Vector3.Add, Vector3.Scale, sampleGlobals, sampleCamera]
  refine ⟨hdelta, hpos, ?_⟩
  rw [hpos]
  intro h
  have hz := congrArg Vector3.Z h
  norm_num [Vector3.Add, Vector3.Scale, sampleGlobals, sampleCamera] at hz

/-- C8, amended: for every camera, an unclaimed wheel event with raw delta
`+120` changes `WorldPosition` by exactly `-1 * Forward`, and one with raw
delta `-120` changes it by exactly `+1 * Forward`, where `Forward` is the
frame's `Forward` vector before the event. -/
theorem C8_wheel_moves_against_Forward [CharZero α] (M : MathLibrary α) (ext : External)
    (g : Globals α) (w_param l_param : Nat) (hgui : ext.unclaimed) :
    (GET_WHEEL_DELTA_WPARAM w_param = 120 →
        (MainWindowCallback M ext g .WM_MOUSEWHEEL w_param l_param).2.g_camera.WorldPosition
          = Vector3.Add g.g_camera.WorldPosition
              (Vector3.Scale (-1) g.g_camera.CoordinateFrame.Forward)) ∧
      (GET_WHEEL_DELTA_WPARAM w_param = -120 →
        (MainWindowCallback M ext g .WM_MOUSEWHEEL w_param l_param).2.g_camera.WorldPosition
          = Vector3.Add g.g_camera.WorldPosition
              (Vector3.Scale 1 g.g_camera.CoordinateFrame.Forward)) := by
  rw [MainWindowCallback_WM_MOUSEWHEEL M ext g w_param l_param hgui]
  constructor
  · intro h
    simp only [MouseWheel, h]
    norm_num
  · intro h
    simp only [MouseWheel, h]
    norm_num

/-- Witness of C8 (amended): one notch forward and one notch backward on the
sample camera. -/
theorem C8_wheel_moves_against_Forward_witness :
    (MainWindowCallback sampleMath sampleExternal sampleGlobals .WM_MOUSEWHEEL
          (65536 * 120) 0).2.g_camera.WorldPosition
        = Vector3.Add sampleGlobals.g_camera.WorldPosition
            (Vector3.Scale (-1) sampleGlobals.g_camera.CoordinateFrame.Forward) ∧
      (MainWindowCallback sampleMath sampleExternal sampleGlobals .WM_MOUSEWHEEL
          (65536 * 65416) 0).2.g_camera.WorldPosition
        = Vector3.Add sampleGlobals.g_camera.WorldPosition
            (Vector3.Scale 1 sampleGlobals.g_camera.CoordinateFrame.Forward) :=
  ⟨(C8_wheel_moves_against_Forward sampleMath sampleExternal sampleGlobals (65536 * 120) 0
      sampleExternal_unclaimed).1 (by decide),
    (C8_wheel_moves_against_Forward sampleMath sampleExternal sampleGlobals (65536 * 65416) 0
      sampleExternal_unclaimed).2 (by decide)⟩

/-- C9: after every Move handled while the drag is active, for every drag
delta and every prior camera, the camera has `Projection = PERSPECTIVE`,
`NearClipPlaneViewDistance = 1` and `FarClipPlaneViewDistance = 1000`. -/
theorem C9_drag_resets_projection_and_clip_planes (M : MathLibrary α) (ext : External)
    (g : Globals α) (w_param l_param : Nat)
    (hgui : ext.unclaimed) (hdown : g.g_mouse_down = true) :
    (MainWindowCallback M ext g .WM_MOUSEMOVE w_param l_param).2.g_camera.Projection
        = ProjectionType.PERSPECTIVE ∧
      (MainWindowCallback M ext g .WM_MOUSEMOVE w_param l_param).2.g_camera.NearClipPlaneViewDistance
        = 1 ∧
      (MainWindowCallback M ext g .WM_MOUSEMOVE w_param l_param).2.g_camera.FarClipPlaneViewDistance
        = 1000 := by
  rw [MainWindowCallback_WM_MOUSEMOVE M ext g w_param l_param hgui hdown]
  exact ⟨rfl, rfl, rfl⟩

/-- Witness of C9: a dead-zone drag (from `(100, 100)` to `(150, 100)`) on the
sample camera, which is orthographic with clip distances `2` and `500`. -/
theorem C9_drag_resets_projection_and_clip_planes_witness :
    (MainWindowCallback sampleMath sampleExternal sampleGlobals .WM_MOUSEMOVE 0
          (MAKELPARAM 150 100)).2.g_camera.Projection = ProjectionType.PERSPECTIVE ∧
      (MainWindowCallback sampleMath sampleExternal sampleGlobals .WM_MOUSEMOVE 0
          (MAKELPARAM 150 100)).2.g_camera.NearClipPlaneViewDistance = 1 ∧
      (MainWindowCallback sampleMath sampleExternal sampleGlobals .WM_MOUSEMOVE 0
          (MAKELPARAM 150 100)).2.g_camera.FarClipPlaneViewDistance = 1000 :=
  C9_drag_resets_projection_and_clip_planes sampleMath sampleExternal sampleGlobals 0
    (MAKELPARAM 150 100) sampleExternal_unclaimed rfl

theorem RotationAboutX_one_zero : RotationAboutX (1 : α) 0 = Matrix4x4.Identity := by
  ext i j
  fin_cases i <;> fin_cases j <;> first | rfl | exact neg_zero

theorem RotationAboutY_MulVector (c s x y z : α) :
    Vector4.XYZ (Matrix4x4.MulVector (RotationAboutY c s) ⟨x, y, z, 1⟩)
      = ⟨c * x + s * z, y, -(s * x) + c * z⟩ := by
  simp [Vector4.XYZ, Matrix4x4.MulVector, RotationAboutY]

theorem five_degrees_bounds :
    (0.08715 : ℝ) < Real.sin (5 * Real.pi / 180) ∧ Real.sin (5 * Real.pi / 180) < 0.0872 ∧
      (0.99615 : ℝ) < Real.cos (5 * Real.pi / 180) ∧
      Real.cos (5 * Real.pi / 180) < 0.9962 := by
  have hlo := Real.pi_gt_d6
  have hhi := Real.pi_lt_d6
  have hx0 : (0 : ℝ) < 5 * Real.pi / 180 := by positivity
  have hxlo : (0.0872664 : ℝ) < 5 * Real.pi / 180 := by linarith
  have hxhi : 5 * Real.pi / 180 < (0.0872665 : ℝ) := by linarith
  have habs : |5 * Real.pi / 180| ≤ (1 : ℝ) := by
    rw [abs_of_pos hx0]
    linarith
  have hsin := abs_le.mp (Real.sin_bound habs)
  have hcos := abs_le.mp (Real.cos_bound habs)
  rw [abs_of_pos hx0] at hsin hcos
  have h2hi : (5 * Real.pi / 180) ^ 2 < (0.0872665 : ℝ) ^ 2 := by gcongr
  have h2lo : (0.0872664 : ℝ) ^ 2 < (5 * Real.pi / 180) ^ 2 := by gcongr
  have h3hi : (5 * Real.pi / 180) ^ 3 < (0.0872665 : ℝ) ^ 3 := by gcongr
  have h3lo : (0.0872664 : ℝ) ^ 3 < (5 * Real.pi / 180) ^ 3 := by gcongr
  have h4hi : (5 * Real.pi / 180) ^ 4 < (0.0872665 : ℝ) ^ 4 := by gcongr
  norm_num at h2hi h2lo h3hi h3lo h4hi
  refine ⟨?_, ?_, ?_, ?_⟩ <;> linarith [hsin.1, hsin.2, hcos.1, hcos.2]

/-- C10: over the reals, with a library whose `DegreesToRadians` multiplies
by `pi / 180` and whose `RotateX` and `RotateY` are the rotation matrices of
the angle: starting from `WorldPosition = (0, 5, 20)`, a drag with `dx = 1`,
`dy = 0` has yaw angle `-5` degrees, pitch angle `0` and an identity roll
matrix; the composed rotation is the rotation about the Y axis by
`-5 pi / 180`, and the new `WorldPosition` is
`(20 sin(-5 pi / 180), 5, 20 cos(-5 pi / 180))`, the point `(0, 5, 20)`
rotated by `-5` degrees about the world Y axis. -/
theorem C10_drag_one_pixel_right_yaws_by_minus_five_degrees (M : MathLibrary ℝ)
    (ext : External) (g : Globals ℝ) (w_param l_param : Nat)
    (hgui : ext.unclaimed) (hdown : g.g_mouse_down = true)
    (hpos : g.g_camera.WorldPosition = ⟨0, 5, 20⟩)
    (hdx : mouse_x_drag_distance_in_pixels g l_param = 1)
    (hdy : mouse_y_drag_distance_in_pixels g l_param = 0)
    (hradians : ∀ degrees, M.DegreesToRadians degrees = degrees * Real.pi / 180)
    (hrotate_x : ∀ angle,
      M.RotateX angle = RotationAboutX (Real.cos angle) (Real.sin angle))
    (hrotate_y : ∀ angle,
      M.RotateY angle = RotationAboutY (Real.cos angle) (Real.sin angle)) :
    (x_rotation_amount_in_degrees 1 : ℝ) = -5 ∧
      (y_rotation_amount_in_degrees 0 : ℝ) = 0 ∧
      camera_z_rotation_matrix M 1 0 = Matrix4x4.Identity ∧
      camera_rotation_matrix M 1 0 = M.RotateY (M.DegreesToRadians (-5)) ∧
      camera_rotation_matrix M 1 0
        = !![Real.cos (-5 * Real.pi / 180), 0, Real.sin (-5 * Real.pi / 180), 0;
             0, 1, 0, 0;
             -Real.sin (-5 * Real.pi / 180), 0, Real.cos (-5 * Real.pi / 180), 0;
             0, 0, 0, 1] ∧
      (MainWindowCallback M ext g .WM_MOUSEMOVE w_param l_param).2.g_camera.WorldPosition
        = ⟨20 * Real.sin (-5 * Real.pi / 180), 5, 20 * Real.cos (-5 * Real.pi / 180)⟩ := by
  obtain ⟨hy, hx, hroll⟩ := small_twist_matrices M 1 0 (by decide)
  have hxdeg : (x_rotation_amount_in_degrees 1 : ℝ) = -5 := by
    simp [x_rotation_amount_in_degrees]
  have hydeg : (y_rotation_amount_in_degrees 0 : ℝ) = 0 := by
    simp [y_rotation_amount_in_degrees]
  have hX0 : M.RotateX (M.DegreesToRadians 0) = Matrix4x4.Identity := by
    rw [hradians, hrotate_x, zero_mul, zero_div, Real.cos_zero, Real.sin_zero,
      RotationAboutX_one_zero]
  have hcomposed : camera_rotation_matrix M 1 0 = M.RotateY (M.DegreesToRadians (-5)) := by
    rw [camera_rotation_matrix_eq, hy, hx, hroll, hxdeg, hydeg, hX0]
    simp only [Matrix4x4.Identity, mul_one]
  have hmatrix : M.RotateY (M.DegreesToRadians (-5))
      = RotationAboutY (Real.cos (-5 * Real.pi / 180)) (Real.sin (-5 * Real.pi / 180)) := by
    rw [hradians, hrotate_y]
  refine ⟨hxdeg, hydeg, hroll, hcomposed, ?_, ?_⟩
  · rw [hcomposed, hmatrix]
    rfl
  · rw [MainWindowCallback_WM_MOUSEMOVE M ext g w_param l_param hgui hdown,
      MouseDrag_WorldPosition, hdx, hdy, hcomposed, hmatrix, hpos]
    have hpoint :
        Vector4.HomogeneousPositionVector (⟨0, 5, 20⟩ : Vector3 ℝ) = ⟨0, 5, 20, 1⟩ := rfl
    rw [hpoint, RotationAboutY_MulVector]
    simp [mul_comm]

/-- Witness of C10: the drag from pixel `(100, 100)` to `(101, 100)` on the
start-up camera at `(0, 5, 20)`, with the library over the reals built from
the real cosine, sine, square root and pi; the new position is about
`(-1.7431, 5, 19.9239)`. -/
theorem C10_drag_one_pixel_right_yaws_by_minus_five_degrees_witness :
    ((x_rotation_amount_in_degrees 1 : ℝ) = -5 ∧
      (y_rotation_amount_in_degrees 0 : ℝ) = 0 ∧
      camera_z_rotation_matrix (standardMath Real.cos Real.sin Real.sqrt Real.pi) 1 0
        = Matrix4x4.Identity ∧
      camera_rotation_matrix (standardMath Real.cos Real.sin Real.sqrt Real.pi) 1 0
        = (standardMath Real.cos Real.sin Real.sqrt Real.pi).RotateY
            ((standardMath Real.cos Real.sin Real.sqrt Real.pi).DegreesToRadians (-5)) ∧
      camera_rotation_matrix (standardMath Real.cos Real.sin Real.sqrt Real.pi) 1 0
        = !![Real.cos (-5 * Real.pi / 180), 0, Real.sin (-5 * Real.pi / 180), 0;
             0, 1, 0, 0;
             -Real.sin (-5 * Real.pi / 180), 0, Real.cos (-5 * Real.pi / 180), 0;
             0, 0, 0, 1] ∧
      (MainWindowCallback (standardMath Real.cos Real.sin Real.sqrt Real.pi) sampleExternal
          (draggingGlobals
            (InitializeCamera (standardMath Real.cos Real.sin Real.sqrt Real.pi)))
          .WM_MOUSEMOVE 0 (MAKELPARAM 101 100)).2.g_camera.WorldPosition
        = ⟨20 * Real.sin (-5 * Real.pi / 180), 5, 20 * Real.cos (-5 * Real.pi / 180)⟩) ∧
      (-1.744 : ℝ)
        < (MainWindowCallback (standardMath Real.cos Real.sin Real.sqrt Real.pi) sampleExternal
            (draggingGlobals
              (InitializeCamera (standardMath Real.cos Real.sin Real.sqrt Real.pi)))
            .WM_MOUSEMOVE 0 (MAKELPARAM 101 100)).2.g_camera.WorldPosition.X ∧
      (MainWindowCallback (standardMath Real.cos Real.sin Real.sqrt Real.pi) sampleExternal
          (draggingGlobals
            (InitializeCamera (standardMath Real.cos Real.sin Real.sqrt Real.pi)))
          .WM_MOUSEMOVE 0 (MAKELPARAM 101 100)).2.g_camera.WorldPosition.X < (-1.743 : ℝ) ∧
      (MainWindowCallback (standardMath Real.cos Real.sin Real.sqrt Real.pi) sampleExternal
          (draggingGlobals
            (InitializeCamera (standardMath Real.cos Real.sin Real.sqrt Real.pi)))
          .WM_MOUSEMOVE 0 (MAKELPARAM 101 100)).2.g_camera.WorldPosition.Y = 5 ∧
      (19.923 : ℝ)
        < (MainWindowCallback (standardMath Real.cos Real.sin Real.sqrt Real.pi) sampleExternal
            (draggingGlobals
              (InitializeCamera (standardMath Real.cos Real.sin Real.sqrt Real.pi)))
            .WM_MOUSEMOVE 0 (MAKELPARAM 101 100)).2.g_camera.WorldPosition.Z ∧
      (MainWindowCallback (standardMath Real.cos Real.sin Real.sqrt Real.pi) sampleExternal
          (draggingGlobals
            (InitializeCamera (standardMath Real.cos Real.sin Real.sqrt Real.pi)))
          .WM_MOUSEMOVE 0 (MAKELPARAM 101 100)).2.g_camera.WorldPosition.Z < (19.924 : ℝ) := by
  have h := C10_drag_one_pixel_right_yaws_by_minus_five_degrees
    (standardMath Real.cos Real.sin Real.sqrt Real.pi) sampleExternal
    (draggingGlobals (InitializeCamera (standardMath Real.cos Real.sin Real.sqrt Real.pi)))
    0 (MAKELPARAM 101 100) sampleExternal_unclaimed rfl rfl (by decide) (by decide)
    (fun _ => rfl) (fun _ => rfl) (fun _ => rfl)
  refine ⟨h, ?_⟩
  rw [h.2.2.2.2.2]
  have hangle : -5 * Real.pi / 180 = -(5 * Real.pi / 180) := by ring
  obtain ⟨hsin_lo, hsin_hi, hcos_lo, hcos_hi⟩ := five_degrees_bounds
  rw [hangle, Real.sin_neg, Real.cos_neg]
  refine ⟨?_, ?_, rfl, ?_, ?_⟩
  · show (-1.744 : ℝ) < 20 * -Real.sin (5 * Real.pi / 180)
    linarith
  · show 20 * -Real.sin (5 * Real.pi / 180) < (-1.743 : ℝ)
    linarith
  · show (19.923 : ℝ) < 20 * Real.cos (5 * Real.pi / 180)
    linarith
  · show 20 * Real.cos (5 * Real.pi / 180) < (19.924 : ℝ)
    linarith

end Claims

/-! ## Drag state, dirty flag and GUI priority -/

section CallbackFacts

variable {α : Type} [Field α]

theorem Dispatch_WM_LBUTTONDOWN (M : MathLibrary α) (g : Globals α) (m : Message)
    (hgui : m.ext.unclaimed) (hm : m.message = WindowMessage.WM_LBUTTONDOWN) :
    Dispatch M g m =
      { g with
        g_mouse_down := true
        g_previous_mouse_x := GET_X_LPARAM m.l_param
        g_previous_mouse_y := GET_Y_LPARAM m.l_param } := by
  obtain ⟨h1, h2⟩ := hgui
  simp [Dispatch, MainWindowCallback, h1, h2, hm]

theorem Dispatch_WM_LBUTTONUP (M : MathLibrary α) (g : Globals α) (m : Message)
    (hgui : m.ext.unclaimed) (hm : m.message = WindowMessage.WM_LBUTTONUP) :
    Dispatch M g m = { g with g_mouse_down := false } := by
  obtain ⟨h1, h2⟩ := hgui
  simp [Dispatch, MainWindowCallback, h1, h2, hm]

theorem Dispatch_g_mouse_down_of_other (M : MathLibrary α) (g : Globals α) (m : Message)
    (hdown : m.message ≠ WindowMessage.WM_LBUTTONDOWN)
    (hup : m.message ≠ WindowMessage.WM_LBUTTONUP) :
    (Dispatch M g m).g_mouse_down = g.g_mouse_down := by
  obtain ⟨ext, message, w_param, l_param⟩ := m
  simp only [Dispatch, MainWindowCallback]
  split
  · rfl
  · split
    · rfl
    · cases message <;> simp_all [MouseDrag, MouseWheel]
      split <;> simp_all

theorem ButtonDownWithNoLaterButtonUp_nil : ¬ ButtonDownWithNoLaterButtonUp [] := by
  rintro ⟨pre, m, post, h, -⟩
  simp at h

theorem ButtonDownWithNoLaterButtonUp_cons (m : Message) (rest : List Message) :
    ButtonDownWithNoLaterButtonUp (m :: rest) ↔
      (m.message = WindowMessage.WM_LBUTTONDOWN ∧
          ∀ m' ∈ rest, m'.message ≠ WindowMessage.WM_LBUTTONUP) ∨
        ButtonDownWithNoLaterButtonUp rest := by
  constructor
  · rintro ⟨pre, m0, post, h, hdown, hpost⟩
    cases pre with
    | nil =>
        simp only [List.nil_append, List.cons.injEq] at h
        obtain ⟨rfl, rfl⟩ := h
        exact Or.inl ⟨hdown, hpost⟩
    | cons p pre' =>
        simp only [List.cons_append, List.cons.injEq] at h
        exact Or.inr ⟨pre', m0, post, h.2, hdown, hpost⟩
  · rintro (⟨hdown, hpost⟩ | ⟨pre, m0, post, h, hdown, hpost⟩)
    · exact ⟨[], m, rest, rfl, hdown, hpost⟩
    · exact ⟨m :: pre, m0, post, by rw [h]; rfl, hdown, hpost⟩

theorem DispatchAll_g_mouse_down (M : MathLibrary α) (msgs : List Message) :
    ∀ g : Globals α, (∀ m ∈ msgs, m.ext.unclaimed) →
      ((DispatchAll M g msgs).g_mouse_down = true ↔
        ButtonDownWithNoLaterButtonUp msgs ∨
          (g.g_mouse_down = true ∧ ∀ m ∈ msgs, m.message ≠ WindowMessage.WM_LBUTTONUP)) := by
  induction msgs with
  | nil =>
      intro g _
      simp [DispatchAll, ButtonDownWithNoLaterButtonUp_nil]
  | cons m rest ih =>
      intro g hun
      have hm : m.ext.unclaimed := hun m (List.mem_cons_self _ _)
      have hrest : ∀ m' ∈ rest, m'.ext.unclaimed :=
        fun m' h => hun m' (List.mem_cons_of_mem _ h)
      rw [DispatchAll, ih _ hrest, ButtonDownWithNoLaterButtonUp_cons, List.forall_mem_cons]
      by_cases hdown : m.message = WindowMessage.WM_LBUTTONDOWN
      · have hne : m.message ≠ WindowMessage.WM_LBUTTONUP := by
          rw [hdown]
          decide
        rw [Dispatch_WM_LBUTTONDOWN M g m hm hdown]
        simp only [hdown, true_and]
        tauto
      · by_cases hup : m.message = WindowMessage.WM_LBUTTONUP
        · rw [Dispatch_WM_LBUTTONUP M g m hm hup]
          simp only [hdown, hup]
          simp
        · rw [Dispatch_g_mouse_down_of_other M g m hdown hup]
          simp only [hdown, false_and, false_or]
          tauto

theorem DispatchAll_append (M : MathLibrary α) (a b : List Message) :
    ∀ g : Globals α, DispatchAll M g (a ++ b) = DispatchAll M (DispatchAll M g a) b := by
  induction a with
  | nil => intro g; rfl
  | cons m rest ih => intro g; exact ih (Dispatch M g m)

theorem sampleDragMessages_unclaimed : ∀ m ∈ sampleDragMessages, m.ext.unclaimed := by
  intro m hm
  simp only [sampleDragMessages, List.mem_cons, List.mem_singleton, List.not_mem_nil,
    or_false] at hm
  rcases hm with rfl | rfl | rfl | rfl | rfl <;> exact sampleExternal_unclaimed

theorem MouseDrag_CoordinateFrame (M : MathLibrary α) (g : Globals α) (l_param : Nat) :
    (MouseDrag M g l_param).g_camera.CoordinateFrame
      = M.FromUpAndForward
          (Vector4.XYZ (Matrix4x4.MulVector
            (camera_rotation_matrix M (mouse_x_drag_distance_in_pixels g l_param)
              (mouse_y_drag_distance_in_pixels g l_param))
            (Vector4.HomogeneousPositionVector g.g_camera.CoordinateFrame.Up)))
          (Vector3.Scale (-1)
            (M.Normalize (Vector3.Sub ⟨0, 0, 0⟩
              (MouseDrag M g l_param).g_camera.WorldPosition))) := rfl

end CallbackFacts

section CallbackClaims

variable {α : Type} [Field α]

/-- C12: for every sequence of messages none of which the GUI claims, handled
from a state in which no drag is active, the drag is active afterwards if and
only if the sequence contains a `WM_LBUTTONDOWN` with no later `WM_LBUTTONUP`;
and right after each `WM_LBUTTONDOWN` of the sequence the stored previous
position is the position carried by that message. -/
theorem C12_drag_active_iff_button_down_with_no_later_button_up (M : MathLibrary α)
    (g : Globals α) (msgs : List Message) (hidle : g.g_mouse_down = false)
    (hun : ∀ m ∈ msgs, m.ext.unclaimed) :
    ((DispatchAll M g msgs).g_mouse_down = true ↔ ButtonDownWithNoLaterButtonUp msgs) ∧
      ∀ pre m post, msgs = pre ++ m :: post →
        m.message = WindowMessage.WM_LBUTTONDOWN →
        (DispatchAll M g (pre ++ [m])).g_mouse_down = true ∧
          (DispatchAll M g (pre ++ [m])).g_previous_mouse_x = GET_X_LPARAM m.l_param ∧
          (DispatchAll M g (pre ++ [m])).g_previous_mouse_y = GET_Y_LPARAM m.l_param := by
  constructor
  · rw [DispatchAll_g_mouse_down M msgs g hun]
    constructor
    · rintro (h | ⟨h, -⟩)
      · exact h
      · rw [hidle] at h
        exact absurd h (by decide)
    · exact Or.inl
  · intro pre m post hmsgs hdown
    have hm : m.ext.unclaimed := hun m (by rw [hmsgs]; simp)
    rw [DispatchAll_append]
    show (Dispatch M (DispatchAll M g pre) m).g_mouse_down = true ∧
      (Dispatch M (DispatchAll M g pre) m).g_previous_mouse_x = GET_X_LPARAM m.l_param ∧
      (Dispatch M (DispatchAll M g pre) m).g_previous_mouse_y = GET_Y_LPARAM m.l_param
    rw [Dispatch_WM_LBUTTONDOWN M _ m hm hdown]
    exact ⟨rfl, rfl, rfl⟩

/-- Witness of C12: the sample sequence press, move, release, press, move,
handled from the idle sample globals. -/
theorem C12_drag_active_iff_button_down_with_no_later_button_up_witness :
    ((DispatchAll sampleMath sampleIdleGlobals sampleDragMessages).g_mouse_down = true ↔
        ButtonDownWithNoLaterButtonUp sampleDragMessages) ∧
      ∀ pre m post, sampleDragMessages = pre ++ m :: post →
        m.message = WindowMessage.WM_LBUTTONDOWN →
        (DispatchAll sampleMath sampleIdleGlobals (pre ++ [m])).g_mouse_down = true ∧
          (DispatchAll sampleMath sampleIdleGlobals (pre ++ [m])).g_previous_mouse_x
            = GET_X_LPARAM m.l_param ∧
          (DispatchAll sampleMath sampleIdleGlobals (pre ++ [m])).g_previous_mouse_y
            = GET_Y_LPARAM m.l_param :=
  C12_drag_active_iff_button_down_with_no_later_button_up sampleMath sampleIdleGlobals
    sampleDragMessages rfl sampleDragMessages_unclaimed

/-- C13, as stated, fails: a Move at the stored previous position `(100, 100)`
while the drag is active (delta `(0, 0)`) sets the dirty flag, which was
clear, and changes the camera. -/
theorem C13_zero_delta_move_sets_the_dirty_flag :
    mouse_x_drag_distance_in_pixels sampleGlobals (MAKELPARAM 100 100) = 0 ∧
      mouse_y_drag_distance_in_pixels sampleGlobals (MAKELPARAM 100 100) = 0 ∧
      sampleGlobals.g_scene_changed = false ∧
      (MainWindowCallback sampleMath sampleExternal sampleGlobals .WM_MOUSEMOVE 0
          (MAKELPARAM 100 100)).2.g_scene_changed = true ∧
      (MainWindowCallback sampleMath sampleExternal sampleGlobals .WM_MOUSEMOVE 0
          (MAKELPARAM 100 100)).2.g_camera.Projection ≠ sampleGlobals.g_camera.Projection := by
  rw [MainWindowCallback_WM_MOUSEMOVE sampleMath sampleExternal sampleGlobals 0
    (MAKELPARAM 100 100) sampleExternal_unclaimed rfl]
  refine ⟨by decide, by decide, rfl, rfl, ?_⟩
  simp [MouseDrag, RotateCamera, sampleGlobals, sampleCamera]

/-- C13, amended: every Move handled while the drag is active, whatever its
delta (the delta `(0, 0)` included), sets the dirty flag, performs the camera
update with that delta and stores the position of the Move as the previous
position. -/
theorem C13_every_move_while_active_sets_the_dirty_flag (M : MathLibrary α)
    (ext : External) (g : Globals α) (w_param l_param : Nat)
    (hgui : ext.unclaimed) (hdown : g.g_mouse_down = true) :
    (MainWindowCallback M ext g .WM_MOUSEMOVE w_param l_param).2.g_scene_changed = true ∧
      (MainWindowCallback M ext g .WM_MOUSEMOVE w_param l_param).2.g_camera
        = RotateCamera M
            (camera_rotation_matrix M (mouse_x_drag_distance_in_pixels g l_param)
              (mouse_y_drag_distance_in_pixels g l_param)) g.g_camera ∧
      (MainWindowCallback M ext g .WM_MOUSEMOVE w_param l_param).2.g_previous_mouse_x
        = GET_X_LPARAM l_param ∧
      (MainWindowCallback M ext g .WM_MOUSEMOVE w_param l_param).2.g_previous_mouse_y
        = GET_Y_LPARAM l_param ∧
      (MainWindowCallback M ext g .WM_MOUSEMOVE w_param l_param).2.g_mouse_down = true := by
  rw [MainWindowCallback_WM_MOUSEMOVE M ext g w_param l_param hgui hdown]
  exact ⟨rfl, rfl, rfl, rfl, hdown⟩

/-- Witness of C13 (amended): the Move at the stored previous position
`(100, 100)`. -/
theorem C13_every_move_while_active_sets_the_dirty_flag_witness :
    (MainWindowCallback sampleMath sampleExternal sampleGlobals .WM_MOUSEMOVE 0
          (MAKELPARAM 100 100)).2.g_scene_changed = true ∧
      (MainWindowCallback sampleMath sampleExternal sampleGlobals .WM_MOUSEMOVE 0
          (MAKELPARAM 100 100)).2.g_camera
        = RotateCamera sampleMath
            (camera_rotation_matrix sampleMath
              (mouse_x_drag_distance_in_pixels sampleGlobals (MAKELPARAM 100 100))
              (mouse_y_drag_distance_in_pixels sampleGlobals (MAKELPARAM 100 100)))
            sampleGlobals.g_camera ∧
      (MainWindowCallback sampleMath sampleExternal sampleGlobals .WM_MOUSEMOVE 0
          (MAKELPARAM 100 100)).2.g_previous_mouse_x = GET_X_LPARAM (MAKELPARAM 100 100) ∧
      (MainWindowCallback sampleMath sampleExternal sampleGlobals .WM_MOUSEMOVE 0
          (MAKELPARAM 100 100)).2.g_previous_mouse_y = GET_Y_LPARAM (MAKELPARAM 100 100) ∧
      (MainWindowCallback sampleMath sampleExternal sampleGlobals .WM_MOUSEMOVE 0
          (MAKELPARAM 100 100)).2.g_mouse_down = true :=
  C13_every_move_while_active_sets_the_dirty_flag sampleMath sampleExternal sampleGlobals 0
    (MAKELPARAM 100 100) sampleExternal_unclaimed rfl

/-- C14, as stated, fails: an event that the ImGui handler reports as handled
is claimed by the GUI, yet the callback returns without marking the scene
dirty. -/
theorem C14_handled_event_does_not_set_the_dirty_flag :
    sampleHandledExternal.claimed ∧
      sampleGlobals.g_scene_changed = false ∧
      (MainWindowCallback sampleMath sampleHandledExternal sampleGlobals .WM_MOUSEMOVE 0
          (MAKELPARAM 101 100)).2.g_scene_changed = false :=
  ⟨Or.inl rfl, rfl, rfl⟩

/-- C14, amended: for every event that the GUI claims, the callback leaves the
camera and the drag state unchanged; when the claim is by input capture (the
handler did not report the event handled, and the GUI wants the mouse or the
keyboard), the callback also marks the scene dirty. -/
theorem C14_claimed_event_leaves_the_camera_unchanged (M : MathLibrary α) (ext : External)
    (g : Globals α) (message : WindowMessage) (w_param l_param : Nat)
    (hclaimed : ext.claimed) :
    (MainWindowCallback M ext g message w_param l_param).2.g_camera = g.g_camera ∧
      (MainWindowCallback M ext g message w_param l_param).2.g_mouse_down = g.g_mouse_down ∧
      (MainWindowCallback M ext g message w_param l_param).2.g_previous_mouse_x
        = g.g_previous_mouse_x ∧
      (MainWindowCallback M ext g message w_param l_param).2.g_previous_mouse_y
        = g.g_previous_mouse_y ∧
      (ext.event_handled_by_gui = false →
        (MainWindowCallback M ext g message w_param l_param).2.g_scene_changed = true) := by
  by_cases hhandled : ext.event_handled_by_gui = true
  · simp [MainWindowCallback, hhandled]
  · have hcapture :
        (ext.im_gui_context && (ext.WantCaptureMouse || ext.WantCaptureKeyboard)) = true := by
      rcases hclaimed with h | h
      · exact absurd h hhandled
      · exact h
    have hfalse : ext.event_handled_by_gui = false := by simpa using hhandled
    simp only [MainWindowCallback, hfalse, hcapture, if_true]
    simp

/-- Witness of C14 (amended): a Move during a drag while the GUI wants to
capture the mouse. -/
theorem C14_claimed_event_leaves_the_camera_unchanged_witness :
    (MainWindowCallback sampleMath sampleCapturingExternal sampleGlobals .WM_MOUSEMOVE 0
          (MAKELPARAM 101 100)).2.g_camera = sampleGlobals.g_camera ∧
      (MainWindowCallback sampleMath sampleCapturingExternal sampleGlobals .WM_MOUSEMOVE 0
          (MAKELPARAM 101 100)).2.g_mouse_down = sampleGlobals.g_mouse_down ∧
      (MainWindowCallback sampleMath sampleCapturingExternal sampleGlobals .WM_MOUSEMOVE 0
          (MAKELPARAM 101 100)).2.g_previous_mouse_x = sampleGlobals.g_previous_mouse_x ∧
      (MainWindowCallback sampleMath sampleCapturingExternal sampleGlobals .WM_MOUSEMOVE 0
          (MAKELPARAM 101 100)).2.g_previous_mouse_y = sampleGlobals.g_previous_mouse_y ∧
      (sampleCapturingExternal.event_handled_by_gui = false →
        (MainWindowCallback sampleMath sampleCapturingExternal sampleGlobals .WM_MOUSEMOVE 0
          (MAKELPARAM 101 100)).2.g_scene_changed = true) :=
  C14_claimed_event_leaves_the_camera_unchanged sampleMath sampleCapturingExternal
    sampleGlobals .WM_MOUSEMOVE 0 (MAKELPARAM 101 100) (Or.inr rfl)

end CallbackClaims

/-! ## The message loop: rendering, backend switch -/

section FrameFacts

variable {α Mdl Sph : Type}

theorem RenderCount_append (a b : List (DeviceCall α Mdl Sph)) :
    RenderCount (a ++ b) = RenderCount a + RenderCount b := by
  simp [RenderCount]

theorem DisplayCount_append (a b : List (DeviceCall α Mdl Sph)) :
    DisplayCount (a ++ b) = DisplayCount a + DisplayCount b := by
  simp [DisplayCount]

theorem LoadCalls_append (a b : List (DeviceCall α Mdl Sph)) :
    LoadCalls (a ++ b) = LoadCalls a ++ LoadCalls b := by
  simp [LoadCalls]

theorem RenderCount_map_Load (device : GraphicsDevice) (objects : List (Object3D α Mdl Sph)) :
    RenderCount (objects.map (DeviceCall.Load device)) = 0 := by
  induction objects with
  | nil => rfl
  | cons o rest ih => simp [RenderCount, DeviceCall.isRender]

theorem DisplayCount_map_Load (device : GraphicsDevice) (objects : List (Object3D α Mdl Sph)) :
    DisplayCount (objects.map (DeviceCall.Load device)) = 0 := by
  induction objects with
  | nil => rfl
  | cons o rest ih => simp [DisplayCount, DeviceCall.isDisplayRenderedImage]

theorem LoadCalls_map_Load (device : GraphicsDevice) (objects : List (Object3D α Mdl Sph)) :
    LoadCalls (objects.map (DeviceCall.Load device)) = objects.map (fun o => (device, o)) := by
  induction objects with
  | nil => rfl
  | cons o rest ih => simpa [LoadCalls] using ih

theorem RenderTestScene_calls (graphics_device : GraphicsDevice)
    (test_scene : Scene α Mdl Sph) (g : Globals α) (settings : RenderingSettings) :
    (RenderTestScene graphics_device test_scene g settings).1 = [] ∨
      (RenderTestScene graphics_device test_scene g settings).1
        = [DeviceCall.Render graphics_device test_scene g.g_camera settings] := by
  simp only [RenderTestScene]
  split
  · split
    · exact Or.inr rfl
    · exact Or.inl rfl
  · exact Or.inr rfl

theorem RenderTestScene_RenderCount (graphics_device : GraphicsDevice)
    (test_scene : Scene α Mdl Sph) (g : Globals α) (settings : RenderingSettings) :
    RenderCount (RenderTestScene graphics_device test_scene g settings).1
      = if graphics_device.Type_ = GraphicsDeviceType.CPU_RAY_TRACER then
          (if g.g_scene_changed = true then 1 else 0)
        else 1 := by
  simp only [RenderTestScene]
  split
  · split <;> rfl
  · rfl

theorem RenderTestScene_DisplayCount (graphics_device : GraphicsDevice)
    (test_scene : Scene α Mdl Sph) (g : Globals α) (settings : RenderingSettings) :
    DisplayCount (RenderTestScene graphics_device test_scene g settings).1 = 0 := by
  rcases RenderTestScene_calls graphics_device test_scene g settings with h | h <;>
    rw [h] <;> rfl

theorem RenderTestScene_LoadCalls (graphics_device : GraphicsDevice)
    (test_scene : Scene α Mdl Sph) (g : Globals α) (settings : RenderingSettings) :
    LoadCalls (RenderTestScene graphics_device test_scene g settings).1 = [] := by
  rcases RenderTestScene_calls graphics_device test_scene g settings with h | h <;>
    rw [h] <;> rfl

theorem RenderTestScene_globals (graphics_device : GraphicsDevice)
    (test_scene : Scene α Mdl Sph) (g : Globals α) (settings : RenderingSettings) :
    (RenderTestScene graphics_device test_scene g settings).2
      = { g with g_scene_changed := false } := rfl

theorem LoadNewModel_calls (Object3D_default : Object3D α Mdl Sph)
    (inp : FrameInput α Mdl Sph) (calls : List (DeviceCall α Mdl Sph))
    (s : AppState α Mdl Sph) :
    (LoadNewModel Object3D_default inp calls s).calls = calls ∨
      ∃ device object,
        (LoadNewModel Object3D_default inp calls s).calls
          = calls ++ [DeviceCall.Load device object] := by
  unfold LoadNewModel
  split
  · exact Or.inl rfl
  · split
    · split
      · exact Or.inl rfl
      · split
        · exact Or.inl rfl
        · exact Or.inr ⟨_, _, rfl⟩
    · exact Or.inl rfl

theorem LoadNewModel_state (Object3D_default : Object3D α Mdl Sph)
    (inp : FrameInput α Mdl Sph) (calls : List (DeviceCall α Mdl Sph))
    (s : AppState α Mdl Sph) :
    (LoadNewModel Object3D_default inp calls s).state.globals = s.globals ∧
      (LoadNewModel Object3D_default inp calls s).state.graphics_device = s.graphics_device ∧
      (LoadNewModel Object3D_default inp calls s).state.gui = s.gui ∧
      (LoadNewModel Object3D_default inp calls s).state.running = s.running ∧
      (LoadNewModel Object3D_default inp calls s).state.g_rendering_settings
        = s.g_rendering_settings := by
  unfold LoadNewModel
  split
  · exact ⟨rfl, rfl, rfl, rfl, rfl⟩
  · split
    · split
      · exact ⟨rfl, rfl, rfl, rfl, rfl⟩
      · split <;> exact ⟨rfl, rfl, rfl, rfl, rfl⟩
    · exact ⟨rfl, rfl, rfl, rfl, rfl⟩

theorem LoadNewModel_fault (Object3D_default : Object3D α Mdl Sph)
    (inp : FrameInput α Mdl Sph) (calls : List (DeviceCall α Mdl Sph))
    (s : AppState α Mdl Sph) (gui : Gui) (device : GraphicsDevice)
    (hgui : s.gui = some gui) (hdev : s.graphics_device = some device) :
    (LoadNewModel Object3D_default inp calls s).fault = none := by
  unfold LoadNewModel
  rw [hgui, hdev]
  simp only
  split
  · split <;> rfl
  · rfl

theorem LoadNewModel_of_no_selection (Object3D_default : Object3D α Mdl Sph)
    (inp : FrameInput α Mdl Sph) (calls : List (DeviceCall α Mdl Sph))
    (s : AppState α Mdl Sph) (gui : Gui) (hgui : s.gui = some gui)
    (hpath : gui.SelectedFilepath = "") :
    LoadNewModel Object3D_default inp calls s = ⟨calls, s, none⟩ := by
  unfold LoadNewModel
  rw [hgui]
  simp [hpath]

theorem LoadNewModel_of_no_gui (Object3D_default : Object3D α Mdl Sph)
    (inp : FrameInput α Mdl Sph) (calls : List (DeviceCall α Mdl Sph))
    (s : AppState α Mdl Sph) (hgui : s.gui = none) :
    LoadNewModel Object3D_default inp calls s = ⟨calls, s, some Fault.empty_gui⟩ := by
  unfold LoadNewModel
  rw [hgui]

theorem Gui_Create_SelectedFilepath (ext : GuiCreateExternal) (device : GraphicsDevice)
    (gui : Gui) (h : Gui.Create ext device = some gui) : gui.SelectedFilepath = "" := by
  unfold Gui.Create at h
  split at h
  · split at h
    · cases h; rfl
    · cases h; rfl
    · split at h
      · cases h
      · cases h; rfl
    · split at h
      · cases h
      · cases h; rfl
  · cases h

theorem LoadNewModel_RenderCount (Object3D_default : Object3D α Mdl Sph)
    (inp : FrameInput α Mdl Sph) (calls : List (DeviceCall α Mdl Sph))
    (s : AppState α Mdl Sph) :
    RenderCount (LoadNewModel Object3D_default inp calls s).calls = RenderCount calls := by
  rcases LoadNewModel_calls Object3D_default inp calls s with h | ⟨device, object, h⟩
  · rw [h]
  · rw [h, RenderCount_append]
    rfl

theorem LoadNewModel_DisplayCount (Object3D_default : Object3D α Mdl Sph)
    (inp : FrameInput α Mdl Sph) (calls : List (DeviceCall α Mdl Sph))
    (s : AppState α Mdl Sph) :
    DisplayCount (LoadNewModel Object3D_default inp calls s).calls = DisplayCount calls := by
  rcases LoadNewModel_calls Object3D_default inp calls s with h | ⟨device, object, h⟩
  · rw [h]
  · rw [h, DisplayCount_append]
    rfl

theorem LoadNewModel_after_Gui_Create (Object3D_default : Object3D α Mdl Sph)
    (inp : FrameInput α Mdl Sph) (calls : List (DeviceCall α Mdl Sph))
    (s : AppState α Mdl Sph) (ext : GuiCreateExternal) (device : GraphicsDevice)
    (hgui : s.gui = Gui.Create ext device) :
    (LoadNewModel Object3D_default inp calls s).calls = calls ∧
      (LoadNewModel Object3D_default inp calls s).state = s := by
  cases hcreate : Gui.Create ext device with
  | none =>
      rw [LoadNewModel_of_no_gui Object3D_default inp calls s (by rw [hgui, hcreate])]
      exact ⟨rfl, rfl⟩
  | some gui =>
      rw [LoadNewModel_of_no_selection Object3D_default inp calls s gui
        (by rw [hgui, hcreate]) (Gui_Create_SelectedFilepath ext device gui hcreate)]
      exact ⟨rfl, rfl⟩

theorem Shutdown_not_mem_RenderTestScene (device other : GraphicsDevice)
    (test_scene : Scene α Mdl Sph) (g : Globals α) (settings : RenderingSettings) :
    DeviceCall.Shutdown other ∉ (RenderTestScene device test_scene g settings).1 := by
  rcases RenderTestScene_calls device test_scene g settings with h | h <;> rw [h] <;> simp

theorem Create_not_mem_RenderTestScene (device : GraphicsDevice) (type : GraphicsDeviceType)
    (result : Option GraphicsDevice)
    (test_scene : Scene α Mdl Sph) (g : Globals α) (settings : RenderingSettings) :
    DeviceCall.Create type result ∉ (RenderTestScene device test_scene g settings).1 := by
  rcases RenderTestScene_calls device test_scene g settings with h | h <;> rw [h] <;> simp

end FrameFacts

section FrameSteps

variable {α : Type} [Field α] {Mdl Sph : Type}

theorem ProcessMessages_nil (M : MathLibrary α) (g : Globals α) :
    ProcessMessages M g [] = (true, g) := rfl

theorem ProcessMessages_single (M : MathLibrary α) (g : Globals α) (m : Message) :
    ProcessMessages M g [QueuedMessage.window m] = (true, Dispatch M g m) := rfl

theorem Frame_of_same_type (M : MathLibrary α) (Object3D_default : Object3D α Mdl Sph)
    (inp : FrameInput α Mdl Sph) (s : AppState α Mdl Sph) (device : GraphicsDevice)
    (gui : Gui) (hdev : s.graphics_device = some device) (hgui : s.gui = some gui)
    (hsame : s.g_rendering_settings.GraphicsDeviceType
      = inp.gui_update.rendering_settings.GraphicsDeviceType) :
    Frame M Object3D_default inp s
      = LoadNewModel Object3D_default inp
          ((RenderTestScene device s.test_scene (ProcessMessages M s.globals inp.messages).2
              s.g_rendering_settings).1 ++ [DeviceCall.DisplayRenderedImage device])
          { s with
            running := (ProcessMessages M s.globals inp.messages).1
            globals :=
              { (ProcessMessages M s.globals inp.messages).2 with
                g_scene_changed := false
                g_camera := inp.gui_update.camera }
            gui := some inp.gui_update.gui
            test_scene := inp.gui_update.scene
            g_rendering_settings := inp.gui_update.rendering_settings } := by
  unfold Frame
  simp only [hdev, hgui, RenderTestScene_globals]
  rw [if_neg (not_not.mpr hsame)]

theorem Frame_of_changed_type (M : MathLibrary α) (Object3D_default : Object3D α Mdl Sph)
    (inp : FrameInput α Mdl Sph) (s : AppState α Mdl Sph) (device : GraphicsDevice)
    (gui : Gui) (hdev : s.graphics_device = some device) (hgui : s.gui = some gui)
    (hchanged : s.g_rendering_settings.GraphicsDeviceType
      ≠ inp.gui_update.rendering_settings.GraphicsDeviceType)
    (new_device : GraphicsDevice) (hcreated : inp.created_device = some new_device) :
    Frame M Object3D_default inp s
      = LoadNewModel Object3D_default inp
          ((RenderTestScene device s.test_scene (ProcessMessages M s.globals inp.messages).2
              s.g_rendering_settings).1 ++ [DeviceCall.DisplayRenderedImage device]
            ++ [DeviceCall.Shutdown device,
                DeviceCall.Create inp.gui_update.rendering_settings.GraphicsDeviceType
                  (some new_device)]
            ++ inp.gui_update.scene.Objects.map (DeviceCall.Load new_device))
          { s with
            running := (ProcessMessages M s.globals inp.messages).1
            globals :=
              { (ProcessMessages M s.globals inp.messages).2 with
                g_scene_changed := false
                g_camera :=
                  { M.LookAtFrom ⟨0, 0, 0⟩ ⟨0, 5, 20⟩ with
                    Projection := ProjectionType.PERSPECTIVE
                    NearClipPlaneViewDistance := 1
                    FarClipPlaneViewDistance := 1000 } }
            graphics_device := some new_device
            gui := Gui.Create inp.gui_create new_device
            test_scene := inp.gui_update.scene
            g_rendering_settings := inp.gui_update.rendering_settings } := by
  unfold Frame
  simp only [hdev, hgui, RenderTestScene_globals]
  rw [if_pos hchanged]
  simp only [SwitchGraphicsDevice, hcreated]

theorem Frame_of_failed_creation (M : MathLibrary α) (Object3D_default : Object3D α Mdl Sph)
    (inp : FrameInput α Mdl Sph) (s : AppState α Mdl Sph) (device : GraphicsDevice)
    (gui : Gui) (hdev : s.graphics_device = some device) (hgui : s.gui = some gui)
    (hchanged : s.g_rendering_settings.GraphicsDeviceType
      ≠ inp.gui_update.rendering_settings.GraphicsDeviceType)
    (hcreated : inp.created_device = none) :
    (Frame M Object3D_default inp s).calls
        = (RenderTestScene device s.test_scene (ProcessMessages M s.globals inp.messages).2
              s.g_rendering_settings).1 ++ [DeviceCall.DisplayRenderedImage device]
            ++ [DeviceCall.Shutdown device,
                DeviceCall.Create inp.gui_update.rendering_settings.GraphicsDeviceType none] ∧
      (Frame M Object3D_default inp s).fault = some Fault.null_graphics_device ∧
      (Frame M Object3D_default inp s).state.globals.g_scene_changed = false := by
  unfold Frame
  simp only [hdev, hgui, RenderTestScene_globals]
  rw [if_pos hchanged]
  simp [SwitchGraphicsDevice, hcreated]

theorem Frame_RenderCount (M : MathLibrary α) (Object3D_default : Object3D α Mdl Sph)
    (inp : FrameInput α Mdl Sph) (s : AppState α Mdl Sph) (device : GraphicsDevice)
    (hdev : s.graphics_device = some device) :
    RenderCount (Frame M Object3D_default inp s).calls
        = RenderCount (RenderTestScene device s.test_scene
            (ProcessMessages M s.globals inp.messages).2 s.g_rendering_settings).1 ∧
      (Frame M Object3D_default inp s).state.globals.g_scene_changed = false := by
  cases hgui : s.gui with
  | none =>
      unfold Frame
      simp [hdev, hgui, RenderTestScene_globals]
  | some gui =>
      by_cases hsame : s.g_rendering_settings.GraphicsDeviceType
          = inp.gui_update.rendering_settings.GraphicsDeviceType
      · rw [Frame_of_same_type M Object3D_default inp s device gui hdev hgui hsame,
          LoadNewModel_RenderCount, (LoadNewModel_state _ _ _ _).1, RenderCount_append]
        exact ⟨rfl, rfl⟩
      · cases hcreated : inp.created_device with
        | none =>
            obtain ⟨hcalls, -, hflag⟩ :=
              Frame_of_failed_creation M Object3D_default inp s device gui hdev hgui hsame
                hcreated
            rw [hcalls, RenderCount_append, RenderCount_append]
            exact ⟨rfl, hflag⟩
        | some new_device =>
            rw [Frame_of_changed_type M Object3D_default inp s device gui hdev hgui hsame
              new_device hcreated, LoadNewModel_RenderCount, (LoadNewModel_state _ _ _ _).1,
              RenderCount_append, RenderCount_append, RenderCount_append,
              RenderCount_map_Load]
            exact ⟨rfl, rfl⟩

theorem Frame_ray_tracer_same_type (M : MathLibrary α)
    (Object3D_default : Object3D α Mdl Sph) (inp : FrameInput α Mdl Sph)
    (s : AppState α Mdl Sph) (device : GraphicsDevice) (type : GraphicsDeviceType)
    (down : Bool) (hs : s.rayTracingAtRest device type down)
    (hsame : inp.gui_update.rendering_settings.GraphicsDeviceType = type)
    (hrunning : (ProcessMessages M s.globals inp.messages).1 = true) :
    RenderCount (Frame M Object3D_default inp s).calls
        = (if (ProcessMessages M s.globals inp.messages).2.g_scene_changed = true then 1
            else 0) ∧
      DisplayCount (Frame M Object3D_default inp s).calls = 1 ∧
      (Frame M Object3D_default inp s).fault = none ∧
      (Frame M Object3D_default inp s).state.rayTracingAtRest device type
        (ProcessMessages M s.globals inp.messages).2.g_mouse_down := by
  obtain ⟨hdev, hrt, ⟨gui, hgui⟩, htype, -, -, -⟩ := hs
  have hsame' : s.g_rendering_settings.GraphicsDeviceType
      = inp.gui_update.rendering_settings.GraphicsDeviceType := by rw [htype, hsame]
  have hcount := (Frame_RenderCount M Object3D_default inp s device hdev).1
  rw [RenderTestScene_RenderCount, if_pos hrt] at hcount
  refine ⟨hcount, ?_, ?_, ?_⟩
  · rw [Frame_of_same_type M Object3D_default inp s device gui hdev hgui hsame',
      LoadNewModel_DisplayCount, DisplayCount_append, RenderTestScene_DisplayCount]
    rfl
  · rw [Frame_of_same_type M Object3D_default inp s device gui hdev hgui hsame']
    exact LoadNewModel_fault _ _ _ _ inp.gui_update.gui device rfl hdev
  · rw [Frame_of_same_type M Object3D_default inp s device gui hdev hgui hsame']
    obtain ⟨hg, hd, hgui', hr, hset⟩ := LoadNewModel_state Object3D_default inp
      ((RenderTestScene device s.test_scene (ProcessMessages M s.globals inp.messages).2
          s.g_rendering_settings).1 ++ [DeviceCall.DisplayRenderedImage device])
      { s with
        running := (ProcessMessages M s.globals inp.messages).1
        globals :=
          { (ProcessMessages M s.globals inp.messages).2 with
            g_scene_changed := false
            g_camera := inp.gui_update.camera }
        gui := some inp.gui_update.gui
        test_scene := inp.gui_update.scene
        g_rendering_settings := inp.gui_update.rendering_settings }
    refine ⟨?_, hrt, ⟨inp.gui_update.gui, ?_⟩, ?_, ?_, ?_, ?_⟩
    · rw [hd]; exact hdev
    · rw [hgui']
    · rw [hset]; exact hsame
    · rw [hr]; exact hrunning
    · rw [hg]
    · rw [hg]

theorem RunFrames_cons (M : MathLibrary α) (Object3D_default : Object3D α Mdl Sph)
    (s : AppState α Mdl Sph) (inp : FrameInput α Mdl Sph) (rest : List (FrameInput α Mdl Sph))
    (hrun : s.running = true) (hfault : (Frame M Object3D_default inp s).fault = none) :
    RunFrames M Object3D_default s (inp :: rest)
      = ⟨(Frame M Object3D_default inp s).calls
            ++ (RunFrames M Object3D_default (Frame M Object3D_default inp s).state rest).calls,
          (RunFrames M Object3D_default (Frame M Object3D_default inp s).state rest).state,
          (RunFrames M Object3D_default (Frame M Object3D_default inp s).state rest).fault⟩ := by
  simp only [RunFrames, hrun, if_true, hfault]

theorem RunFrames_event_free (M : MathLibrary α) (Object3D_default : Object3D α Mdl Sph)
    (device : GraphicsDevice) (type : GraphicsDeviceType) (down : Bool)
    (idle : List (FrameInput α Mdl Sph)) :
    ∀ s : AppState α Mdl Sph, s.rayTracingAtRest device type down →
      (∀ inp ∈ idle, inp.eventFree type) →
      RenderCount (RunFrames M Object3D_default s idle).calls = 0 ∧
        DisplayCount (RunFrames M Object3D_default s idle).calls = idle.length ∧
        (RunFrames M Object3D_default s idle).fault = none ∧
        (RunFrames M Object3D_default s idle).state.rayTracingAtRest device type down := by
  induction idle with
  | nil =>
      intro s hs _
      exact ⟨rfl, rfl, rfl, hs⟩
  | cons inp rest ih =>
      intro s hs hidle
      obtain ⟨hmessages, hsame⟩ := hidle inp (List.mem_cons_self _ _)
      have hrest : ∀ inp' ∈ rest, inp'.eventFree type :=
        fun inp' h => hidle inp' (List.mem_cons_of_mem _ h)
      have hpm : ProcessMessages M s.globals inp.messages = (true, s.globals) := by
        rw [hmessages]
        rfl
      obtain ⟨hcount, hdisplay, hfault, hs'⟩ :=
        Frame_ray_tracer_same_type M Object3D_default inp s device type down hs hsame
          (by rw [hpm])
      rw [hpm] at hcount hs'
      have hclean : s.globals.g_scene_changed = false := hs.2.2.2.2.2.1
      have hdown : s.globals.g_mouse_down = down := hs.2.2.2.2.2.2
      simp only [hclean] at hcount
      rw [hdown] at hs'
      obtain ⟨hc, hd, hf, hfinal⟩ := ih _ hs' hrest
      rw [RunFrames_cons M Object3D_default s inp rest hs.2.2.2.2.1 hfault]
      refine ⟨?_, ?_, hf, hfinal⟩
      · show RenderCount (_ ++ _) = 0
        rw [RenderCount_append, hc]
        simpa using hcount
      · show DisplayCount (_ ++ _) = (inp :: rest).length
        rw [DisplayCount_append, hd, hdisplay, List.length_cons]
        omega

theorem Dispatch_WM_MOUSEMOVE_while_down (M : MathLibrary α) (g : Globals α) (m : Message)
    (hgui : m.ext.unclaimed) (hm : m.message = WindowMessage.WM_MOUSEMOVE)
    (hdown : g.g_mouse_down = true) :
    (Dispatch M g m).g_scene_changed = true ∧ (Dispatch M g m).g_mouse_down = true := by
  obtain ⟨ext, message, w_param, l_param⟩ := m
  simp only at hgui hm
  subst hm
  show (MainWindowCallback M ext g .WM_MOUSEMOVE w_param l_param).2.g_scene_changed = true ∧
    (MainWindowCallback M ext g .WM_MOUSEMOVE w_param l_param).2.g_mouse_down = true
  rw [MainWindowCallback_WM_MOUSEMOVE M ext g w_param l_param hgui hdown]
  exact ⟨rfl, hdown⟩

theorem RunFrames_one_drag_move (M : MathLibrary α) (Object3D_default : Object3D α Mdl Sph)
    (device : GraphicsDevice) (type : GraphicsDeviceType)
    (move : FrameInput α Mdl Sph) (after : List (FrameInput α Mdl Sph))
    (hmove : move.oneDragMove type) (hafter : ∀ inp ∈ after, inp.eventFree type)
    (before : List (FrameInput α Mdl Sph)) :
    ∀ s : AppState α Mdl Sph, s.rayTracingAtRest device type true →
      (∀ inp ∈ before, inp.eventFree type) →
      RenderCount (RunFrames M Object3D_default s (before ++ move :: after)).calls = 1 ∧
        DisplayCount (RunFrames M Object3D_default s (before ++ move :: after)).calls
          = before.length + 1 + after.length ∧
        (RunFrames M Object3D_default s (before ++ move :: after)).fault = none := by
  induction before with
  | nil =>
      intro s hs _
      obtain ⟨⟨m, hmessages, hunclaimed, hkind⟩, hsame⟩ := hmove
      have hdown : s.globals.g_mouse_down = true := hs.2.2.2.2.2.2
      have hpm : ProcessMessages M s.globals move.messages = (true, Dispatch M s.globals m) := by
        rw [hmessages]
        rfl
      obtain ⟨hdirty, hdown'⟩ :=
        Dispatch_WM_MOUSEMOVE_while_down M s.globals m hunclaimed hkind hdown
      obtain ⟨hcount, hdisplay, hfault, hs'⟩ :=
        Frame_ray_tracer_same_type M Object3D_default move s device type true hs hsame
          (by rw [hpm])
      rw [hpm] at hcount hs'
      simp only [hdirty, if_true] at hcount
      rw [hdown'] at hs'
      obtain ⟨hc, hd, hf, -⟩ :=
        RunFrames_event_free M Object3D_default device type true after _ hs' hafter
      rw [List.nil_append, RunFrames_cons M Object3D_default s move after hs.2.2.2.2.1 hfault]
      refine ⟨?_, ?_, hf⟩
      · show RenderCount (_ ++ _) = 1
        rw [RenderCount_append, hc, hcount]
      · show DisplayCount (_ ++ _) = ([] : List (FrameInput α Mdl Sph)).length + 1 + after.length
        rw [DisplayCount_append, hd, hdisplay, List.length_nil]
  | cons inp rest ih =>
      intro s hs hbefore
      obtain ⟨hmessages, hsame⟩ := hbefore inp (List.mem_cons_self _ _)
      have hrest : ∀ inp' ∈ rest, inp'.eventFree type :=
        fun inp' h => hbefore inp' (List.mem_cons_of_mem _ h)
      have hpm : ProcessMessages M s.globals inp.messages = (true, s.globals) := by
        rw [hmessages]
        rfl
      obtain ⟨hcount, hdisplay, hfault, hs'⟩ :=
        Frame_ray_tracer_same_type M Object3D_default inp s device type true hs hsame
          (by rw [hpm])
      rw [hpm] at hcount hs'
      have hclean : s.globals.g_scene_changed = false := hs.2.2.2.2.2.1
      have hdown : s.globals.g_mouse_down = true := hs.2.2.2.2.2.2
      simp only [hclean] at hcount
      rw [hdown] at hs'
      obtain ⟨hc, hd, hf⟩ := ih _ hs' hrest
      rw [List.cons_append,
        RunFrames_cons M Object3D_default s inp (rest ++ move :: after) hs.2.2.2.2.1 hfault]
      refine ⟨?_, ?_, hf⟩
      · show RenderCount (_ ++ _) = 1
        rw [RenderCount_append, hc]
        simpa using hcount
      · show DisplayCount (_ ++ _) = (inp :: rest).length + 1 + after.length
        rw [DisplayCount_append, hd, hdisplay, List.length_cons]
        omega

theorem Frame_switch (M : MathLibrary α) (Object3D_default : Object3D α Mdl Sph)
    (inp : FrameInput α Mdl Sph) (s : AppState α Mdl Sph) (device : GraphicsDevice)
    (gui : Gui) (hdev : s.graphics_device = some device) (hgui : s.gui = some gui)
    (hchanged : s.g_rendering_settings.GraphicsDeviceType
      ≠ inp.gui_update.rendering_settings.GraphicsDeviceType)
    (new_device : GraphicsDevice) (hcreated : inp.created_device = some new_device) :
    (Frame M Object3D_default inp s).calls
        = (RenderTestScene device s.test_scene (ProcessMessages M s.globals inp.messages).2
              s.g_rendering_settings).1 ++ [DeviceCall.DisplayRenderedImage device]
            ++ [DeviceCall.Shutdown device,
                DeviceCall.Create inp.gui_update.rendering_settings.GraphicsDeviceType
                  (some new_device)]
            ++ inp.gui_update.scene.Objects.map (DeviceCall.Load new_device) ∧
      (Frame M Object3D_default inp s).state
        = { s with
            running := (ProcessMessages M s.globals inp.messages).1
            globals :=
              { (ProcessMessages M s.globals inp.messages).2 with
                g_scene_changed := false
                g_camera :=
                  { M.LookAtFrom ⟨0, 0, 0⟩ ⟨0, 5, 20⟩ with
                    Projection := ProjectionType.PERSPECTIVE
                    NearClipPlaneViewDistance := 1
                    FarClipPlaneViewDistance := 1000 } }
            graphics_device := some new_device
            gui := Gui.Create inp.gui_create new_device
            test_scene := inp.gui_update.scene
            g_rendering_settings := inp.gui_update.rendering_settings } := by
  rw [Frame_of_changed_type M Object3D_default inp s device gui hdev hgui hchanged new_device
    hcreated]
  exact LoadNewModel_after_Gui_Create Object3D_default inp _ _ inp.gui_create new_device rfl

theorem sampleAppState_rayTracingAtRest :
    sampleAppState.rayTracingAtRest sampleRayTracer GraphicsDeviceType.CPU_RAY_TRACER true :=
  ⟨rfl, rfl, ⟨_, rfl⟩, rfl, rfl, rfl, rfl⟩

theorem sampleIdleInput_eventFree :
    sampleIdleInput.eventFree GraphicsDeviceType.CPU_RAY_TRACER := ⟨rfl, rfl⟩

theorem sampleMoveInput_oneDragMove :
    sampleMoveInput.oneDragMove GraphicsDeviceType.CPU_RAY_TRACER :=
  ⟨⟨_, rfl, sampleExternal_unclaimed, rfl⟩, rfl⟩

theorem replicate_sampleIdleInput_eventFree (n : Nat) :
    ∀ inp ∈ List.replicate n sampleIdleInput,
      inp.eventFree GraphicsDeviceType.CPU_RAY_TRACER := by
  intro inp h
  rw [List.eq_of_mem_replicate h]
  exact sampleIdleInput_eventFree

theorem Frame_same_type_calls (M : MathLibrary α) (Object3D_default : Object3D α Mdl Sph)
    (inp : FrameInput α Mdl Sph) (s : AppState α Mdl Sph) (device : GraphicsDevice)
    (gui : Gui) (hdev : s.graphics_device = some device) (hgui : s.gui = some gui)
    (hsame : s.g_rendering_settings.GraphicsDeviceType
      = inp.gui_update.rendering_settings.GraphicsDeviceType) :
    (Frame M Object3D_default inp s).calls
        = (RenderTestScene device s.test_scene (ProcessMessages M s.globals inp.messages).2
            s.g_rendering_settings).1 ++ [DeviceCall.DisplayRenderedImage device] ∨
      ∃ load_device object,
        (Frame M Object3D_default inp s).calls
          = (RenderTestScene device s.test_scene (ProcessMessages M s.globals inp.messages).2
              s.g_rendering_settings).1 ++ [DeviceCall.DisplayRenderedImage device]
            ++ [DeviceCall.Load load_device object] := by
  rw [Frame_of_same_type M Object3D_default inp s device gui hdev hgui hsame]
  exact LoadNewModel_calls _ _ _ _

theorem Frame_same_type_state (M : MathLibrary α) (Object3D_default : Object3D α Mdl Sph)
    (inp : FrameInput α Mdl Sph) (s : AppState α Mdl Sph) (device : GraphicsDevice)
    (gui : Gui) (hdev : s.graphics_device = some device) (hgui : s.gui = some gui)
    (hsame : s.g_rendering_settings.GraphicsDeviceType
      = inp.gui_update.rendering_settings.GraphicsDeviceType) :
    (Frame M Object3D_default inp s).state.graphics_device = some device ∧
      (Frame M Object3D_default inp s).state.gui = some inp.gui_update.gui ∧
      (Frame M Object3D_default inp s).state.globals.g_camera = inp.gui_update.camera := by
  rw [Frame_of_same_type M Object3D_default inp s device gui hdev hgui hsame]
  obtain ⟨hg, hd, hgui', -, -⟩ := LoadNewModel_state Object3D_default inp
    ((RenderTestScene device s.test_scene (ProcessMessages M s.globals inp.messages).2
        s.g_rendering_settings).1 ++ [DeviceCall.DisplayRenderedImage device])
    { s with
      running := (ProcessMessages M s.globals inp.messages).1
      globals :=
        { (ProcessMessages M s.globals inp.messages).2 with
          g_scene_changed := false
          g_camera := inp.gui_update.camera }
      gui := some inp.gui_update.gui
      test_scene := inp.gui_update.scene
      g_rendering_settings := inp.gui_update.rendering_settings }
  refine ⟨?_, ?_, ?_⟩
  · rw [hd]; exact hdev
  · rw [hgui']
  · rw [hg]

end FrameSteps

section FrameClaims

variable {α : Type} [Field α] {Mdl Sph : Type}

/-- C16: in every iteration of the message loop entered with a device, the
number of `Render` calls is `1` if the device's type is not `CPU_RAY_TRACER`;
for a `CPU_RAY_TRACER` device it is `1` if the dirty flag is set once the
messages have been processed and `0` otherwise; in every case the dirty flag
is false after the render block and at the end of the iteration. -/
theorem C16_render_decision (M : MathLibrary α) (Object3D_default : Object3D α Mdl Sph)
    (inp : FrameInput α Mdl Sph) (s : AppState α Mdl Sph) (device : GraphicsDevice)
    (hdev : s.graphics_device = some device) :
    RenderCount (Frame M Object3D_default inp s).calls
        = (if device.Type_ = GraphicsDeviceType.CPU_RAY_TRACER then
            (if (ProcessMessages M s.globals inp.messages).2.g_scene_changed = true then 1
              else 0)
          else 1) ∧
      (RenderTestScene device s.test_scene (ProcessMessages M s.globals inp.messages).2
          s.g_rendering_settings).2.g_scene_changed = false ∧
      (Frame M Object3D_default inp s).state.globals.g_scene_changed = false := by
  obtain ⟨hcount, hflag⟩ := Frame_RenderCount M Object3D_default inp s device hdev
  rw [RenderTestScene_RenderCount] at hcount
  exact ⟨hcount, rfl, hflag⟩

/-- Witness of C16: the ray tracer with the dirty flag clear, in an iteration
that drains one drag Move. -/
theorem C16_render_decision_witness :
    RenderCount (Frame sampleMath (sampleObject "") sampleMoveInput sampleAppState).calls
        = (if sampleRayTracer.Type_ = GraphicsDeviceType.CPU_RAY_TRACER then
            (if (ProcessMessages sampleMath sampleAppState.globals
                  sampleMoveInput.messages).2.g_scene_changed = true then 1
              else 0)
          else 1) ∧
      (RenderTestScene sampleRayTracer sampleAppState.test_scene
          (ProcessMessages sampleMath sampleAppState.globals sampleMoveInput.messages).2
          sampleAppState.g_rendering_settings).2.g_scene_changed = false ∧
      (Frame sampleMath (sampleObject "") sampleMoveInput
          sampleAppState).state.globals.g_scene_changed = false :=
  C16_render_decision sampleMath (sampleObject "") sampleMoveInput sampleAppState
    sampleRayTracer rfl

/-- C17: with a ray-tracing device, an existing GUI and the dirty flag clear,
any number of consecutive iterations that drain no message (and in which the
GUI keeps the backend type) make `0` `Render` calls; and if, during a drag,
one iteration drains exactly one unclaimed Move, the iterations before it,
that iteration and the event-free iterations after it make exactly `1`
`Render` call in total.  Each iteration is run to its end (one
`DisplayRenderedImage` per iteration, no fault). -/
theorem C17_dirty_flag_throttle (M : MathLibrary α) (Object3D_default : Object3D α Mdl Sph)
    (s : AppState α Mdl Sph) (device : GraphicsDevice) (type : GraphicsDeviceType)
    (down : Bool) (hs : s.rayTracingAtRest device type down) :
    (∀ idle : List (FrameInput α Mdl Sph), (∀ inp ∈ idle, inp.eventFree type) →
        RenderCount (RunFrames M Object3D_default s idle).calls = 0 ∧
          DisplayCount (RunFrames M Object3D_default s idle).calls = idle.length ∧
          (RunFrames M Object3D_default s idle).fault = none) ∧
      (down = true →
        ∀ (before : List (FrameInput α Mdl Sph)) (move : FrameInput α Mdl Sph)
          (after : List (FrameInput α Mdl Sph)),
          (∀ inp ∈ before, inp.eventFree type) → move.oneDragMove type →
          (∀ inp ∈ after, inp.eventFree type) →
          RenderCount (RunFrames M Object3D_default s (before ++ move :: after)).calls = 1 ∧
            DisplayCount (RunFrames M Object3D_default s (before ++ move :: after)).calls
              = before.length + 1 + after.length ∧
            (RunFrames M Object3D_default s (before ++ move :: after)).fault = none) := by
  constructor
  · intro idle hidle
    obtain ⟨hc, hd, hf, -⟩ :=
      RunFrames_event_free M Object3D_default device type down idle s hs hidle
    exact ⟨hc, hd, hf⟩
  · intro hdown before move after hbefore hmove hafter
    subst hdown
    exact RunFrames_one_drag_move M Object3D_default device type move after hmove hafter
      before s hs hbefore

/-- Witness of C17: ten idle iterations on the sample ray tracer, and one drag
Move between two and seven idle iterations. -/
theorem C17_dirty_flag_throttle_witness :
    RenderCount (RunFrames sampleMath (sampleObject "") sampleAppState
        (List.replicate 10 sampleIdleInput)).calls = 0 ∧
      RenderCount (RunFrames sampleMath (sampleObject "") sampleAppState
        (List.replicate 2 sampleIdleInput ++ sampleMoveInput
          :: List.replicate 7 sampleIdleInput)).calls = 1 :=
  ⟨((C17_dirty_flag_throttle sampleMath (sampleObject "") sampleAppState sampleRayTracer
        GraphicsDeviceType.CPU_RAY_TRACER true sampleAppState_rayTracingAtRest).1
      (List.replicate 10 sampleIdleInput) (replicate_sampleIdleInput_eventFree 10)).1,
    ((C17_dirty_flag_throttle sampleMath (sampleObject "") sampleAppState sampleRayTracer
        GraphicsDeviceType.CPU_RAY_TRACER true sampleAppState_rayTracingAtRest).2 rfl
      (List.replicate 2 sampleIdleInput) sampleMoveInput (List.replicate 7 sampleIdleInput)
      (replicate_sampleIdleInput_eventFree 2) sampleMoveInput_oneDragMove
      (replicate_sampleIdleInput_eventFree 7)).1⟩

/-- C18: in every iteration entered with a device and a GUI, the old device is
shut down and `IGraphicsDevice::Create` is called if and only if the backend
type of the settings after the GUI update differs from the one before it.
When they are equal, the device, the GUI object and the camera are as the GUI
update left them.  When they differ and a device is created, the iteration
ends with the new device, a GUI made by `Gui::Create` for it, the start-up
camera, and a `Load` of every scene object on the new device. -/
theorem C18_backend_switch_trigger (M : MathLibrary α)
    (Object3D_default : Object3D α Mdl Sph) (inp : FrameInput α Mdl Sph)
    (s : AppState α Mdl Sph) (device : GraphicsDevice) (gui : Gui)
    (hdev : s.graphics_device = some device) (hgui : s.gui = some gui) :
    (DeviceCall.Shutdown device ∈ (Frame M Object3D_default inp s).calls ↔
        s.g_rendering_settings.GraphicsDeviceType
          ≠ inp.gui_update.rendering_settings.GraphicsDeviceType) ∧
      (DeviceCall.Create inp.gui_update.rendering_settings.GraphicsDeviceType
            inp.created_device ∈ (Frame M Object3D_default inp s).calls ↔
        s.g_rendering_settings.GraphicsDeviceType
          ≠ inp.gui_update.rendering_settings.GraphicsDeviceType) ∧
      (s.g_rendering_settings.GraphicsDeviceType
          = inp.gui_update.rendering_settings.GraphicsDeviceType →
        (Frame M Object3D_default inp s).state.graphics_device = some device ∧
          (Frame M Object3D_default inp s).state.gui = some inp.gui_update.gui ∧
          (Frame M Object3D_default inp s).state.globals.g_camera = inp.gui_update.camera) ∧
      (s.g_rendering_settings.GraphicsDeviceType
          ≠ inp.gui_update.rendering_settings.GraphicsDeviceType →
        ∀ new_device, inp.created_device = some new_device →
          (Frame M Object3D_default inp s).state.graphics_device = some new_device ∧
            (Frame M Object3D_default inp s).state.gui
              = Gui.Create inp.gui_create new_device ∧
            (Frame M Object3D_default inp s).state.globals.g_camera = InitializeCamera M ∧
            ∀ object ∈ inp.gui_update.scene.Objects,
              DeviceCall.Load new_device object ∈ (Frame M Object3D_default inp s).calls) := by
  have hswitch : s.g_rendering_settings.GraphicsDeviceType
        ≠ inp.gui_update.rendering_settings.GraphicsDeviceType →
      DeviceCall.Shutdown device ∈ (Frame M Object3D_default inp s).calls ∧
        DeviceCall.Create inp.gui_update.rendering_settings.GraphicsDeviceType
          inp.created_device ∈ (Frame M Object3D_default inp s).calls := by
    intro hchanged
    cases hcreated : inp.created_device with
    | none =>
        rw [(Frame_of_failed_creation M Object3D_default inp s device gui hdev hgui hchanged
          hcreated).1]
        simp
    | some new_device =>
        rw [(Frame_switch M Object3D_default inp s device gui hdev hgui hchanged new_device
          hcreated).1]
        simp
  have hstay : s.g_rendering_settings.GraphicsDeviceType
        = inp.gui_update.rendering_settings.GraphicsDeviceType →
      DeviceCall.Shutdown device ∉ (Frame M Object3D_default inp s).calls ∧
        DeviceCall.Create inp.gui_update.rendering_settings.GraphicsDeviceType
          inp.created_device ∉ (Frame M Object3D_default inp s).calls := by
    intro hsame
    have h1 := Shutdown_not_mem_RenderTestScene device device s.test_scene
      (ProcessMessages M s.globals inp.messages).2 s.g_rendering_settings
    have h2 := Create_not_mem_RenderTestScene device
      inp.gui_update.rendering_settings.GraphicsDeviceType inp.created_device s.test_scene
      (ProcessMessages M s.globals inp.messages).2 s.g_rendering_settings
    rcases Frame_same_type_calls M Object3D_default inp s device gui hdev hgui hsame with
      h | ⟨load_device, object, h⟩ <;> rw [h] <;> simp [h1, h2]
  refine ⟨?_, ?_, ?_, ?_⟩
  · constructor
    · intro hmem hsame
      exact (hstay hsame).1 hmem
    · intro hchanged
      exact (hswitch hchanged).1
  · constructor
    · intro hmem hsame
      exact (hstay hsame).2 hmem
    · intro hchanged
      exact (hswitch hchanged).2
  · intro hsame
    exact Frame_same_type_state M Object3D_default inp s device gui hdev hgui hsame
  · intro hchanged new_device hcreated
    obtain ⟨hcalls, hstate⟩ :=
      Frame_switch M Object3D_default inp s device gui hdev hgui hchanged new_device hcreated
    rw [hcalls, hstate]
    refine ⟨rfl, rfl, rfl, ?_⟩
    intro object hobject
    simp only [List.mem_append, List.mem_map]
    exact Or.inr ⟨object, hobject, rfl⟩

/-- Witness of C18: the sample application on the ray tracer, in an iteration
in which the GUI selects the rasterizer. -/
theorem C18_backend_switch_trigger_witness :
    DeviceCall.Shutdown sampleRayTracer
        ∈ (Frame sampleMath (sampleObject "") sampleSwitchInput sampleAppState).calls ∧
      (Frame sampleMath (sampleObject "") sampleSwitchInput
          sampleAppState).state.graphics_device = some sampleRasterizer ∧
      (Frame sampleMath (sampleObject "") sampleSwitchInput
          sampleAppState).state.globals.g_camera = InitializeCamera sampleMath ∧
      (Frame sampleMath (sampleObject "") sampleIdleInput
          sampleAppState).state.graphics_device = some sampleRayTracer :=
  ⟨(C18_backend_switch_trigger sampleMath (sampleObject "") sampleSwitchInput sampleAppState
        sampleRayTracer {} rfl rfl).1.mpr (by decide),
    ((C18_backend_switch_trigger sampleMath (sampleObject "") sampleSwitchInput sampleAppState
        sampleRayTracer {} rfl rfl).2.2.2 (by decide) sampleRasterizer rfl).1,
    ((C18_backend_switch_trigger sampleMath (sampleObject "") sampleSwitchInput sampleAppState
        sampleRayTracer {} rfl rfl).2.2.2 (by decide) sampleRasterizer rfl).2.2.1,
    ((C18_backend_switch_trigger sampleMath (sampleObject "") sampleIdleInput sampleAppState
        sampleRayTracer {} rfl rfl).2.2.1 rfl).1⟩

/-- C19: when the backend type has changed and a new device is created, the
`Load` calls of the iteration are exactly one per object of the scene, on the
new device and in scene order, so there are as many as the scene has objects;
the scene is left as the GUI update produced it. -/
theorem C19_backend_switch_reloads_every_object (M : MathLibrary α)
    (Object3D_default : Object3D α Mdl Sph) (inp : FrameInput α Mdl Sph)
    (s : AppState α Mdl Sph) (device : GraphicsDevice) (gui : Gui)
    (hdev : s.graphics_device = some device) (hgui : s.gui = some gui)
    (hchanged : s.g_rendering_settings.GraphicsDeviceType
      ≠ inp.gui_update.rendering_settings.GraphicsDeviceType)
    (new_device : GraphicsDevice) (hcreated : inp.created_device = some new_device) :
    LoadCalls (Frame M Object3D_default inp s).calls
        = inp.gui_update.scene.Objects.map (fun object => (new_device, object)) ∧
      (LoadCalls (Frame M Object3D_default inp s).calls).length
        = inp.gui_update.scene.Objects.length ∧
      (Frame M Object3D_default inp s).state.test_scene = inp.gui_update.scene := by
  obtain ⟨hcalls, hstate⟩ :=
    Frame_switch M Object3D_default inp s device gui hdev hgui hchanged new_device hcreated
  have hloads : LoadCalls (Frame M Object3D_default inp s).calls
      = inp.gui_update.scene.Objects.map (fun object => (new_device, object)) := by
    rw [hcalls, LoadCalls_append, LoadCalls_append, LoadCalls_append,
      RenderTestScene_LoadCalls, LoadCalls_map_Load]
    rfl
  refine ⟨hloads, ?_, ?_⟩
  · rw [hloads, List.length_map]
  · rw [hstate]

/-- Witness of C19: the switch from the ray tracer to the rasterizer with the
two objects of the sample scene. -/
theorem C19_backend_switch_reloads_every_object_witness :
    LoadCalls (Frame sampleMath (sampleObject "") sampleSwitchInput sampleAppState).calls
        = sampleSwitchInput.gui_update.scene.Objects.map
            (fun object => (sampleRasterizer, object)) ∧
      (LoadCalls (Frame sampleMath (sampleObject "") sampleSwitchInput
          sampleAppState).calls).length
        = sampleSwitchInput.gui_update.scene.Objects.length ∧
      (Frame sampleMath (sampleObject "") sampleSwitchInput sampleAppState).state.test_scene
        = sampleSwitchInput.gui_update.scene :=
  C19_backend_switch_reloads_every_object sampleMath (sampleObject "") sampleSwitchInput
    sampleAppState sampleRayTracer {} rfl rfl (by decide) sampleRasterizer rfl

/-- C20: after every backend switch in which a device is created, whatever the
camera was before and whatever the GUI update left in it, the camera is the
start-up camera of `WinMain`: `LookAtFrom` the origin from `(0, 5, 20)` with
`Projection = PERSPECTIVE` and clip distances `1` and `1000`. -/
theorem C20_backend_switch_resets_the_camera (M : MathLibrary α)
    (Object3D_default : Object3D α Mdl Sph) (inp : FrameInput α Mdl Sph)
    (s : AppState α Mdl Sph) (device : GraphicsDevice) (gui : Gui)
    (hdev : s.graphics_device = some device) (hgui : s.gui = some gui)
    (hchanged : s.g_rendering_settings.GraphicsDeviceType
      ≠ inp.gui_update.rendering_settings.GraphicsDeviceType)
    (new_device : GraphicsDevice) (hcreated : inp.created_device = some new_device) :
    (Frame M Object3D_default inp s).state.globals.g_camera = InitializeCamera M ∧
      (Frame M Object3D_default inp s).state.globals.g_camera
        = { M.LookAtFrom ⟨0, 0, 0⟩ ⟨0, 5, 20⟩ with
            Projection := ProjectionType.PERSPECTIVE
            NearClipPlaneViewDistance := 1
            FarClipPlaneViewDistance := 1000 } ∧
      (Frame M Object3D_default inp s).state.globals.g_camera.Projection
        = ProjectionType.PERSPECTIVE ∧
      (Frame M Object3D_default inp s).state.globals.g_camera.NearClipPlaneViewDistance = 1 ∧
      (Frame M Object3D_default inp s).state.globals.g_camera.FarClipPlaneViewDistance
        = 1000 := by
  rw [(Frame_switch M Object3D_default inp s device gui hdev hgui hchanged new_device
    hcreated).2]
  exact ⟨rfl, rfl, rfl, rfl, rfl⟩

/-- Witness of C20: the switch from the ray tracer to the rasterizer, entered
with the orthographic sample camera. -/
theorem C20_backend_switch_resets_the_camera_witness :
    (Frame sampleMath (sampleObject "") sampleSwitchInput
          sampleAppState).state.globals.g_camera = InitializeCamera sampleMath ∧
      (Frame sampleMath (sampleObject "") sampleSwitchInput sampleAppState).state.globals.g_camera
        = { sampleMath.LookAtFrom ⟨0, 0, 0⟩ ⟨0, 5, 20⟩ with
            Projection := ProjectionType.PERSPECTIVE
            NearClipPlaneViewDistance := 1
            FarClipPlaneViewDistance := 1000 } ∧
      (Frame sampleMath (sampleObject "") sampleSwitchInput
          sampleAppState).state.globals.g_camera.Projection = ProjectionType.PERSPECTIVE ∧
      (Frame sampleMath (sampleObject "") sampleSwitchInput
          sampleAppState).state.globals.g_camera.NearClipPlaneViewDistance = 1 ∧
      (Frame sampleMath (sampleObject "") sampleSwitchInput
          sampleAppState).state.globals.g_camera.FarClipPlaneViewDistance = 1000 :=
  C20_backend_switch_resets_the_camera sampleMath (sampleObject "") sampleSwitchInput
    sampleAppState sampleRayTracer {} rfl rfl (by decide) sampleRasterizer rfl

end FrameClaims

/-! ## Backend switch order, creation failure and model loading -/

section SwitchAndLoadFacts

variable {α Mdl Sph : Type}

theorem LoadNewModel_of_failed_load (Object3D_default : Object3D α Mdl Sph)
    (inp : FrameInput α Mdl Sph) (calls : List (DeviceCall α Mdl Sph))
    (s : AppState α Mdl Sph) (gui : Gui) (hgui : s.gui = some gui)
    (hfail : inp.loaded_model = none) :
    LoadNewModel Object3D_default inp calls s = ⟨calls, s, none⟩ := by
  unfold LoadNewModel
  rw [hgui, hfail]
  simp

theorem LoadNewModel_of_loaded (Object3D_default : Object3D α Mdl Sph)
    (inp : FrameInput α Mdl Sph) (calls : List (DeviceCall α Mdl Sph))
    (s : AppState α Mdl Sph) (gui : Gui) (device : GraphicsDevice) (model : Mdl)
    (hgui : s.gui = some gui) (hdev : s.graphics_device = some device)
    (hselected : gui.SelectedFilepath ≠ "") (hloaded : inp.loaded_model = some model) :
    LoadNewModel Object3D_default inp calls s
      = ⟨calls ++ [DeviceCall.Load device { Object3D_default with Model := model }],
          { s with
            current_object := some { Object3D_default with Model := model }
            test_scene :=
              { s.test_scene with Objects := [{ Object3D_default with Model := model }] } },
          none⟩ := by
  unfold LoadNewModel
  rw [hgui, hloaded, hdev]
  simp [hselected]

theorem isShutdown_isCreate_of_mem_RenderTestScene (device : GraphicsDevice)
    (test_scene : Scene α Mdl Sph) (g : Globals α) (settings : RenderingSettings) :
    ∀ call ∈ (RenderTestScene device test_scene g settings).1 ++
        [DeviceCall.DisplayRenderedImage device],
      call.isShutdown = false ∧ call.isCreate = false := by
  intro call hcall
  rcases RenderTestScene_calls device test_scene g settings with h | h <;>
    rw [h] at hcall <;> simp at hcall
  · rw [hcall]; exact ⟨rfl, rfl⟩
  · rcases hcall with rfl | rfl <;> exact ⟨rfl, rfl⟩

theorem isShutdown_isCreate_of_mem_map_Load (device : GraphicsDevice)
    (objects : List (Object3D α Mdl Sph)) :
    ∀ call ∈ objects.map (DeviceCall.Load device),
      call.isShutdown = false ∧ call.isCreate = false := by
  intro call hcall
  obtain ⟨object, -, rfl⟩ := List.mem_map.mp hcall
  exact ⟨rfl, rfl⟩

end SwitchAndLoadFacts

section SwitchAndLoadSteps

variable {α : Type} [Field α] {Mdl Sph : Type}

theorem Frame_of_failed_creation_state (M : MathLibrary α)
    (Object3D_default : Object3D α Mdl Sph)
    (inp : FrameInput α Mdl Sph) (s : AppState α Mdl Sph) (device : GraphicsDevice)
    (gui : Gui) (hdev : s.graphics_device = some device) (hgui : s.gui = some gui)
    (hchanged : s.g_rendering_settings.GraphicsDeviceType
      ≠ inp.gui_update.rendering_settings.GraphicsDeviceType)
    (hcreated : inp.created_device = none) :
    (Frame M Object3D_default inp s).state.graphics_device = none ∧
      (Frame M Object3D_default inp s).state.test_scene = inp.gui_update.scene ∧
      (Frame M Object3D_default inp s).state.gui = some inp.gui_update.gui ∧
      (Frame M Object3D_default inp s).state.globals.g_camera = inp.gui_update.camera := by
  unfold Frame
  simp only [hdev, hgui, RenderTestScene_globals]
  rw [if_pos hchanged]
  simp [SwitchGraphicsDevice, hcreated]

end SwitchAndLoadSteps

section SwitchAndLoadClaims

variable {α : Type} [Field α] {Mdl Sph : Type}

/-- C21, as stated, fails: in the switch from the sample ray tracer to the
rasterizer the `Shutdown` of the old device comes before the `Create` that
returns the new device. -/
theorem C21_shutdown_precedes_the_successful_create :
    ShutdownPrecedesSuccessfulCreate
      (Frame sampleMath (sampleObject "") sampleSwitchInput sampleAppState).calls := by
  have hchanged : sampleAppState.g_rendering_settings.GraphicsDeviceType
      ≠ sampleSwitchInput.gui_update.rendering_settings.GraphicsDeviceType := by decide
  rw [(Frame_switch sampleMath (sampleObject "") sampleSwitchInput sampleAppState
    sampleRayTracer {} rfl rfl hchanged sampleRasterizer rfl).1]
  exact ⟨(RenderTestScene sampleRayTracer sampleAppState.test_scene
      (ProcessMessages sampleMath sampleAppState.globals sampleSwitchInput.messages).2
      sampleAppState.g_rendering_settings).1 ++ [DeviceCall.DisplayRenderedImage sampleRayTracer],
    [], List.map (DeviceCall.Load sampleRasterizer) sampleSwitchInput.gui_update.scene.Objects,
    sampleRayTracer, sampleSwitchInput.gui_update.rendering_settings.GraphicsDeviceType,
    sampleRasterizer, by simp⟩

/-- C21, amended: during a backend switch the old device is shut down first
and `IGraphicsDevice::Create` is called directly afterwards, whether or not it
returns a device; these are the only `Shutdown` and the only `Create` of the
iteration. -/
theorem C21_switch_shuts_down_then_creates (M : MathLibrary α)
    (Object3D_default : Object3D α Mdl Sph) (inp : FrameInput α Mdl Sph)
    (s : AppState α Mdl Sph) (device : GraphicsDevice) (gui : Gui)
    (hdev : s.graphics_device = some device) (hgui : s.gui = some gui)
    (hchanged : s.g_rendering_settings.GraphicsDeviceType
      ≠ inp.gui_update.rendering_settings.GraphicsDeviceType) :
    ∃ pre post,
      (Frame M Object3D_default inp s).calls
          = pre ++ DeviceCall.Shutdown device
              :: DeviceCall.Create inp.gui_update.rendering_settings.GraphicsDeviceType
                  inp.created_device
              :: post ∧
        (∀ call ∈ pre, call.isShutdown = false ∧ call.isCreate = false) ∧
        (∀ call ∈ post, call.isShutdown = false ∧ call.isCreate = false) := by
  cases hcreated : inp.created_device with
  | none =>
      refine ⟨_, [], ?_, isShutdown_isCreate_of_mem_RenderTestScene device s.test_scene
        (ProcessMessages M s.globals inp.messages).2 s.g_rendering_settings, ?_⟩
      · rw [(Frame_of_failed_creation M Object3D_default inp s device gui hdev hgui hchanged
          hcreated).1]
      · intro call hcall
        simp at hcall
  | some new_device =>
      refine ⟨_, _, ?_, isShutdown_isCreate_of_mem_RenderTestScene device s.test_scene
        (ProcessMessages M s.globals inp.messages).2 s.g_rendering_settings,
        isShutdown_isCreate_of_mem_map_Load new_device inp.gui_update.scene.Objects⟩
      rw [(Frame_switch M Object3D_default inp s device gui hdev hgui hchanged new_device
        hcreated).1]
      simp

/-- Witness of C21 (amended): the switch from the sample ray tracer to the
rasterizer. -/
theorem C21_switch_shuts_down_then_creates_witness :
    ∃ pre post,
      (Frame sampleMath (sampleObject "") sampleSwitchInput sampleAppState).calls
          = pre ++ DeviceCall.Shutdown sampleRayTracer
              :: DeviceCall.Create
                  sampleSwitchInput.gui_update.rendering_settings.GraphicsDeviceType
                  sampleSwitchInput.created_device
              :: post ∧
        (∀ call ∈ pre, call.isShutdown = false ∧ call.isCreate = false) ∧
        (∀ call ∈ post, call.isShutdown = false ∧ call.isCreate = false) :=
  C21_switch_shuts_down_then_creates sampleMath (sampleObject "") sampleSwitchInput
    sampleAppState sampleRayTracer {} rfl rfl (by decide)

/-- C22, the code at the failing input: when the GUI selects the rasterizer
and `IGraphicsDevice::Create` returns a null pointer, the iteration has
already shut the old device down, makes no check of the new pointer and ends
in the fault of a call through the null device; no error is reported. -/
theorem C22_failed_creation_ends_in_a_null_device_fault :
    sampleFailedSwitchInput.created_device = none ∧
      (Frame sampleMath (sampleObject "") sampleFailedSwitchInput sampleAppState).fault
        = some Fault.null_graphics_device ∧
      (Frame sampleMath (sampleObject "") sampleFailedSwitchInput
          sampleAppState).state.graphics_device = none ∧
      DeviceCall.Shutdown sampleRayTracer
        ∈ (Frame sampleMath (sampleObject "") sampleFailedSwitchInput sampleAppState).calls := by
  have hchanged : sampleAppState.g_rendering_settings.GraphicsDeviceType
      ≠ sampleFailedSwitchInput.gui_update.rendering_settings.GraphicsDeviceType := by decide
  obtain ⟨hcalls, hfault, -⟩ :=
    Frame_of_failed_creation sampleMath (sampleObject "") sampleFailedSwitchInput
      sampleAppState sampleRayTracer {} rfl rfl hchanged rfl
  obtain ⟨hdevice, -⟩ :=
    Frame_of_failed_creation_state sampleMath (sampleObject "") sampleFailedSwitchInput
      sampleAppState sampleRayTracer {} rfl rfl hchanged rfl
  refine ⟨rfl, hfault, hdevice, ?_⟩
  rw [hcalls]
  simp

/-- C23: in an iteration without backend switch in which a model file was
selected and the loader returns no model, the model-load step changes
nothing: no `Load` is issued in the iteration, the scene is the one left by
the GUI update, the current object is the one from before, and there is no
fault. -/
theorem C23_model_load_failure_changes_nothing (M : MathLibrary α)
    (Object3D_default : Object3D α Mdl Sph) (inp : FrameInput α Mdl Sph)
    (s : AppState α Mdl Sph) (device : GraphicsDevice) (gui : Gui)
    (hdev : s.graphics_device = some device) (hgui : s.gui = some gui)
    (hsame : s.g_rendering_settings.GraphicsDeviceType
      = inp.gui_update.rendering_settings.GraphicsDeviceType)
    (hselected : inp.gui_update.gui.SelectedFilepath ≠ "")
    (hfail : inp.loaded_model = none) :
    (∀ (calls : List (DeviceCall α Mdl Sph)) (before : AppState α Mdl Sph),
        before.gui = some inp.gui_update.gui →
        LoadNewModel Object3D_default inp calls before = ⟨calls, before, none⟩) ∧
      LoadCalls (Frame M Object3D_default inp s).calls = [] ∧
      (Frame M Object3D_default inp s).state.test_scene = inp.gui_update.scene ∧
      (Frame M Object3D_default inp s).state.current_object = s.current_object ∧
      (Frame M Object3D_default inp s).fault = none := by
  have _ := hselected
  have hstep : ∀ (calls : List (DeviceCall α Mdl Sph)) (before : AppState α Mdl Sph),
      before.gui = some inp.gui_update.gui →
      LoadNewModel Object3D_default inp calls before = ⟨calls, before, none⟩ :=
    fun calls before hbefore =>
      LoadNewModel_of_failed_load Object3D_default inp calls before inp.gui_update.gui
        hbefore hfail
  refine ⟨hstep, ?_⟩
  rw [Frame_of_same_type M Object3D_default inp s device gui hdev hgui hsame,
    hstep _ _ rfl]
  refine ⟨?_, rfl, rfl, rfl⟩
  show LoadCalls (_ ++ _) = []
  rw [LoadCalls_append, RenderTestScene_LoadCalls]
  rfl

/-- Witness of C23: the user selects `broken.obj`, which the loader cannot
load, while the sample application stays on the ray tracer. -/
theorem C23_model_load_failure_changes_nothing_witness :
    (∀ (calls : List (DeviceCall ℚ String Unit)) (before : AppState ℚ String Unit),
        before.gui = some sampleFailedLoadInput.gui_update.gui →
        LoadNewModel (sampleObject "") sampleFailedLoadInput calls before
          = ⟨calls, before, none⟩) ∧
      LoadCalls (Frame sampleMath (sampleObject "") sampleFailedLoadInput
          sampleAppState).calls = [] ∧
      (Frame sampleMath (sampleObject "") sampleFailedLoadInput sampleAppState).state.test_scene
        = sampleFailedLoadInput.gui_update.scene ∧
      (Frame sampleMath (sampleObject "") sampleFailedLoadInput
          sampleAppState).state.current_object = sampleAppState.current_object ∧
      (Frame sampleMath (sampleObject "") sampleFailedLoadInput sampleAppState).fault = none :=
  C23_model_load_failure_changes_nothing sampleMath (sampleObject "") sampleFailedLoadInput
    sampleAppState sampleRayTracer {} rfl rfl rfl (by decide) rfl

/-- C24: in an iteration without backend switch in which a model file was
selected and the loader returns the model `model`, whatever the scene held,
its object list afterwards is the single object `Object3D()` with `Model` set
to `model`, that object is the current object, and the iteration issues
exactly one `Load`, of that object on the current device. -/
theorem C24_model_load_success_replaces_the_scene_objects (M : MathLibrary α)
    (Object3D_default : Object3D α Mdl Sph) (inp : FrameInput α Mdl Sph)
    (s : AppState α Mdl Sph) (device : GraphicsDevice) (gui : Gui) (model : Mdl)
    (hdev : s.graphics_device = some device) (hgui : s.gui = some gui)
    (hsame : s.g_rendering_settings.GraphicsDeviceType
      = inp.gui_update.rendering_settings.GraphicsDeviceType)
    (hselected : inp.gui_update.gui.SelectedFilepath ≠ "")
    (hloaded : inp.loaded_model = some model) :
    (Frame M Object3D_default inp s).state.test_scene.Objects
        = [{ Object3D_default with Model := model }] ∧
      (Frame M Object3D_default inp s).state.current_object
        = some { Object3D_default with Model := model } ∧
      LoadCalls (Frame M Object3D_default inp s).calls
        = [(device, { Object3D_default with Model := model })] ∧
      (Frame M Object3D_default inp s).state.graphics_device = some device ∧
      (Frame M Object3D_default inp s).fault = none := by
  have hstep := LoadNewModel_of_loaded Object3D_default inp
    ((RenderTestScene device s.test_scene (ProcessMessages M s.globals inp.messages).2
        s.g_rendering_settings).1 ++ [DeviceCall.DisplayRenderedImage device])
    { s with
      running := (ProcessMessages M s.globals inp.messages).1
      globals :=
        { (ProcessMessages M s.globals inp.messages).2 with
          g_scene_changed := false
          g_camera := inp.gui_update.camera }
      gui := some inp.gui_update.gui
      test_scene := inp.gui_update.scene
      g_rendering_settings := inp.gui_update.rendering_settings }
    inp.gui_update.gui device model rfl hdev hselected hloaded
  rw [Frame_of_same_type M Object3D_default inp s device gui hdev hgui hsame, hstep]
  refine ⟨rfl, rfl, ?_, hdev, rfl⟩
  show LoadCalls (_ ++ _ ++ _) = _
  rw [LoadCalls_append, LoadCalls_append, RenderTestScene_LoadCalls]
  rfl

/-- Witness of C24: the user selects `teapot.obj`, which the loader loads,
while the sample application stays on the ray tracer with a scene of two
objects. -/
theorem C24_model_load_success_replaces_the_scene_objects_witness :
    (Frame sampleMath (sampleObject "") sampleLoadInput sampleAppState).state.test_scene.Objects
        = [{ sampleObject "" with Model := "teapot" }] ∧
      (Frame sampleMath (sampleObject "") sampleLoadInput sampleAppState).state.current_object
        = some { sampleObject "" with Model := "teapot" } ∧
      LoadCalls (Frame sampleMath (sampleObject "") sampleLoadInput sampleAppState).calls
        = [(sampleRayTracer, { sampleObject "" with Model := "teapot" })] ∧
      (Frame sampleMath (sampleObject "") sampleLoadInput sampleAppState).state.graphics_device
        = some sampleRayTracer ∧
      (Frame sampleMath (sampleObject "") sampleLoadInput sampleAppState).fault = none :=
  C24_model_load_success_replaces_the_scene_objects sampleMath (sampleObject "")
    sampleLoadInput sampleAppState sampleRayTracer {} "teapot" rfl rfl rfl (by decide) rfl

end SwitchAndLoadClaims

/-! ## Horizontal drags, telescoping deltas, claimed button events -/

section DragFacts

variable {α : Type} [Field α]

theorem above_threshold_matrices (M : MathLibrary α) (dx dy : Int)
    (hz : 30 < |z_drag_amount dx dy|) :
    camera_y_rotation_matrix M dx dy = Matrix4x4.Identity ∧
      camera_x_rotation_matrix M dx dy = Matrix4x4.Identity := by
  have h30 : ¬ (|z_drag_amount dx dy| ≤ 30) := not_le.mpr hz
  simp only [camera_y_rotation_matrix, camera_x_rotation_matrix, Z_THRESHOLD, if_neg h30,
    and_self]

theorem z_drag_amount_horizontal (dx : Int) (hdx : 0 ≤ dx) : z_drag_amount dx 0 = 2 * dx := by
  simp only [z_drag_amount, max_2d_drag_distance, max_eq_left hdx]
  ring

theorem Dispatch_WM_MOUSEMOVE (M : MathLibrary α) (g : Globals α) (m : Message)
    (hgui : m.ext.unclaimed) (hm : m.message = WindowMessage.WM_MOUSEMOVE)
    (hdown : g.g_mouse_down = true) :
    Dispatch M g m = MouseDrag M g m.l_param := by
  obtain ⟨ext, message, w_param, l_param⟩ := m
  simp only at hgui hm
  subst hm
  exact MainWindowCallback_WM_MOUSEMOVE M ext g w_param l_param hgui hdown

theorem MoveDeltas_sum (M : MathLibrary α) (moves : List Message) :
    ∀ g : Globals α, g.g_mouse_down = true →
      (∀ m ∈ moves, m.ext.unclaimed ∧ m.message = WindowMessage.WM_MOUSEMOVE) →
      ((MoveDeltas M g moves).map Prod.fst).sum
          = (DispatchAll M g moves).g_previous_mouse_x - g.g_previous_mouse_x ∧
        ((MoveDeltas M g moves).map Prod.snd).sum
          = (DispatchAll M g moves).g_previous_mouse_y - g.g_previous_mouse_y ∧
        ((DispatchAll M g moves).g_previous_mouse_x, (DispatchAll M g moves).g_previous_mouse_y)
          = lastPointerPosition (g.g_previous_mouse_x, g.g_previous_mouse_y) moves ∧
        (DispatchAll M g moves).g_mouse_down = true := by
  induction moves with
  | nil =>
      intro g hdown _
      simp [MoveDeltas, DispatchAll, lastPointerPosition, hdown]
  | cons m rest ih =>
      intro g hdown hmoves
      obtain ⟨hunclaimed, hkind⟩ := hmoves m (List.mem_cons_self _ _)
      have hrest : ∀ m' ∈ rest, m'.ext.unclaimed ∧ m'.message = WindowMessage.WM_MOUSEMOVE :=
        fun m' h => hmoves m' (List.mem_cons_of_mem _ h)
      have hstep := Dispatch_WM_MOUSEMOVE M g m hunclaimed hkind hdown
      have hx : (Dispatch M g m).g_previous_mouse_x = GET_X_LPARAM m.l_param := by
        rw [hstep]; rfl
      have hy : (Dispatch M g m).g_previous_mouse_y = GET_Y_LPARAM m.l_param := by
        rw [hstep]; rfl
      have hd : (Dispatch M g m).g_mouse_down = true := by
        rw [hstep]; exact hdown
      obtain ⟨ihx, ihy, ihlast, ihdown⟩ := ih (Dispatch M g m) hd hrest
      rw [hx] at ihx
      rw [hy] at ihy
      rw [hx, hy] at ihlast
      refine ⟨?_, ?_, ?_, ?_⟩
      · simp only [MoveDeltas, DispatchAll, List.map_cons, List.sum_cons, ihx,
          mouse_x_drag_distance_in_pixels]
        ring
      · simp only [MoveDeltas, DispatchAll, List.map_cons, List.sum_cons, ihy,
          mouse_y_drag_distance_in_pixels]
        ring
      · simp only [DispatchAll, lastPointerPosition]
        exact ihlast
      · simp only [DispatchAll]
        exact ihdown

theorem sampleMoves_unclaimed :
    ∀ m ∈ sampleMoves, m.ext.unclaimed ∧ m.message = WindowMessage.WM_MOUSEMOVE := by
  intro m hm
  simp only [sampleMoves, List.mem_cons, List.mem_singleton, List.not_mem_nil,
    or_false] at hm
  rcases hm with rfl | rfl | rfl <;> exact ⟨sampleExternal_unclaimed, rfl⟩

theorem MainWindowCallback_claimed (M : MathLibrary α) (ext : External) (g : Globals α)
    (message : WindowMessage) (w_param l_param : Nat) (hclaimed : ext.claimed) :
    (MainWindowCallback M ext g message w_param l_param).2 = g ∨
      (MainWindowCallback M ext g message w_param l_param).2
        = { g with g_scene_changed := true } := by
  by_cases hhandled : ext.event_handled_by_gui = true
  · left
    simp [MainWindowCallback, hhandled]
  · right
    have hcapture :
        (ext.im_gui_context && (ext.WantCaptureMouse || ext.WantCaptureKeyboard)) = true := by
      rcases hclaimed with h | h
      · exact absurd h hhandled
      · exact h
    have hfalse : ext.event_handled_by_gui = false := by simpa using hhandled
    simp only [MainWindowCallback, hfalse, hcapture, if_true]
    simp

end DragFacts

section DragClaims

variable {α : Type} [Field α]

/-- C25: for every Move handled while the drag is active with `dy = 0` and
`dx ≥ 16`, the twist is `z = 2 * dx > 30`, so the yaw and pitch matrices are
the identity; and for `16 ≤ dx ≤ 150` the composed rotation is the identity
and `WorldPosition` is unchanged by the drag. -/
theorem C25_horizontal_drag_applies_no_yaw (M : MathLibrary α) (ext : External)
    (g : Globals α) (w_param l_param : Nat) (dx : Int)
    (hgui : ext.unclaimed) (hdown : g.g_mouse_down = true)
    (hdx : mouse_x_drag_distance_in_pixels g l_param = dx)
    (hdy : mouse_y_drag_distance_in_pixels g l_param = 0)
    (h16 : 16 ≤ dx) :
    z_drag_amount dx 0 = 2 * dx ∧
      30 < z_drag_amount dx 0 ∧
      camera_y_rotation_matrix M dx 0 = Matrix4x4.Identity ∧
      camera_x_rotation_matrix M dx 0 = Matrix4x4.Identity ∧
      (dx ≤ 150 →
        camera_rotation_matrix M dx 0 = Matrix4x4.Identity ∧
          (MainWindowCallback M ext g .WM_MOUSEMOVE w_param l_param).2.g_camera.WorldPosition
            = g.g_camera.WorldPosition) := by
  have hz : z_drag_amount dx 0 = 2 * dx := z_drag_amount_horizontal dx (by omega)
  have habs : |z_drag_amount dx 0| = 2 * dx := by
    rw [hz]
    exact abs_of_nonneg (by omega)
  have hlow : 30 < |z_drag_amount dx 0| := by
    rw [habs]
    omega
  obtain ⟨hy, hx⟩ := above_threshold_matrices M dx 0 hlow
  refine ⟨hz, by rw [hz]; omega, hy, hx, ?_⟩
  intro h150
  have hhigh : |z_drag_amount dx 0| ≤ 300 := by
    rw [habs]
    omega
  obtain ⟨-, -, hroll⟩ := dead_zone_matrices M dx 0 hlow hhigh
  have hcomposed : camera_rotation_matrix M dx 0 = Matrix4x4.Identity := by
    rw [camera_rotation_matrix_eq, hy, hx, hroll]
    simp only [Matrix4x4.Identity, one_mul]
  refine ⟨hcomposed, ?_⟩
  rw [MainWindowCallback_WM_MOUSEMOVE M ext g w_param l_param hgui hdown,
    MouseDrag_WorldPosition, hdx, hdy, hcomposed, MulVector_Identity,
    XYZ_HomogeneousPositionVector]

/-- Witness of C25: the drag from pixel `(100, 100)` to `(120, 100)`, with
`dx = 20` and `dy = 0`. -/
theorem C25_horizontal_drag_applies_no_yaw_witness :
    z_drag_amount 20 0 = 2 * 20 ∧
      30 < z_drag_amount 20 0 ∧
      camera_y_rotation_matrix sampleMath 20 0 = Matrix4x4.Identity ∧
      camera_x_rotation_matrix sampleMath 20 0 = Matrix4x4.Identity ∧
      ((20 : Int) ≤ 150 →
        camera_rotation_matrix sampleMath 20 0 = Matrix4x4.Identity ∧
          (MainWindowCallback sampleMath sampleExternal sampleGlobals .WM_MOUSEMOVE 0
              (MAKELPARAM 120 100)).2.g_camera.WorldPosition
            = sampleGlobals.g_camera.WorldPosition) :=
  C25_horizontal_drag_applies_no_yaw sampleMath sampleExternal sampleGlobals 0
    (MAKELPARAM 120 100) 20 sampleExternal_unclaimed rfl (by decide) (by decide) (by decide)

/-- C26: for every unclaimed `WM_LBUTTONDOWN` at `(x0, y0)` followed by any
sequence of unclaimed `WM_MOUSEMOVE` messages, the drag distances computed by
the handler sum to the last position minus `(x0, y0)`, and the stored previous
position at the end is the last position (which is `(x0, y0)` when there is
no Move). -/
theorem C26_drag_deltas_telescope (M : MathLibrary α) (g : Globals α) (down : Message)
    (moves : List Message) (hdown : down.ext.unclaimed)
    (hkind : down.message = WindowMessage.WM_LBUTTONDOWN)
    (hmoves : ∀ m ∈ moves, m.ext.unclaimed ∧ m.message = WindowMessage.WM_MOUSEMOVE) :
    ((MoveDeltas M (Dispatch M g down) moves).map Prod.fst).sum
        = (lastPointerPosition (GET_X_LPARAM down.l_param, GET_Y_LPARAM down.l_param) moves).1
          - GET_X_LPARAM down.l_param ∧
      ((MoveDeltas M (Dispatch M g down) moves).map Prod.snd).sum
        = (lastPointerPosition (GET_X_LPARAM down.l_param, GET_Y_LPARAM down.l_param) moves).2
          - GET_Y_LPARAM down.l_param ∧
      (DispatchAll M g (down :: moves)).g_previous_mouse_x
        = (lastPointerPosition (GET_X_LPARAM down.l_param, GET_Y_LPARAM down.l_param)
            moves).1 ∧
      (DispatchAll M g (down :: moves)).g_previous_mouse_y
        = (lastPointerPosition (GET_X_LPARAM down.l_param, GET_Y_LPARAM down.l_param)
            moves).2 := by
  have hstart := Dispatch_WM_LBUTTONDOWN M g down hdown hkind
  have hx : (Dispatch M g down).g_previous_mouse_x = GET_X_LPARAM down.l_param := by
    rw [hstart]
  have hy : (Dispatch M g down).g_previous_mouse_y = GET_Y_LPARAM down.l_param := by
    rw [hstart]
  have hd : (Dispatch M g down).g_mouse_down = true := by
    rw [hstart]
  obtain ⟨hsumx, hsumy, hlast, -⟩ := MoveDeltas_sum M moves (Dispatch M g down) hd hmoves
  rw [hx] at hsumx
  rw [hy] at hsumy
  rw [hx, hy] at hlast
  have hlastx := congrArg Prod.fst hlast
  have hlasty := congrArg Prod.snd hlast
  simp only at hlastx hlasty
  refine ⟨?_, ?_, ?_, ?_⟩
  · rw [hsumx, hlastx]
  · rw [hsumy, hlasty]
  · exact hlastx
  · exact hlasty

/-- Witness of C26: a press at `(10, 20)` followed by the three sample Moves,
the last of them to `(40, 18)`. -/
theorem C26_drag_deltas_telescope_witness :
    ((MoveDeltas sampleMath
          (Dispatch sampleMath sampleIdleGlobals
            (sampleMessage WindowMessage.WM_LBUTTONDOWN 0 (MAKELPARAM 10 20)))
          sampleMoves).map Prod.fst).sum
        = (lastPointerPosition
            (GET_X_LPARAM (sampleMessage WindowMessage.WM_LBUTTONDOWN 0
                (MAKELPARAM 10 20)).l_param,
              GET_Y_LPARAM (sampleMessage WindowMessage.WM_LBUTTONDOWN 0
                (MAKELPARAM 10 20)).l_param) sampleMoves).1
          - GET_X_LPARAM (sampleMessage WindowMessage.WM_LBUTTONDOWN 0
              (MAKELPARAM 10 20)).l_param ∧
      (DispatchAll sampleMath sampleIdleGlobals
          (sampleMessage WindowMessage.WM_LBUTTONDOWN 0 (MAKELPARAM 10 20)
            :: sampleMoves)).g_previous_mouse_x
        = (lastPointerPosition
            (GET_X_LPARAM (sampleMessage WindowMessage.WM_LBUTTONDOWN 0
                (MAKELPARAM 10 20)).l_param,
              GET_Y_LPARAM (sampleMessage WindowMessage.WM_LBUTTONDOWN 0
                (MAKELPARAM 10 20)).l_param) sampleMoves).1 ∧
      lastPointerPosition
          (GET_X_LPARAM (sampleMessage WindowMessage.WM_LBUTTONDOWN 0
              (MAKELPARAM 10 20)).l_param,
            GET_Y_LPARAM (sampleMessage WindowMessage.WM_LBUTTONDOWN 0
              (MAKELPARAM 10 20)).l_param) sampleMoves = (40, 18) :=
  ⟨(C26_drag_deltas_telescope sampleMath sampleIdleGlobals
      (sampleMessage WindowMessage.WM_LBUTTONDOWN 0 (MAKELPARAM 10 20)) sampleMoves
      sampleExternal_unclaimed rfl sampleMoves_unclaimed).1,
    (C26_drag_deltas_telescope sampleMath sampleIdleGlobals
      (sampleMessage WindowMessage.WM_LBUTTONDOWN 0 (MAKELPARAM 10 20)) sampleMoves
      sampleExternal_unclaimed rfl sampleMoves_unclaimed).2.2.1,
    by decide⟩

/-- C29: an event claimed by the GUI leaves the drag state untouched, whatever
the message: a claimed `WM_LBUTTONUP` leaves an active drag active and a
claimed `WM_LBUTTONDOWN` neither starts a drag nor stores a position; so after
a claimed `WM_LBUTTONUP` during a drag, an unclaimed Move still rotates the
camera, with the delta taken from the position stored before. -/
theorem C29_claimed_event_keeps_the_drag_state (M : MathLibrary α) (claimed : External)
    (unclaimed : External) (g : Globals α) (w_param l_param move_w_param move_l_param : Nat)
    (hclaimed : claimed.claimed) (hunclaimed : unclaimed.unclaimed) :
    (∀ message : WindowMessage,
        (MainWindowCallback M claimed g message w_param l_param).2.g_mouse_down
            = g.g_mouse_down ∧
          (MainWindowCallback M claimed g message w_param l_param).2.g_previous_mouse_x
            = g.g_previous_mouse_x ∧
          (MainWindowCallback M claimed g message w_param l_param).2.g_previous_mouse_y
            = g.g_previous_mouse_y) ∧
      (g.g_mouse_down = true →
        (MainWindowCallback M claimed g .WM_LBUTTONUP w_param l_param).2.g_mouse_down = true ∧
          (MainWindowCallback M unclaimed
              (MainWindowCallback M claimed g .WM_LBUTTONUP w_param l_param).2
              .WM_MOUSEMOVE move_w_param move_l_param).2.g_camera
            = RotateCamera M
                (camera_rotation_matrix M (mouse_x_drag_distance_in_pixels g move_l_param)
                  (mouse_y_drag_distance_in_pixels g move_l_param))
                g.g_camera) := by
  constructor
  · intro message
    rcases MainWindowCallback_claimed M claimed g message w_param l_param hclaimed with
      h | h <;> rw [h] <;> exact ⟨rfl, rfl, rfl⟩
  · intro hdown
    rcases MainWindowCallback_claimed M claimed g .WM_LBUTTONUP w_param l_param hclaimed with
      h | h
    · rw [h]
      refine ⟨hdown, ?_⟩
      rw [MainWindowCallback_WM_MOUSEMOVE M unclaimed g move_w_param move_l_param hunclaimed
        hdown]
      rfl
    · rw [h]
      refine ⟨hdown, ?_⟩
      rw [MainWindowCallback_WM_MOUSEMOVE M unclaimed { g with g_scene_changed := true }
        move_w_param move_l_param hunclaimed hdown]
      rfl

/-- Witness of C29: during the sample drag the GUI captures the release of the
button; the Move to `(101, 100)` that follows still rotates the camera. -/
theorem C29_claimed_event_keeps_the_drag_state_witness :
    (MainWindowCallback sampleMath sampleCapturingExternal sampleGlobals .WM_LBUTTONUP 0
          (MAKELPARAM 100 100)).2.g_mouse_down = true ∧
      (MainWindowCallback sampleMath sampleExternal
          (MainWindowCallback sampleMath sampleCapturingExternal sampleGlobals .WM_LBUTTONUP 0
            (MAKELPARAM 100 100)).2
          .WM_MOUSEMOVE 0 (MAKELPARAM 101 100)).2.g_camera
        = RotateCamera sampleMath
            (camera_rotation_matrix sampleMath
              (mouse_x_drag_distance_in_pixels sampleGlobals (MAKELPARAM 101 100))
              (mouse_y_drag_distance_in_pixels sampleGlobals (MAKELPARAM 101 100)))
            sampleGlobals.g_camera :=
  (C29_claimed_event_keeps_the_drag_state sampleMath sampleCapturingExternal sampleExternal
    sampleGlobals 0 (MAKELPARAM 100 100) 0 (MAKELPARAM 101 100) (Or.inr rfl)
    sampleExternal_unclaimed).2 rfl

end DragClaims

/-! ## A backend switch together with a file selection -/

section SwitchAndSelect

variable {α : Type} [Field α] {Mdl Sph : Type}

theorem Gui_Create_eq_default (ext : GuiCreateExternal) (device : GraphicsDevice)
    (gui : Gui) (h : Gui.Create ext device = some gui) : gui = {} := by
  unfold Gui.Create at h
  split at h
  · split at h
    · cases h; rfl
    · cases h; rfl
    · split at h
      · cases h
      · cases h; rfl
    · split at h
      · cases h
      · cases h; rfl
  · cases h

theorem Gui_Create_of_initialized (ext : GuiCreateExternal) (device : GraphicsDevice)
    (hwin32 : ext.imgui_initialized = true)
    (hopen_gl : device.Type_ = GraphicsDeviceType.OPEN_GL →
      ext.imgui_open_gl_initializated = true)
    (hdirect_x : device.Type_ = GraphicsDeviceType.DIRECT_3D →
      ext.imgui_direct_x_initialized = true) :
    Gui.Create ext device = some {} := by
  unfold Gui.Create
  rw [if_pos hwin32]
  cases htype : device.Type_ with
  | CPU_RASTERIZER => rfl
  | CPU_RAY_TRACER => rfl
  | OPEN_GL => simp [hopen_gl htype]
  | DIRECT_3D => simp [hdirect_x htype]

/-- C27: if in one iteration the GUI update both changes the backend type and
leaves a non-empty `SelectedFilepath`, a device is created and the ImGui
initialisations of `Gui::Create` succeed, then the iteration ends without a
fault, the GUI object after it is a fresh one with an empty
`SelectedFilepath` and all windows closed, the model-load step issues no
`Load` (the `Load` calls of the iteration are those of the switch), and the
scene and the current object are unchanged, even though the loader could
have loaded the file. -/
theorem C27_switch_discards_the_selected_file (M : MathLibrary α)
    (Object3D_default : Object3D α Mdl Sph) (inp : FrameInput α Mdl Sph)
    (s : AppState α Mdl Sph) (device : GraphicsDevice) (gui : Gui)
    (hdev : s.graphics_device = some device) (hgui : s.gui = some gui)
    (hchanged : s.g_rendering_settings.GraphicsDeviceType
      ≠ inp.gui_update.rendering_settings.GraphicsDeviceType)
    (new_device : GraphicsDevice) (hcreated : inp.created_device = some new_device)
    (hwin32 : inp.gui_create.imgui_initialized = true)
    (hopen_gl : new_device.Type_ = GraphicsDeviceType.OPEN_GL →
      inp.gui_create.imgui_open_gl_initializated = true)
    (hdirect_x : new_device.Type_ = GraphicsDeviceType.DIRECT_3D →
      inp.gui_create.imgui_direct_x_initialized = true)
    (hselected : inp.gui_update.gui.SelectedFilepath ≠ "") :
    (Frame M Object3D_default inp s).fault = none ∧
      (Frame M Object3D_default inp s).state.gui
        = some
            { SelectedFilepath := ""
              RendererSettingsWindow := { IsOpen := false }
              CameraWindow := { IsOpen := false }
              SceneWindow := { IsOpen := false }
              ImGuiMetricsWindowOpen := false
              ImGuiDemoWindowOpen := false } ∧
      LoadCalls (Frame M Object3D_default inp s).calls
        = inp.gui_update.scene.Objects.map (fun object => (new_device, object)) ∧
      (Frame M Object3D_default inp s).state.test_scene.Objects
        = inp.gui_update.scene.Objects ∧
      (Frame M Object3D_default inp s).state.current_object = s.current_object := by
  have _ := hselected
  have hnew_gui : Gui.Create inp.gui_create new_device = some {} :=
    Gui_Create_of_initialized inp.gui_create new_device hwin32 hopen_gl hdirect_x
  have hframe := Frame_of_changed_type M Object3D_default inp s device gui hdev hgui hchanged
    new_device hcreated
  rw [hnew_gui] at hframe
  rw [hframe, LoadNewModel_of_no_selection Object3D_default inp _ _ {} rfl rfl]
  refine ⟨rfl, rfl, ?_, rfl, rfl⟩
  rw [LoadCalls_append, LoadCalls_append, LoadCalls_append, RenderTestScene_LoadCalls,
    LoadCalls_map_Load]
  rfl

/-- Witness of C27: the GUI selects the rasterizer and the file `teapot.obj`
in the same iteration of the sample application; the iteration ends without
a fault, with a fresh GUI object; the two objects of the scene are re-loaded
on the rasterizer and stay the scene's objects, and the current object stays
`test_mesh`: the selected file is not loaded. -/
theorem C27_switch_discards_the_selected_file_witness :
    (Frame sampleMath (sampleObject "") sampleSwitchAndSelectInput sampleAppState).fault
        = none ∧
      (Frame sampleMath (sampleObject "") sampleSwitchAndSelectInput sampleAppState).state.gui
        = some
            { SelectedFilepath := ""
              RendererSettingsWindow := { IsOpen := false }
              CameraWindow := { IsOpen := false }
              SceneWindow := { IsOpen := false }
              ImGuiMetricsWindowOpen := false
              ImGuiDemoWindowOpen := false } ∧
      LoadCalls (Frame sampleMath (sampleObject "") sampleSwitchAndSelectInput
          sampleAppState).calls
        = [(sampleRasterizer, sampleObject "test_mesh"),
            (sampleRasterizer, sampleObject "teapot")] ∧
      (Frame sampleMath (sampleObject "") sampleSwitchAndSelectInput
          sampleAppState).state.test_scene.Objects
        = [sampleObject "test_mesh", sampleObject "teapot"] ∧
      (Frame sampleMath (sampleObject "") sampleSwitchAndSelectInput
          sampleAppState).state.current_object = some (sampleObject "test_mesh") :=
  C27_switch_discards_the_selected_file sampleMath (sampleObject "")
    sampleSwitchAndSelectInput sampleAppState sampleRayTracer {} rfl rfl (by decide)
    sampleRasterizer rfl rfl (fun _ => rfl) (fun _ => rfl) (by decide)

end SwitchAndSelect

/-! ## The device type and the settings agree -/

section DeviceTypeFacts

variable {α Mdl Sph : Type}

theorem LoadNewModel_deviceMatchesSettings (Object3D_default : Object3D α Mdl Sph)
    (inp : FrameInput α Mdl Sph) (calls : List (DeviceCall α Mdl Sph))
    (s : AppState α Mdl Sph) (hs : s.deviceMatchesSettings) :
    (LoadNewModel Object3D_default inp calls s).state.deviceMatchesSettings := by
  obtain ⟨device, hdev, htype⟩ := hs
  obtain ⟨-, hd, -, -, hset⟩ := LoadNewModel_state Object3D_default inp calls s
  exact ⟨device, by rw [hd]; exact hdev, by rw [hset]; exact htype⟩

end DeviceTypeFacts

section DeviceTypeInvariant

variable {α : Type} [Field α] {Mdl Sph : Type}

theorem Frame_deviceMatchesSettings (M : MathLibrary α)
    (Object3D_default : Object3D α Mdl Sph) (inp : FrameInput α Mdl Sph)
    (s : AppState α Mdl Sph) (hs : s.deviceMatchesSettings)
    (hinp : inp.createsRequestedType) :
    (Frame M Object3D_default inp s).state.deviceMatchesSettings := by
  obtain ⟨device, hdev, htype⟩ := hs
  cases hgui : s.gui with
  | none =>
      unfold Frame
      simp only [hdev, hgui]
      exact ⟨device, rfl, htype⟩
  | some gui =>
      by_cases hsame : s.g_rendering_settings.GraphicsDeviceType
          = inp.gui_update.rendering_settings.GraphicsDeviceType
      · rw [Frame_of_same_type M Object3D_default inp s device gui hdev hgui hsame]
        apply LoadNewModel_deviceMatchesSettings
        exact ⟨device, hdev, by rw [htype]; exact hsame⟩
      · obtain ⟨new_device, hcreated, hnew⟩ := hinp
        rw [(Frame_switch M Object3D_default inp s device gui hdev hgui hsame new_device
          hcreated).2]
        exact ⟨new_device, rfl, hnew⟩

theorem RunFrames_deviceMatchesSettings (M : MathLibrary α)
    (Object3D_default : Object3D α Mdl Sph) (inputs : List (FrameInput α Mdl Sph)) :
    ∀ s : AppState α Mdl Sph, s.deviceMatchesSettings →
      (∀ inp ∈ inputs, inp.createsRequestedType) →
      (RunFrames M Object3D_default s inputs).state.deviceMatchesSettings := by
  induction inputs with
  | nil =>
      intro s hs _
      exact hs
  | cons inp rest ih =>
      intro s hs hinputs
      have hfirst := Frame_deviceMatchesSettings M Object3D_default inp s hs
        (hinputs inp (List.mem_cons_self _ _))
      have hrest : ∀ inp' ∈ rest, inp'.createsRequestedType :=
        fun inp' h => hinputs inp' (List.mem_cons_of_mem _ h)
      by_cases hrun : s.running = true
      · cases hfault : (Frame M Object3D_default inp s).fault with
        | none =>
            rw [RunFrames_cons M Object3D_default s inp rest hrun hfault]
            exact ih _ hfirst hrest
        | some fault =>
            have hstop : RunFrames M Object3D_default s (inp :: rest)
                = Frame M Object3D_default inp s := by
              simp only [RunFrames, hrun, if_true, hfault]
            rw [hstop]
            exact hfirst
      · have hstop : RunFrames M Object3D_default s (inp :: rest) = ⟨[], s, none⟩ := by
          simp [RunFrames, hrun]
        rw [hstop]
        exact hs

theorem PaintBackend_eq_CreateBackend (type : GraphicsDeviceType) :
    Gui.PaintBackend type = Gui.CreateBackend type := by
  cases type <;> rfl

theorem ShutdownBackend_eq_CreateBackend (type : GraphicsDeviceType) :
    Gui.ShutdownBackend type = Gui.CreateBackend type := by
  cases type <;> rfl

theorem sampleSwitchingInputs_createsRequestedType :
    ∀ inp ∈ sampleSwitchingInputs, inp.createsRequestedType := by
  intro inp h
  simp only [sampleSwitchingInputs, List.mem_cons, List.mem_singleton, List.not_mem_nil,
    or_false] at h
  rcases h with rfl | rfl | rfl
  · exact ⟨sampleRayTracer, rfl, rfl⟩
  · exact ⟨sampleRasterizer, rfl, rfl⟩
  · exact ⟨sampleRasterizer, rfl, rfl⟩

/-- C28: if `CpuGraphicsDevice::ConnectTo` and every `IGraphicsDevice::Create`
return a device whose `Type()` is the requested type, then after start-up and
after any number of iterations, that is at the start of every iteration, the
active device's `Type()` equals the type held by the settings; so the backend
that the GUI paints with and shuts down, chosen from the settings' type, is
the one `Gui::Create` initialises for the active device. -/
theorem C28_device_type_equals_settings_type (M : MathLibrary α)
    (Object3D_default : Object3D α Mdl Sph) (ext : StartupExternal α Mdl Sph)
    (connected : GraphicsDevice) (inputs : List (FrameInput α Mdl Sph))
    (hconnected : ext.connected_device = some connected)
    (htype : connected.Type_ = ext.g_rendering_settings.GraphicsDeviceType)
    (hinputs : ∀ inp ∈ inputs, inp.createsRequestedType) :
    (Startup M ext).fault = none ∧
      ∃ active,
        (RunFrames M Object3D_default (Startup M ext).state inputs).state.graphics_device
            = some active ∧
          active.Type_
            = (RunFrames M Object3D_default (Startup M ext).state
                inputs).state.g_rendering_settings.GraphicsDeviceType ∧
          Gui.PaintBackend
              (RunFrames M Object3D_default (Startup M ext).state
                inputs).state.g_rendering_settings.GraphicsDeviceType
            = Gui.CreateBackend active.Type_ ∧
          Gui.ShutdownBackend
              (RunFrames M Object3D_default (Startup M ext).state
                inputs).state.g_rendering_settings.GraphicsDeviceType
            = Gui.CreateBackend active.Type_ := by
  have hstart : (Startup M ext).state.deviceMatchesSettings := by
    simp only [Startup, hconnected]
    exact ⟨connected, rfl, htype⟩
  have hfault : (Startup M ext).fault = none := by
    simp only [Startup, hconnected]
  obtain ⟨active, hactive, hequal⟩ :=
    RunFrames_deviceMatchesSettings M Object3D_default inputs _ hstart hinputs
  refine ⟨hfault, active, hactive, hequal, ?_, ?_⟩
  · rw [← hequal]
    exact PaintBackend_eq_CreateBackend _
  · rw [← hequal]
    exact ShutdownBackend_eq_CreateBackend _

/-- Witness of C28: the sample application is started on the ray tracer and
runs an idle iteration, a switch to the rasterizer and one more iteration. -/
theorem C28_device_type_equals_settings_type_witness :
    (Startup sampleMath sampleStartupExternal).fault = none ∧
      ∃ active,
        (RunFrames sampleMath (sampleObject "") (Startup sampleMath sampleStartupExternal).state
            sampleSwitchingInputs).state.graphics_device = some active ∧
          active.Type_
            = (RunFrames sampleMath (sampleObject "")
                (Startup sampleMath sampleStartupExternal).state
                sampleSwitchingInputs).state.g_rendering_settings.GraphicsDeviceType ∧
          Gui.PaintBackend
              (RunFrames sampleMath (sampleObject "")
                (Startup sampleMath sampleStartupExternal).state
                sampleSwitchingInputs).state.g_rendering_settings.GraphicsDeviceType
            = Gui.CreateBackend active.Type_ ∧
          Gui.ShutdownBackend
              (RunFrames sampleMath (sampleObject "")
                (Startup sampleMath sampleStartupExternal).state
                sampleSwitchingInputs).state.g_rendering_settings.GraphicsDeviceType
            = Gui.CreateBackend active.Type_ :=
  C28_device_type_equals_settings_type sampleMath (sampleObject "") sampleStartupExternal
    sampleRayTracer sampleSwitchingInputs rfl rfl sampleSwitchingInputs_createsRequestedType

end DeviceTypeInvariant

/-! ## Removal of lights in the scene window -/

section LightFacts

variable {α : Type}

theorem getElem?_length_append_cons (done : List (Light α)) (light : Light α)
    (rest : List (Light α)) : (done ++ light :: rest)[done.length]? = some light := by
  induction done with
  | nil => simp
  | cons d ds ih => simpa using ih

theorem getElem?_length_append_nil (done : List (Light α)) :
    (done ++ ([] : List (Light α)))[done.length]? = none := by
  simp

theorem set_length_append_cons (done : List (Light α)) (light new_light : Light α)
    (rest : List (Light α)) :
    (done ++ light :: rest).set done.length new_light = done ++ new_light :: rest := by
  induction done with
  | nil => rfl
  | cons d ds ih => simp

theorem eraseIdx_length_append_cons (done : List (Light α)) (light : Light α)
    (rest : List (Light α)) :
    (done ++ light :: rest).eraseIdx done.length = done ++ rest := by
  induction done with
  | nil => rfl
  | cons d ds ih => simpa using ih

theorem LightLoop_eq (ui : Nat → LightInteraction α) (todo : List (Light α)) :
    ∀ (fuel : Nat) (done : List (Light α)) (index : Nat) (labels : List String),
      todo.length ≤ fuel →
      LightLoop ui fuel (done ++ todo) done.length index labels
        = some (done ++ LightsNotRemoved ui index todo,
            labels ++ (List.range' index todo.length).map light_tree_label) := by
  induction todo with
  | nil =>
      intro fuel done index labels _
      cases fuel with
      | zero => simp [LightLoop, LightsNotRemoved]
      | succ fuel => simp [LightLoop, LightsNotRemoved]
  | cons light rest ih =>
      intro fuel done index labels hfuel
      cases fuel with
      | zero => simp at hfuel
      | succ fuel =>
          have hrest : rest.length ≤ fuel := by
            simp only [List.length_cons] at hfuel
            omega
          simp only [LightLoop, getElem?_length_append_cons, set_length_append_cons,
            eraseIdx_length_append_cons, LightsNotRemoved, List.length_cons,
            List.range'_succ, List.map_cons]
          by_cases hopen : (ui index).tree_node_open = true
          · by_cases hremove : (ui index).remove_pressed = true
            · simp only [hopen, hremove, if_true, Bool.and_self]
              rw [ih fuel done (index + 1) _ hrest]
              simp
            · have hremove' : (ui index).remove_pressed = false := by simpa using hremove
              simp only [hopen, hremove', if_true, Bool.and_false, Bool.false_eq_true,
                if_false]
              have hstep := ih fuel (done ++ [(ui index).panel light]) (index + 1)
                (labels ++ [light_tree_label index]) hrest
              simp only [List.length_append, List.length_singleton, List.append_assoc,
                List.singleton_append] at hstep
              rw [hstep]
          · have hopen' : (ui index).tree_node_open = false := by simpa using hopen
            simp only [hopen', Bool.false_and, Bool.false_eq_true, if_false]
            have hstep := ih fuel (done ++ [light]) (index + 1)
              (labels ++ [light_tree_label index]) hrest
            simp only [List.length_append, List.length_singleton, List.append_assoc,
              List.singleton_append] at hstep
            rw [hstep]

theorem LightsNotRemoved_of_no_edit (ui : Nat → LightInteraction α)
    (hpanel : ∀ index, (ui index).panel = id) (lights : List (Light α)) :
    ∀ index : Nat,
      LightsNotRemoved ui index lights
        = ((lights.enumFrom index).filter
            (fun p => !((ui p.1).tree_node_open && (ui p.1).remove_pressed))).map Prod.snd := by
  induction lights with
  | nil => intro index; rfl
  | cons light rest ih =>
      intro index
      simp only [LightsNotRemoved, List.enumFrom_cons, List.filter_cons, hpanel, id_eq,
        ite_self]
      by_cases h : ((ui index).tree_node_open && (ui index).remove_pressed) = true
      · simp only [h, if_true, Bool.not_true, Bool.false_eq_true, if_false]
        exact ih (index + 1)
      · have h' : ((ui index).tree_node_open && (ui index).remove_pressed) = false := by
          simpa using h
        simp only [h', Bool.false_eq_true, if_false, Bool.not_false, if_true, List.map_cons]
        rw [ih (index + 1)]

end LightFacts

section LightClaims

variable {α : Type}

/-- C30: for every list of lights and every choice of open tree nodes and
pressed "Remove" buttons, the removal loop ends once it has as many
iterations as there are lights, and leaves exactly the lights whose Remove
was not pressed, in their original order (each as its panel left it, so
unchanged when the panels edit nothing); the labels shown are, in order,
the text `Light ` followed by the decimal index `0, 1, ...` of the light in
the original list. -/
theorem C30_light_removal_loop (ui : Nat → LightInteraction α) (lights : List (Light α)) :
    (∀ fuel, lights.length ≤ fuel →
        LightLoop ui fuel lights 0 0 []
          = some (LightsNotRemoved ui 0 lights,
              (List.range lights.length).map (fun index => "Light " ++ toString index))) ∧
      ((∀ index, (ui index).panel = id) →
        LightsNotRemoved ui 0 lights
          = (lights.enum.filter
              (fun p => !((ui p.1).tree_node_open && (ui p.1).remove_pressed))).map
              Prod.snd) := by
  constructor
  · intro fuel hfuel
    have h := LightLoop_eq ui lights fuel [] 0 [] hfuel
    simp only [List.nil_append, List.length_nil] at h
    rw [h, List.range_eq_range']
    rfl
  · intro hpanel
    exact LightsNotRemoved_of_no_edit ui hpanel lights 0

/-- Witness of C30: of the three sample lights the one with index `1` is
removed; the lights with indices `0` and `2` remain, in that order, and the
labels shown are `Light 0`, `Light 1`, `Light 2`. -/
theorem C30_light_removal_loop_witness :
    LightLoop sampleLightInteraction 3 sampleLights 0 0 []
        = some ([sampleLight 1, sampleLight 3], ["Light 0", "Light 1", "Light 2"]) ∧
      LightsNotRemoved sampleLightInteraction 0 sampleLights
        = (sampleLights.enum.filter
            (fun p =>
              !((sampleLightInteraction p.1).tree_node_open
                && (sampleLightInteraction p.1).remove_pressed))).map Prod.snd ∧
      LightsNotRemoved sampleLightInteraction 0 sampleLights = [sampleLight 1, sampleLight 3] :=
  ⟨((C30_light_removal_loop sampleLightInteraction sampleLights).1 3 (by decide)).trans
      (by decide),
    (C30_light_removal_loop sampleLightInteraction sampleLights).2 (fun _ => rfl),
    rfl⟩

end LightClaims

end ModelViewer
